import Mathlib

/-!
# FlexibleButton: a Lean model of `flexible_button.c` / `flexible_button.h`

The C library keeps a singly linked list of caller-owned button descriptors
(`btn_head`, threaded through the `next` member), a counter `button_cnt` and
three 32-bit words (`btn_data_cur`, `btn_data_pre`, `btn_toggle`).

Modelling conventions.

* A pointer is a natural number, `0` being `NULL`.  Descriptor objects live in
  a memory `mem : Nat → flex_button_t`.
* The linked list reachable from `btn_head` is represented by the list of the
  addresses it threads, head first; `button->next = btn_head; btn_head = button`
  is a cons.  The `next` member itself is therefore not a record field.
* Machine integers are naturals, reduced explicitly where the C type wraps
  (`uint8_t` modulo 2^8, `uint16_t` modulo 2^16, `uint32_t` modulo 2^32, the
  bit-fields `event : 5` modulo 2^5 and `status : 2` modulo 2^2).
* `int` is taken to be 32 bits wide, a left shift keeps the low 32 bits of the
  product with the power of two.  (For a shift count of 32 or more C leaves the
  result undefined; the model then yields 0.)
* The level readers are external: one scan receives a function `raw` giving,
  for the descriptor at each address, the byte its `usr_button_read` returns
  when called during that scan.
* A callback is external code; the model records each execution of
  `SET_EVENT_AND_RUN_CB` and assumes the callback leaves the library state
  alone.
-/

namespace FlexibleButton

/-! ## Constants of `flexible_button.h` -/

abbrev FLEX_BTN_SCAN_HZ : Nat := 50

/-- The macro `FLEX_MS_TO_CNT(ms)`, that is `ms / (1000 / FLEX_BTN_SCAN_HZ)`. -/
def FLEX_MS_TO_CNT (ms : Nat) : Nat := ms / (1000 / FLEX_BTN_SCAN_HZ)

abbrev FLEX_BTN_PRESS_DOWN : Nat := 0
abbrev FLEX_BTN_PRESS_CLICK : Nat := 1
abbrev FLEX_BTN_PRESS_DOUBLE_CLICK : Nat := 2
abbrev FLEX_BTN_PRESS_TRIPLE_CLICK : Nat := 3
abbrev FLEX_BTN_PRESS_QUADRA_CLICK : Nat := 4
abbrev FLEX_BTN_PRESS_PENTA_CLICK : Nat := 5
abbrev FLEX_BTN_PRESS_HEXA_CLICK : Nat := 6
abbrev FLEX_BTN_PRESS_GODLIKE_CLICK : Nat := 7
abbrev FLEX_BTN_PRESS_LEGENDARY : Nat := 8
abbrev FLEX_BTN_PRESS_SHORT_START : Nat := 9
abbrev FLEX_BTN_PRESS_SHORT_UP : Nat := 10
abbrev FLEX_BTN_PRESS_LONG_START : Nat := 11
abbrev FLEX_BTN_PRESS_LONG_UP : Nat := 12
abbrev FLEX_BTN_PRESS_LONG_HOLD : Nat := 13
abbrev FLEX_BTN_PRESS_LONG_HOLD_UP : Nat := 14
abbrev FLEX_BTN_PRESS_MAX : Nat := 15
abbrev FLEX_BTN_PRESS_NONE : Nat := 16

abbrev MAX_BUTTON_CNT : Nat := 32

/-- The descriptor `struct flex_button`, without its `next` link (see the
header of this file).  `usr_button_read` and `cb` are function pointers, `0`
being `NULL`. -/
structure flex_button_t where
  pressed_logic_level : Nat
  event : Nat
  status : Nat
  scan_cnt : Nat
  click_cnt : Nat
  release_max_cnt : Nat
  debounce_tick : Nat
  click_start_tick : Nat
  short_press_start_tick : Nat
  long_press_start_tick : Nat
  long_hold_start_tick : Nat
  usr_button_read : Nat
  cb : Nat
deriving DecidableEq, Repr

/-- The file-scope variables of `flexible_button.c` together with the memory
holding the descriptors. -/
structure State where
  mem : Nat → flex_button_t
  btn_head : List Nat
  button_cnt : Nat
  btn_data_cur : Nat
  btn_data_pre : Nat
  btn_toggle : Nat

/-- The state at program start: the statics are zero-initialised. -/
def State.init (mem : Nat → flex_button_t) : State :=
  { mem := mem, btn_head := [], button_cnt := 0,
    btn_data_cur := 0, btn_data_pre := 0, btn_toggle := 0 }

/-! ## `flex_button_register` -/

/-- Conversion of a `uint8_t` value to `int8_t` (two's complement). -/
def to_int8 (n : Nat) : Int :=
  if n % 256 < 128 then ((n % 256 : Nat) : Int) else ((n % 256 : Nat) : Int) - 256

/-- The `while (curr)` loop of `flex_button_register`: `true` when some node
of the list is `button` (the `return -1; // already exist.` exit). -/
def already_exist (button : Nat) : List Nat → Bool
  | [] => false
  | curr :: next => if curr = button then true else already_exist button next

/-- The function `flex_button_register`: the returned `int8_t` and the state
after the call. -/
def flex_button_register (s : State) (button : Nat) : Int × State :=
  if button = 0 ∨ s.button_cnt > MAX_BUTTON_CNT then
    (-1, s)
  else if already_exist button s.btn_head then
    (-1, s)
  else
    let b := s.mem button
    let b1 := { b with status := 0 % 4, event := FLEX_BTN_PRESS_NONE % 32,
                       scan_cnt := 0, click_cnt := 0 }
    let cnt := (s.button_cnt + 1) % 256
    (to_int8 cnt,
     { s with mem := Function.update s.mem button b1,
              btn_head := button :: s.btn_head,
              button_cnt := cnt })

/-- Registering the addresses of a list one after the other, first element
first; the state after the last call. -/
def register_all (s : State) : List Nat → State
  | [] => s
  | p :: ps => register_all (flex_button_register s p).2 ps

/-! ## `flex_button_read` -/

/-- The C expression `v << i` on `int`, converted to `uint32_t`. -/
def shl32 (v i : Nat) : Nat := (v * 2 ^ i) % 2 ^ 32

/-- The C expression `!v`. -/
def lnot (v : Nat) : Nat := if v = 0 then 1 else 0

/-- The `for` loop of `flex_button_read` from node list `l`, loop counter `i`
and accumulated word `cur`.  The loop ends at the end of the list or at the
first descriptor whose `usr_button_read` is `NULL`. -/
def read_loop (mem : Nat → flex_button_t) (raw : Nat → Nat) :
    List Nat → Nat → Nat → Nat
  | [], _, cur => cur
  | target :: next, i, cur =>
    if (mem target).usr_button_read = 0 then cur
    else
      let v := raw target % 256
      let bit := if (mem target).pressed_logic_level ≠ 0 then shl32 v i
                 else shl32 (lnot v) i
      read_loop mem raw next ((i + 1) % 256) (cur ||| bit)

/-- The function `flex_button_read`. -/
def flex_button_read (s : State) (raw : Nat → Nat) : State :=
  let cur := read_loop s.mem raw s.btn_head 0 0
  { s with btn_data_cur := cur,
           btn_toggle := cur ^^^ s.btn_data_pre,
           btn_data_pre := cur }

/-! ## `flex_button_process` -/

/-- The macro `SET_EVENT_AND_RUN_CB(btn, evt)`: the store into the 5-bit
member; the second component records the event that was set (and handed to
the callback when `cb` is not `NULL`). -/
def SET_EVENT_AND_RUN_CB (btn : flex_button_t) (evt : Nat) :
    flex_button_t × Option Nat :=
  ({ btn with event := evt % 32 }, some (evt % 32))

/-- The macro `BTN_TOGGLE(i)`, as a truth value. -/
def BTN_TOGGLE (btn_toggle i : Nat) : Bool :=
  (btn_toggle &&& shl32 1 i) != 0

/-- The `scan_cnt++` under `if (target->status > 0)`. -/
def count_scan (target : flex_button_t) : flex_button_t :=
  if target.status > 0 then
    { target with scan_cnt := (target.scan_cnt + 1) % 65536 }
  else target

/-- The `switch (target->status)` of `flex_button_process`, for one node, with
`toggled` the value of `BTN_TOGGLE(i)`.  The second component is the event set
by `SET_EVENT_AND_RUN_CB`, if the macro ran. -/
def process_switch (target : flex_button_t) (toggled : Bool) :
    flex_button_t × Option Nat :=
  match target.status with
  | 0 =>
    if toggled then
      ({ target with scan_cnt := 0, click_cnt := 0, status := 1 % 4 }, none)
    else
      ({ target with event := FLEX_BTN_PRESS_NONE % 32 }, none)
  | 1 =>
    if toggled then
      if target.scan_cnt ≤ FLEX_MS_TO_CNT target.short_press_start_tick then
        ({ target with status := 2 % 4, scan_cnt := 0 }, none)
      else
        let r :=
          if target.scan_cnt > FLEX_MS_TO_CNT target.long_hold_start_tick then
            SET_EVENT_AND_RUN_CB target FLEX_BTN_PRESS_LONG_HOLD_UP
          else if target.scan_cnt > FLEX_MS_TO_CNT target.long_press_start_tick then
            SET_EVENT_AND_RUN_CB target FLEX_BTN_PRESS_LONG_UP
          else if target.scan_cnt > FLEX_MS_TO_CNT target.short_press_start_tick then
            SET_EVENT_AND_RUN_CB target FLEX_BTN_PRESS_SHORT_UP
          else (target, none)
        ({ r.1 with status := 0 % 4 }, r.2)
    else
      if target.scan_cnt > FLEX_MS_TO_CNT target.long_hold_start_tick then
        if target.event ≠ FLEX_BTN_PRESS_LONG_HOLD then
          SET_EVENT_AND_RUN_CB target FLEX_BTN_PRESS_LONG_HOLD
        else (target, none)
      else if target.scan_cnt > FLEX_MS_TO_CNT target.long_press_start_tick then
        if target.event ≠ FLEX_BTN_PRESS_LONG_START then
          SET_EVENT_AND_RUN_CB target FLEX_BTN_PRESS_LONG_START
        else (target, none)
      else if target.scan_cnt > FLEX_MS_TO_CNT target.short_press_start_tick then
        if target.event ≠ FLEX_BTN_PRESS_SHORT_START then
          SET_EVENT_AND_RUN_CB target FLEX_BTN_PRESS_SHORT_START
        else (target, none)
      else (target, none)
  | 2 =>
    if target.scan_cnt > FLEX_MS_TO_CNT target.release_max_cnt then
      let r :=
        if target.click_cnt ≤ FLEX_BTN_PRESS_LEGENDARY - FLEX_BTN_PRESS_CLICK then
          SET_EVENT_AND_RUN_CB target (FLEX_BTN_PRESS_CLICK + target.click_cnt)
        else (target, none)
      ({ r.1 with status := 0 % 4 }, r.2)
    else if toggled then
      ({ target with click_cnt := (target.click_cnt + 1) % 65536,
                     scan_cnt := 0, status := 1 % 4 }, none)
    else (target, none)
  | _ => (target, none)

/-- The body of the `for` loop of `flex_button_process` for one node. -/
def process_body (target : flex_button_t) (toggled : Bool) :
    flex_button_t × Option Nat :=
  process_switch (count_scan target) toggled

/-- One execution of `SET_EVENT_AND_RUN_CB` during a scan: the address of the
descriptor, the event stored, and whether the callback ran (`cb` not `NULL`). -/
structure Fired where
  button : Nat
  event : Nat
  cb_run : Bool
deriving DecidableEq, Repr

/-- The record of a fired event, if any, for the node at address `target`. -/
def fired_of (target : Nat) (cb : Nat) : Option Nat → List Fired
  | none => []
  | some e => [{ button := target, event := e, cb_run := cb != 0 }]

/-- The `for` loop of `flex_button_process` from node list `l` and loop
counter `i`: the memory after the loop and the events fired, in order. -/
def process_loop (btn_toggle : Nat) :
    List Nat → Nat → (Nat → flex_button_t) → (Nat → flex_button_t) × List Fired
  | [], _, mem => (mem, [])
  | target :: next, i, mem =>
    let r := process_body (mem target) (BTN_TOGGLE btn_toggle i)
    let rest := process_loop btn_toggle next ((i + 1) % 256)
                  (Function.update mem target r.1)
    (rest.1, fired_of target (mem target).cb r.2 ++ rest.2)

/-- The function `flex_button_process`. -/
def flex_button_process (s : State) : State × List Fired :=
  let r := process_loop s.btn_toggle s.btn_head 0 s.mem
  ({ s with mem := r.1 }, r.2)

/-- The function `flex_button_event_read`. -/
def flex_button_event_read (s : State) (button : Nat) : Nat :=
  (s.mem button).event

/-- The function `flex_button_scan`: `flex_button_read` then
`flex_button_process`. -/
def flex_button_scan (s : State) (raw : Nat → Nat) : State × List Fired :=
  flex_button_process (flex_button_read s raw)

/-- Successive scans, one per element of `raws`; the final state and, for each
scan in order, the events it fired. -/
def scan_run (s : State) : List (Nat → Nat) → State × List (List Fired)
  | [] => (s, [])
  | raw :: raws =>
    let r := flex_button_scan s raw
    let rest := scan_run r.1 raws
    (rest.1, r.2 :: rest.2)

/-- Successive loop bodies for one descriptor, one per element of `toggles`
(the value of `BTN_TOGGLE` at each scan); the final descriptor and, for each
scan in order, the event fired by it, if any. -/
def body_run (b : flex_button_t) : List Bool → flex_button_t × List (Option Nat)
  | [] => (b, [])
  | t :: ts =>
    let r := process_body b t
    let rest := body_run r.1 ts
    (rest.1, r.2 :: rest.2)

/-! ## Concrete data used by the examples -/

/-- A descriptor with thresholds of 200 ms, 1000 ms and 1200 ms (10, 50 and 60
scans at 50 Hz), a release window of 400 ms (20 scans), active-high wiring, a
reader and no callback.  Its runtime members are deliberately not the initial
ones. -/
def demo_button : flex_button_t :=
  { pressed_logic_level := 1, event := FLEX_BTN_PRESS_SHORT_UP, status := 1,
    scan_cnt := 7, click_cnt := 3, release_max_cnt := 400,
    debounce_tick := 0, click_start_tick := 0,
    short_press_start_tick := 200, long_press_start_tick := 1000,
    long_hold_start_tick := 1200, usr_button_read := 1, cb := 0 }

/-- A memory holding `demo_button` at every address. -/
def demo_mem : Nat → flex_button_t := fun _ => demo_button

/-- The registry after registering the descriptors at addresses 1, 2, ..., n
in that order, starting from the empty registry. -/
def demo_registry (n : Nat) : State :=
  register_all (State.init demo_mem) (List.range' 1 n)

/-! ## Sampling -/

/-- The normalised level of the descriptor at `p`: its reader returns its
`pressed_logic_level`. -/
def pressed (mem : Nat → flex_button_t) (raw : Nat → Nat) (p : Nat) : Bool :=
  decide (raw p = (mem p).pressed_logic_level)

/-- A memory like `demo_mem` whose descriptor at address 2 is wired
active-low. -/
def demo_mem_inverted : Nat → flex_button_t := fun p =>
  if p = 2 then { demo_button with pressed_logic_level := 0 } else demo_button

/-- Raw levels of one scan: the reader of the descriptor at address 3 returns
1, every other reader returns 0. -/
def demo_raw : Nat → Nat := fun p => if p = 3 then 1 else 0

/-! ## Isolation between buttons -/

/-- Raw levels of one scan in which every reader returns 0. -/
def raw_all_low : Nat → Nat := fun _ => 0

/-- Raw levels of one scan in which the reader of the descriptor at address 2
returns the byte 2 (a non-zero level, such as a masked port value) and every
other reader returns 0. -/
def raw_two_at_2 : Nat → Nat := fun p => if p = 2 then 2 else 0

/-! ## The classifier, one scan -/

/-- The descriptor `demo_button` in PRESSED with the given scan count. -/
def demo_pressed (scan_cnt : Nat) : flex_button_t :=
  { demo_button with status := 1, scan_cnt := scan_cnt }

/-- The short-press threshold as the classifier compares it, in scans. -/
abbrev short_ticks (b : flex_button_t) : Nat := FLEX_MS_TO_CNT b.short_press_start_tick

/-- The long-press threshold as the classifier compares it, in scans. -/
abbrev long_ticks (b : flex_button_t) : Nat := FLEX_MS_TO_CNT b.long_press_start_tick

/-- The long-hold threshold as the classifier compares it, in scans. -/
abbrev hold_ticks (b : flex_button_t) : Nat := FLEX_MS_TO_CNT b.long_hold_start_tick

/-- The release window as the classifier compares it, in scans. -/
abbrev window_ticks (b : flex_button_t) : Nat := FLEX_MS_TO_CNT b.release_max_cnt

/-- The incremented scan count `scan_cnt + 1` of a `uint16_t`. -/
abbrev next_cnt (b : flex_button_t) : Nat := (b.scan_cnt + 1) % 65536

/-! ## The classifier over several scans -/

/-- The toggles of one press: an edge, `t - 1` scans held, and the release
edge `t` scans after the first. -/
def press_release (t : Nat) : List Bool :=
  (true :: List.replicate (t - 1) false) ++ [true]

/-- The descriptor `b` while a press that began in IDLE is held: PRESSED, click
count 0, scan count `j`, event member `e`. -/
def held_state (b : flex_button_t) (j e : Nat) : flex_button_t :=
  { b with status := 1, click_cnt := 0, scan_cnt := j, event := e }

/-- The events fired per scan while a press is held up to the long threshold:
SHORT_START at scan `S + 1` after the press edge. -/
def held_trace_short (b : flex_button_t) (j : Nat) : List (Option Nat) :=
  none :: (List.replicate (short_ticks b) none ++
    some FLEX_BTN_PRESS_SHORT_START :: List.replicate (j - short_ticks b - 1) none)

/-- The events fired per scan while a press is held up to the long-hold
threshold: SHORT_START at scan `S + 1`, LONG_START at scan `L + 1`. -/
def held_trace_long (b : flex_button_t) (j : Nat) : List (Option Nat) :=
  held_trace_short b (long_ticks b) ++
    some FLEX_BTN_PRESS_LONG_START :: List.replicate (j - long_ticks b - 1) none

/-- The events fired per scan while a press is held beyond the long-hold
threshold: SHORT_START at scan `S + 1`, LONG_START at scan `L + 1`, LONG_HOLD
at scan `H + 1`. -/
def held_trace_hold (b : flex_button_t) (j : Nat) : List (Option Nat) :=
  held_trace_long b (hold_ticks b) ++
    some FLEX_BTN_PRESS_LONG_HOLD :: List.replicate (j - hold_ticks b - 1) none

/-! ## States reached from registration -/

/-- The runtime initialisation done by `flex_button_register`. -/
def registered (b : flex_button_t) : flex_button_t :=
  { b with status := 0, event := FLEX_BTN_PRESS_NONE, scan_cnt := 0, click_cnt := 0 }

/-- The configuration members of a descriptor. -/
def config (b : flex_button_t) : Nat × Nat × Nat × Nat × Nat × Nat × Nat × Nat × Nat :=
  (b.pressed_logic_level, b.release_max_cnt, b.debounce_tick, b.click_start_tick,
   b.short_press_start_tick, b.long_press_start_tick, b.long_hold_start_tick,
   b.usr_button_read, b.cb)

/-- SHORT_START is in the event member only while the press is in the short
bucket. -/
def start_fresh (b : flex_button_t) : Prop :=
  b.event = FLEX_BTN_PRESS_SHORT_START →
    b.status = 1 ∧ short_ticks b < b.scan_cnt ∧ b.scan_cnt ≤ long_ticks b ∧
    b.scan_cnt ≤ hold_ticks b

/-! ## Multi-click -/

/-- The toggles of the later presses of a click sequence: for each pair
`(g, d)`, the press edge comes `g` scans after the previous release edge and
the release edge `d` scans after the press edge. -/
def click_train : List (Nat × Nat) → List Bool
  | [] => []
  | gd :: rest => List.replicate (gd.1 - 1) false ++ press_release gd.2 ++ click_train rest

/-- The descriptor `b` in RELEASE_WINDOW just after a release edge, with click
count `c`. -/
def click_state (b : flex_button_t) (c : Nat) : flex_button_t :=
  { b with status := 2, click_cnt := c, scan_cnt := 0 }

/-- The descriptor `b` in PRESSED during a click sequence, with click count
`c` and scan count `j`. -/
def clicking_state (b : flex_button_t) (c j : Nat) : flex_button_t :=
  { b with status := 1, click_cnt := c, scan_cnt := j }

/-- The toggles of a whole click sequence: a first press released `d0` scans
after its press edge, the later presses `rest`, and `m` scans without a
toggle. -/
def click_sequence (d0 : Nat) (rest : List (Nat × Nat)) (m : Nat) : List Bool :=
  press_release d0 ++ click_train rest ++ List.replicate m false

/-- A descriptor in IDLE whose long-press threshold (0 scans) is below its
short-press threshold (10 scans). -/
def demo_unordered : flex_button_t :=
  { registered demo_button with long_press_start_tick := 0 }

/-! ## A whole scan, end to end -/

/-- Raw levels of one scan in which every reader returns 1. -/
def raw_all_high : Nat → Nat := fun _ => 1

/-! ## Isolation for levels 0 and 1 -/

/-- Bit `k` of the word assembled by the loop of `flex_button_read` over the
node list: clear from the first descriptor without a reader on, else the
normalised level of the descriptor at index `k`. -/
def sampled_bit (mem : Nat → flex_button_t) (raw : Nat → Nat) : List Nat → Nat → Bool
  | [], _ => false
  | t :: next, k =>
    if (mem t).usr_button_read = 0 then false
    else match k with
      | 0 => pressed mem raw t
      | k + 1 => sampled_bit mem raw next k

/-- Raw levels of one scan in which the reader of the descriptor at address 2
returns 1 and every other reader returns 0. -/
def raw_high_at_2 : Nat → Nat := fun p => if p = 2 then 1 else 0

/-! ## The IDLE and RELEASE_WINDOW steps -/

/-- The descriptor `demo_button` in RELEASE_WINDOW with the given scan and
click counts. -/
def demo_window (scan_cnt click_cnt : Nat) : flex_button_t :=
  { demo_button with status := 2, scan_cnt := scan_cnt, click_cnt := click_cnt }

/-- The click-tier codes that the expiry of the release window can store:
`FLEX_BTN_PRESS_CLICK` up to `FLEX_BTN_PRESS_LEGENDARY`. -/
def is_click_event (e : Nat) : Bool :=
  decide (FLEX_BTN_PRESS_CLICK ≤ e) && decide (e ≤ FLEX_BTN_PRESS_LEGENDARY)

/-- The three events fired on a release edge from PRESSED. -/
def is_up_event (e : Nat) : Bool :=
  decide (e = FLEX_BTN_PRESS_SHORT_UP) || decide (e = FLEX_BTN_PRESS_LONG_UP) ||
    decide (e = FLEX_BTN_PRESS_LONG_HOLD_UP)

/-! ## Sequences of API calls -/

/-- A call of one of the two state-changing functions of the API. -/
inductive Call where
  | register (button : Nat)
  | scan (raw : Nat → Nat)

/-- The state after one call and the events it fired (`flex_button_register`
fires none). -/
def call_step (s : State) : Call → State × List Fired
  | Call.register button => ((flex_button_register s button).2, [])
  | Call.scan raw => flex_button_scan s raw

/-- A sequence of calls, first element first: the final state and all the
events fired, in order. -/
def call_run (s : State) : List Call → State × List Fired
  | [] => (s, [])
  | c :: cs =>
    let r := call_step s c
    let rest := call_run r.1 cs
    (rest.1, r.2 ++ rest.2)

/-- Registration of the descriptors at addresses 1 and 2, then one scan in
which the reader of descriptor 2 returns 1, then one in which both return
0. -/
def demo_calls : List Call :=
  [Call.register 1, Call.register 2, Call.scan raw_high_at_2, Call.scan raw_all_low]

/-- Every registered descriptor has a status of at most 2 and an event member
other than `FLEX_BTN_PRESS_DOWN`. -/
def registry_ok (s : State) : Prop :=
  ∀ q ∈ s.btn_head, (s.mem q).status ≤ 2 ∧ (s.mem q).event ≠ FLEX_BTN_PRESS_DOWN

/-! ## `flex_button_event_read` as a call -/

/-- The call `flex_button_event_read(button)` as a state transition: the value
returned and the state after the call.  The body of the function is a single
`return` of the event member, with no assignment. -/
def event_read_call (s : State) (button : Nat) : Nat × State :=
  (flex_button_event_read s button, s)

/-! ## Event codes and threshold units -/

/-- A descriptor whose threshold members hold the scan counts 10, 50 and 60
themselves, in PRESSED with scan count 0. -/
def demo_cycles : flex_button_t :=
  { demo_button with status := 1, scan_cnt := 0, short_press_start_tick := 10,
                     long_press_start_tick := 50, long_hold_start_tick := 60 }

/-! ## Sampling positions -/

/-- Raw levels of one scan in which the reader of the descriptor at address 1
returns 1 and every other reader returns 0. -/
def raw_high_at_1 : Nat → Nat := fun p => if p = 1 then 1 else 0

/-- Descriptor 1 is registered and pressed, then descriptor 2 is registered,
then a scan finds descriptor 1 still pressed and descriptor 2 released. -/
def demo_late_register : List Call :=
  [Call.register 1, Call.scan raw_high_at_1, Call.register 2, Call.scan raw_high_at_1]

/-! ## IDLE and the retained level -/

/-- Raw levels of 23 scans of a single button: pressed for one scan, released
for 21 scans, and pressed again on scan 23, the scan on which the release
window (20 scans) expires. -/
def press_at_expiry : List (Nat → Nat) :=
  raw_all_high :: (List.replicate 21 raw_all_low ++ [raw_all_high])

/-! # Theorems -/

set_option maxRecDepth 100000

/-! ## Registration -/

theorem already_exist_iff (button : Nat) (l : List Nat) :
    already_exist button l = true ↔ button ∈ l := by
  induction l with
  | nil => simp [already_exist]
  | cons curr next ih =>
    by_cases h : curr = button
    · simp [already_exist, h]
    · have h2 : ¬ button = curr := fun e => h e.symm
      simp [already_exist, h, h2, ih]

theorem to_int8_small (n : Nat) (h : n < 128) : to_int8 n = (n : Int) := by
  have h1 : n % 256 = n := Nat.mod_eq_of_lt (by omega)
  simp [to_int8, h1, h]

/-- On the path of `flex_button_register` that links the descriptor, the value
returned is the incremented counter, a number from 1 to 33. -/
theorem register_linked_value (cnt : Nat) (h : ¬ cnt > MAX_BUTTON_CNT) :
    to_int8 ((cnt + 1) % 256) = (cnt : Int) + 1 := by
  have h1 : cnt ≤ 32 := by simpa [MAX_BUTTON_CNT] using h
  have h2 : (cnt + 1) % 256 = cnt + 1 := Nat.mod_eq_of_lt (by omega)
  rw [h2, to_int8_small _ (by omega)]
  push_cast
  ring

/-- The descriptor linked by a successful `flex_button_register` holds the
runtime initialisation `registered` of what it held before. -/
theorem register_mem_registered (s : State) (button : Nat)
    (hnull : button ≠ 0) (hcnt : ¬ s.button_cnt > MAX_BUTTON_CNT)
    (hfresh : button ∉ s.btn_head) :
    (flex_button_register s button).2.mem button = registered (s.mem button) := by
  have hex : already_exist button s.btn_head = false := by
    cases hb : already_exist button s.btn_head with
    | false => rfl
    | true => exact absurd ((already_exist_iff _ _).1 hb) hfresh
  simp [flex_button_register, hnull, hcnt, hex, registered, FLEX_BTN_PRESS_NONE]

/-- C1: in a registry holding fewer than `MAX_BUTTON_CNT` buttons, registering
a non-null descriptor that is not linked returns the old count plus one, makes
the descriptor the head of the sequence with the old sequence behind it, sets
its runtime members to `status = 0`, `event = FLEX_BTN_PRESS_NONE`,
`scan_cnt = 0`, `click_cnt = 0` and leaves its configuration members, every
other descriptor and the level words as they were. -/
theorem register_success (s : State) (button : Nat)
    (hcnt : s.button_cnt < MAX_BUTTON_CNT) (hnull : button ≠ 0)
    (hfresh : button ∉ s.btn_head) :
    (flex_button_register s button).1 = (s.button_cnt : Int) + 1 ∧
    (flex_button_register s button).2.button_cnt = s.button_cnt + 1 ∧
    (flex_button_register s button).2.btn_head = button :: s.btn_head ∧
    (flex_button_register s button).2.mem button =
      { s.mem button with status := 0, event := FLEX_BTN_PRESS_NONE,
                          scan_cnt := 0, click_cnt := 0 } ∧
    (∀ q, q ≠ button → (flex_button_register s button).2.mem q = s.mem q) ∧
    (flex_button_register s button).2.btn_data_cur = s.btn_data_cur ∧
    (flex_button_register s button).2.btn_data_pre = s.btn_data_pre ∧
    (flex_button_register s button).2.btn_toggle = s.btn_toggle := by
  have hle : ¬ s.button_cnt > MAX_BUTTON_CNT := by
    simp only [MAX_BUTTON_CNT] at hcnt ⊢
    omega
  have hex : already_exist button s.btn_head = false := by
    cases hb : already_exist button s.btn_head with
    | false => rfl
    | true => exact absurd ((already_exist_iff _ _).1 hb) hfresh
  have hmod : (s.button_cnt + 1) % 256 = s.button_cnt + 1 := by
    simp only [MAX_BUTTON_CNT] at hcnt
    exact Nat.mod_eq_of_lt (by omega)
  have hval := register_linked_value s.button_cnt hle
  refine ⟨?_, ?_, ?_, ?_, ?_, ?_, ?_, ?_⟩
  · simp only [flex_button_register, hnull, hle, hex, false_or, if_false]
    simpa using hval
  · simp [flex_button_register, hnull, hle, hex, hmod]
  · simp [flex_button_register, hnull, hle, hex]
  · simp [flex_button_register, hnull, hle, hex, FLEX_BTN_PRESS_NONE]
  · intro q hq
    simp [flex_button_register, hnull, hle, hex, Function.update, hq]
  · simp [flex_button_register, hnull, hle, hex]
  · simp [flex_button_register, hnull, hle, hex]
  · simp [flex_button_register, hnull, hle, hex]

theorem register_success_witness :
    (flex_button_register (demo_registry 2) 7).1 = 3 ∧
    (flex_button_register (demo_registry 2) 7).2.btn_head = [7, 2, 1] ∧
    ((flex_button_register (demo_registry 2) 7).2.mem 7).status = 0 ∧
    ((flex_button_register (demo_registry 2) 7).2.mem 7).short_press_start_tick = 200 :=
  have h := register_success (demo_registry 2) 7 (by decide) (by decide) (by decide)
  ⟨by rw [h.1]; decide, by rw [h.2.2.1]; decide, by rw [h.2.2.2.1],
   by rw [h.2.2.2.1]; rfl⟩

/-- C2 (the code at the capacity boundary): starting from the empty registry,
the 33rd registration of a fresh non-null descriptor is accepted, because the
guard is `button_cnt > MAX_BUTTON_CNT`; the call returns 33, the registry then
holds 33 descriptors, the oldest at traversal index 32; only the 34th
registration returns -1. -/
theorem register_at_capacity :
    (demo_registry 32).button_cnt = MAX_BUTTON_CNT ∧
    (demo_registry 32).btn_head.length = 32 ∧
    ¬ (33 ∈ (demo_registry 32).btn_head) ∧
    (flex_button_register (demo_registry 32) 33).1 = 33 ∧
    (flex_button_register (demo_registry 32) 33).2.button_cnt = 33 ∧
    (flex_button_register (demo_registry 32) 33).2.btn_head.length = 33 ∧
    (flex_button_register (demo_registry 32) 33).2.btn_head.indexOf 1 = 32 ∧
    (flex_button_register (demo_registry 33) 34).1 = -1 := by
  decide

/-- C3: registering a descriptor that is already linked, at whatever position,
returns -1 and leaves the button count as it was. -/
theorem register_duplicate_rejected (s : State) (button : Nat)
    (hmem : button ∈ s.btn_head) :
    (flex_button_register s button).1 = -1 ∧
    (flex_button_register s button).2.button_cnt = s.button_cnt := by
  have hex : already_exist button s.btn_head = true :=
    (already_exist_iff _ _).2 hmem
  unfold flex_button_register
  by_cases hg : button = 0 ∨ s.button_cnt > MAX_BUTTON_CNT
  · simp [hg]
  · simp [hg, hex]

theorem register_duplicate_rejected_witness :
    (flex_button_register (demo_registry 3) 1).1 = -1 ∧
    (flex_button_register (demo_registry 3) 1).2.button_cnt = 3 :=
  have h := register_duplicate_rejected (demo_registry 3) 1 (by decide)
  ⟨h.1, by rw [h.2]; decide⟩

/-- C4: registering the null descriptor returns -1, and whenever
`flex_button_register` returns -1 the whole state after the call is the state
before it: counter, sequence, every member of every descriptor and the level
words. -/
theorem register_failure_atomic (s : State) (button : Nat) :
    (button = 0 → (flex_button_register s button).1 = -1) ∧
    ((flex_button_register s button).1 = -1 →
      (flex_button_register s button).2 = s) := by
  constructor
  · intro h0
    simp [flex_button_register, h0]
  · intro hret
    unfold flex_button_register at hret ⊢
    by_cases hg : button = 0 ∨ s.button_cnt > MAX_BUTTON_CNT
    · simp [hg]
    · cases hex : already_exist button s.btn_head with
      | true => simp [hg, hex]
      | false =>
        have hle : ¬ s.button_cnt > MAX_BUTTON_CNT := fun h => hg (Or.inr h)
        have hval := register_linked_value s.button_cnt hle
        have hret2 : to_int8 ((s.button_cnt + 1) % 256) = -1 := by
          simpa only [hg, hex, if_false, Bool.false_eq_true] using hret
        rw [hval] at hret2
        omega

theorem register_failure_atomic_witness :
    (flex_button_register (demo_registry 3) 0).1 = -1 ∧
    (flex_button_register (demo_registry 3) 2).1 = -1 ∧
    (flex_button_register (demo_registry 3) 2).2 = demo_registry 3 ∧
    ((flex_button_register (demo_registry 3) 2).2.mem 2).scan_cnt = 0 :=
  ⟨(register_failure_atomic (demo_registry 3) 0).1 rfl,
   by decide,
   (register_failure_atomic (demo_registry 3) 2).2 (by decide),
   by rw [(register_failure_atomic (demo_registry 3) 2).2 (by decide)]; decide⟩

/-! ## Sampling -/

theorem shl32_bit (b i : Nat) (hi : i < 32) (hb : b = 0 ∨ b = 1) (j : Nat) :
    (shl32 b i).testBit j = (decide (b = 1) && decide (i = j)) := by
  have hpow : 2 ^ i < 2 ^ 32 := Nat.pow_lt_pow_right (by norm_num) hi
  rcases hb with rfl | rfl
  · simp [shl32]
  · have hm : (1 * 2 ^ i) % 2 ^ 32 = 2 ^ i := by
      rw [Nat.one_mul]; exact Nat.mod_eq_of_lt hpow
    unfold shl32
    rw [hm, Nat.testBit_two_pow]
    simp

theorem read_loop_testBit (mem : Nat → flex_button_t) (raw : Nat → Nat) :
    ∀ (l : List Nat) (i0 cur : Nat), i0 + l.length ≤ 32 →
      (∀ p ∈ l, (mem p).usr_button_read ≠ 0) →
      (∀ p ∈ l, (mem p).pressed_logic_level < 2) →
      (∀ p ∈ l, raw p = 0 ∨ raw p = 1) →
      ∀ j, (read_loop mem raw l i0 cur).testBit j =
        (cur.testBit j || (decide (i0 ≤ j) && (l[j - i0]?).any (pressed mem raw))) := by
  intro l
  induction l with
  | nil => intro i0 cur _ _ _ _ j; simp [read_loop]
  | cons t next ih =>
    intro i0 cur hlen hrd hlv hraw j
    have hi0 : i0 < 32 := by simp at hlen; omega
    have hmod : (i0 + 1) % 256 = i0 + 1 := Nat.mod_eq_of_lt (by omega)
    have hrt := hrd t (by simp)
    have hlt := hlv t (by simp)
    have hrawt := hraw t (by simp)
    have hbit : ∀ j, (if (mem t).pressed_logic_level ≠ 0 then shl32 (raw t % 256) i0
          else shl32 (lnot (raw t % 256)) i0).testBit j
          = (pressed mem raw t && decide (i0 = j)) := by
      intro j
      rcases hrawt with h0 | h1
      · by_cases hl : (mem t).pressed_logic_level = 0
        · simp [hl, h0, lnot, pressed, shl32_bit _ _ hi0]
        · have : (mem t).pressed_logic_level = 1 := by omega
          simp [this, h0, pressed, shl32_bit _ _ hi0]
      · by_cases hl : (mem t).pressed_logic_level = 0
        · simp [hl, h1, lnot, pressed, shl32_bit _ _ hi0]
        · have : (mem t).pressed_logic_level = 1 := by omega
          simp [this, h1, pressed, shl32_bit _ _ hi0]
    have ih2 := ih (i0 + 1) (cur ||| (if (mem t).pressed_logic_level ≠ 0 then
        shl32 (raw t % 256) i0 else shl32 (lnot (raw t % 256)) i0))
      (by simp at hlen; omega)
      (fun p hp => hrd p (by simp [hp])) (fun p hp => hlv p (by simp [hp]))
      (fun p hp => hraw p (by simp [hp])) j
    simp only [read_loop, hrt, if_false, hmod]
    rw [ih2, Nat.testBit_or, hbit]
    rcases Nat.lt_trichotomy j i0 with hj | hj | hj
    · have h1 : ¬ i0 + 1 ≤ j := by omega
      have h2 : ¬ i0 ≤ j := by omega
      have h3 : ¬ i0 = j := by omega
      simp [h1, h2, h3]
    · subst hj
      simp
    · have h1 : i0 + 1 ≤ j := by omega
      have h2 : i0 ≤ j := by omega
      have h3 : ¬ i0 = j := by omega
      have h4 : j - i0 = (j - (i0 + 1)) + 1 := by omega
      simp [h1, h2, h3, h4]

/-- C5: in a registry of at most 32 descriptors whose readers are all present
and return 0 or 1, `flex_button_read` sets bit `i` of `btn_data_cur` exactly
when the descriptor at traversal index `i` reads its `pressed_logic_level`,
leaves every bit from the number of descriptors on clear, sets `btn_toggle` to
the new snapshot XOR the retained `btn_data_pre` (bit by bit: set iff the
pressed bit differs from the retained one), stores the new snapshot in
`btn_data_pre`, and writes nothing else. -/
theorem read_sampler (s : State) (raw : Nat → Nat)
    (hlen : s.btn_head.length ≤ 32)
    (hreader : ∀ p ∈ s.btn_head, (s.mem p).usr_button_read ≠ 0)
    (hlevel : ∀ p ∈ s.btn_head, (s.mem p).pressed_logic_level < 2)
    (hraw : ∀ p ∈ s.btn_head, raw p = 0 ∨ raw p = 1) :
    (∀ i p, s.btn_head[i]? = some p →
      (flex_button_read s raw).btn_data_cur.testBit i
        = decide (raw p = (s.mem p).pressed_logic_level)) ∧
    (∀ i, s.btn_head.length ≤ i →
      (flex_button_read s raw).btn_data_cur.testBit i = false) ∧
    (flex_button_read s raw).btn_toggle
      = (flex_button_read s raw).btn_data_cur ^^^ s.btn_data_pre ∧
    (∀ i, (flex_button_read s raw).btn_toggle.testBit i
      = ((flex_button_read s raw).btn_data_cur.testBit i != s.btn_data_pre.testBit i)) ∧
    (flex_button_read s raw).btn_data_pre = (flex_button_read s raw).btn_data_cur ∧
    (flex_button_read s raw).mem = s.mem ∧
    (flex_button_read s raw).btn_head = s.btn_head ∧
    (flex_button_read s raw).button_cnt = s.button_cnt := by
  have hbits := read_loop_testBit s.mem raw s.btn_head 0 0 (by omega) hreader hlevel hraw
  refine ⟨?_, ?_, rfl, ?_, rfl, rfl, rfl, rfl⟩
  · intro i p hp
    show (read_loop s.mem raw s.btn_head 0 0).testBit i = _
    rw [hbits i]
    simp [hp, pressed]
  · intro i hi
    show (read_loop s.mem raw s.btn_head 0 0).testBit i = _
    rw [hbits i]
    have : s.btn_head[i]? = none := List.getElem?_eq_none hi
    simp [this]
  · intro i
    show (read_loop s.mem raw s.btn_head 0 0 ^^^ s.btn_data_pre).testBit i = _
    rw [Nat.testBit_xor]
    have hx : ∀ a b : Bool, (a ^^ b) = (a != b) := by decide
    exact hx _ _

theorem read_sampler_witness :
    (flex_button_read (register_all (State.init demo_mem_inverted) [1, 2, 3]) demo_raw).btn_data_cur.testBit 0 = true ∧
    (flex_button_read (register_all (State.init demo_mem_inverted) [1, 2, 3]) demo_raw).btn_data_cur.testBit 1 = true ∧
    (flex_button_read (register_all (State.init demo_mem_inverted) [1, 2, 3]) demo_raw).btn_data_cur.testBit 2 = false ∧
    (flex_button_read (register_all (State.init demo_mem_inverted) [1, 2, 3]) demo_raw).btn_data_cur = 3 ∧
    (flex_button_read (register_all (State.init demo_mem_inverted) [1, 2, 3]) demo_raw).btn_toggle = 3 :=
  have h := read_sampler (register_all (State.init demo_mem_inverted) [1, 2, 3]) demo_raw
    (by decide) (by decide) (by decide) (by decide)
  ⟨by rw [h.1 0 3 (by decide)]; decide, by rw [h.1 1 2 (by decide)]; decide,
   by rw [h.1 2 1 (by decide)]; decide, by decide, by decide⟩

/-! ## Isolation between buttons -/

/-- C6 as stated fails on a raw level other than 0 and 1: two active-high
buttons, address 2 at traversal index 0 and address 1 at index 1.  In both
runs the reader of button 1 returns 0 at every scan.  When the reader of
button 2 returns the byte 2 in the first scan, `usr_button_read() << 0` sets
bit 1, the bit of button 1: button 1 leaves IDLE, and 22 scans later a CLICK
is fired for it, while in the run where every reader returns 0 it stays IDLE
and fires nothing. -/
theorem scan_isolation_broken :
    (∀ raw ∈ raw_two_at_2 :: List.replicate 22 raw_all_low, raw 1 = 0) ∧
    (∀ raw ∈ List.replicate 23 raw_all_low, raw 1 = 0) ∧
    (flex_button_read (demo_registry 2) raw_two_at_2).btn_data_cur = 2 ∧
    ((flex_button_scan (demo_registry 2) raw_two_at_2).1.mem 1).status = 1 ∧
    ((flex_button_scan (demo_registry 2) raw_all_low).1.mem 1).status = 0 ∧
    (scan_run (demo_registry 2) (raw_two_at_2 :: List.replicate 22 raw_all_low)).2.flatten
      = [{ button := 1, event := FLEX_BTN_PRESS_CLICK, cb_run := false }] ∧
    (scan_run (demo_registry 2) (List.replicate 23 raw_all_low)).2.flatten = [] := by
  decide

/-! ## The classifier, one scan -/

theorem body_counted (b : flex_button_t) (toggled : Bool) (hst : 0 < b.status) :
    process_body b toggled = process_switch { b with scan_cnt := next_cnt b } toggled := by
  simp [process_body, count_scan, hst]

theorem idle_toggle (b : flex_button_t) (hst : b.status = 0) :
    process_body b true = ({ b with scan_cnt := 0, click_cnt := 0, status := 1 }, none) := by
  simp [process_body, count_scan, process_switch, hst]

theorem idle_quiet (b : flex_button_t) (hst : b.status = 0) :
    process_body b false = ({ b with event := FLEX_BTN_PRESS_NONE }, none) := by
  simp [process_body, count_scan, process_switch, hst, FLEX_BTN_PRESS_NONE]

theorem pressed_release_early (b : flex_button_t) (hst : b.status = 1)
    (h1 : next_cnt b ≤ short_ticks b) :
    process_body b true = ({ b with status := 2, scan_cnt := 0 }, none) := by
  rw [body_counted b true (by omega)]
  simp [process_switch, hst, h1]

theorem pressed_release_hold_up (b : flex_button_t) (hst : b.status = 1)
    (h1 : short_ticks b < next_cnt b) (h2 : hold_ticks b < next_cnt b) :
    process_body b true =
      ({ b with status := 0, scan_cnt := next_cnt b, event := FLEX_BTN_PRESS_LONG_HOLD_UP },
       some FLEX_BTN_PRESS_LONG_HOLD_UP) := by
  have h1n : ¬ next_cnt b ≤ short_ticks b := by omega
  rw [body_counted b true (by omega)]
  simp [process_switch, hst, h1n, h2, SET_EVENT_AND_RUN_CB, FLEX_BTN_PRESS_LONG_HOLD_UP]

theorem pressed_release_long_up (b : flex_button_t) (hst : b.status = 1)
    (h1 : short_ticks b < next_cnt b) (h2 : next_cnt b ≤ hold_ticks b)
    (h3 : long_ticks b < next_cnt b) :
    process_body b true =
      ({ b with status := 0, scan_cnt := next_cnt b, event := FLEX_BTN_PRESS_LONG_UP },
       some FLEX_BTN_PRESS_LONG_UP) := by
  have h1n : ¬ next_cnt b ≤ short_ticks b := by omega
  have h2n : ¬ hold_ticks b < next_cnt b := by omega
  rw [body_counted b true (by omega)]
  simp [process_switch, hst, h1n, h2n, h3, SET_EVENT_AND_RUN_CB, FLEX_BTN_PRESS_LONG_UP]

theorem pressed_release_short_up (b : flex_button_t) (hst : b.status = 1)
    (h1 : short_ticks b < next_cnt b) (h2 : next_cnt b ≤ hold_ticks b)
    (h3 : next_cnt b ≤ long_ticks b) :
    process_body b true =
      ({ b with status := 0, scan_cnt := next_cnt b, event := FLEX_BTN_PRESS_SHORT_UP },
       some FLEX_BTN_PRESS_SHORT_UP) := by
  have h1n : ¬ next_cnt b ≤ short_ticks b := by omega
  have h2n : ¬ hold_ticks b < next_cnt b := by omega
  have h3n : ¬ long_ticks b < next_cnt b := by omega
  rw [body_counted b true (by omega)]
  simp [process_switch, hst, h1n, h2n, h3n, h1, SET_EVENT_AND_RUN_CB, FLEX_BTN_PRESS_SHORT_UP]

/-- A held scan in PRESSED that fires nothing: the count is below every
threshold, or the event of the bucket reached is already in the event
member. -/
theorem pressed_held_quiet (b : flex_button_t) (hst : b.status = 1)
    (hH : hold_ticks b < next_cnt b → b.event = FLEX_BTN_PRESS_LONG_HOLD)
    (hL : next_cnt b ≤ hold_ticks b → long_ticks b < next_cnt b →
      b.event = FLEX_BTN_PRESS_LONG_START)
    (hS : next_cnt b ≤ hold_ticks b → next_cnt b ≤ long_ticks b →
      short_ticks b < next_cnt b → b.event = FLEX_BTN_PRESS_SHORT_START) :
    process_body b false = ({ b with scan_cnt := next_cnt b }, none) := by
  rw [body_counted b false (by omega)]
  by_cases c1 : hold_ticks b < next_cnt b
  · simp [process_switch, hst, c1, hH c1]
  · by_cases c2 : long_ticks b < next_cnt b
    · simp [process_switch, hst, c1, c2, hL (by omega) c2]
    · by_cases c3 : short_ticks b < next_cnt b
      · simp [process_switch, hst, c1, c2, c3, hS (by omega) (by omega) c3]
      · simp [process_switch, hst, c1, c2, c3]

theorem pressed_held_short_start (b : flex_button_t) (hst : b.status = 1)
    (h1 : short_ticks b < next_cnt b) (h2 : next_cnt b ≤ long_ticks b)
    (h3 : next_cnt b ≤ hold_ticks b) (he : b.event ≠ FLEX_BTN_PRESS_SHORT_START) :
    process_body b false =
      ({ b with scan_cnt := next_cnt b, event := FLEX_BTN_PRESS_SHORT_START },
       some FLEX_BTN_PRESS_SHORT_START) := by
  have h2n : ¬ long_ticks b < next_cnt b := by omega
  have h3n : ¬ hold_ticks b < next_cnt b := by omega
  rw [body_counted b false (by omega)]
  simp [process_switch, hst, h1, h2n, h3n, he, SET_EVENT_AND_RUN_CB, FLEX_BTN_PRESS_SHORT_START]

theorem pressed_held_long_start (b : flex_button_t) (hst : b.status = 1)
    (h2 : long_ticks b < next_cnt b)
    (h3 : next_cnt b ≤ hold_ticks b) (he : b.event ≠ FLEX_BTN_PRESS_LONG_START) :
    process_body b false =
      ({ b with scan_cnt := next_cnt b, event := FLEX_BTN_PRESS_LONG_START },
       some FLEX_BTN_PRESS_LONG_START) := by
  have h3n : ¬ hold_ticks b < next_cnt b := by omega
  rw [body_counted b false (by omega)]
  simp [process_switch, hst, h2, h3n, he, SET_EVENT_AND_RUN_CB, FLEX_BTN_PRESS_LONG_START]

theorem pressed_held_long_hold (b : flex_button_t) (hst : b.status = 1)
    (h3 : hold_ticks b < next_cnt b) (he : b.event ≠ FLEX_BTN_PRESS_LONG_HOLD) :
    process_body b false =
      ({ b with scan_cnt := next_cnt b, event := FLEX_BTN_PRESS_LONG_HOLD },
       some FLEX_BTN_PRESS_LONG_HOLD) := by
  rw [body_counted b false (by omega)]
  simp [process_switch, hst, h3, he, SET_EVENT_AND_RUN_CB, FLEX_BTN_PRESS_LONG_HOLD]

theorem window_expire_click (b : flex_button_t) (toggled : Bool) (hst : b.status = 2)
    (h1 : window_ticks b < next_cnt b) (hc : b.click_cnt ≤ 7) :
    process_body b toggled =
      ({ b with status := 0, scan_cnt := next_cnt b,
                event := FLEX_BTN_PRESS_CLICK + b.click_cnt },
       some (FLEX_BTN_PRESS_CLICK + b.click_cnt)) := by
  have hm : (1 + b.click_cnt) % 32 = 1 + b.click_cnt := Nat.mod_eq_of_lt (by omega)
  rw [body_counted b toggled (by omega)]
  simp [process_switch, hst, h1, hc, SET_EVENT_AND_RUN_CB, FLEX_BTN_PRESS_CLICK,
    FLEX_BTN_PRESS_LEGENDARY, hm]

theorem window_expire_silent (b : flex_button_t) (toggled : Bool) (hst : b.status = 2)
    (h1 : window_ticks b < next_cnt b) (hc : 7 < b.click_cnt) :
    process_body b toggled = ({ b with status := 0, scan_cnt := next_cnt b }, none) := by
  have hcn : ¬ b.click_cnt ≤ 7 := by omega
  rw [body_counted b toggled (by omega)]
  simp [process_switch, hst, h1, hcn, FLEX_BTN_PRESS_CLICK, FLEX_BTN_PRESS_LEGENDARY]

theorem window_toggle (b : flex_button_t) (hst : b.status = 2)
    (h1 : next_cnt b ≤ window_ticks b) :
    process_body b true =
      ({ b with click_cnt := (b.click_cnt + 1) % 65536, scan_cnt := 0, status := 1 },
       none) := by
  have h1n : ¬ window_ticks b < next_cnt b := by omega
  rw [body_counted b true (by omega)]
  simp [process_switch, hst, h1n]

theorem window_quiet (b : flex_button_t) (hst : b.status = 2)
    (h1 : next_cnt b ≤ window_ticks b) :
    process_body b false = ({ b with scan_cnt := next_cnt b }, none) := by
  have h1n : ¬ window_ticks b < next_cnt b := by omega
  rw [body_counted b false (by omega)]
  simp [process_switch, hst, h1n]

/-- C7: a descriptor in PRESSED whose bit toggles, `n` being the incremented
scan count and `S`, `L`, `H` the short, long and long-hold thresholds in scans
(whatever their order): if `n ≤ S` nothing is fired, the state becomes
RELEASE_WINDOW and `scan_cnt = 0`; otherwise exactly one event is fired and
the state becomes IDLE, the event being LONG_HOLD_UP if `n > H`, else LONG_UP
if `n > L`, else SHORT_UP.  With `S = 10`, `L = 50` and `H ≥ 60` a release at
`n = 30` fires SHORT_UP and a release at `n = 60` fires LONG_UP. -/
theorem release_classification (b : flex_button_t) (hst : b.status = 1) :
    ((b.scan_cnt + 1) % 65536 ≤ FLEX_MS_TO_CNT b.short_press_start_tick →
      process_body b true = ({ b with status := 2, scan_cnt := 0 }, none)) ∧
    (FLEX_MS_TO_CNT b.short_press_start_tick < (b.scan_cnt + 1) % 65536 →
      FLEX_MS_TO_CNT b.long_hold_start_tick < (b.scan_cnt + 1) % 65536 →
      process_body b true =
        ({ b with status := 0, scan_cnt := (b.scan_cnt + 1) % 65536,
                  event := FLEX_BTN_PRESS_LONG_HOLD_UP },
         some FLEX_BTN_PRESS_LONG_HOLD_UP)) ∧
    (FLEX_MS_TO_CNT b.short_press_start_tick < (b.scan_cnt + 1) % 65536 →
      (b.scan_cnt + 1) % 65536 ≤ FLEX_MS_TO_CNT b.long_hold_start_tick →
      FLEX_MS_TO_CNT b.long_press_start_tick < (b.scan_cnt + 1) % 65536 →
      process_body b true =
        ({ b with status := 0, scan_cnt := (b.scan_cnt + 1) % 65536,
                  event := FLEX_BTN_PRESS_LONG_UP },
         some FLEX_BTN_PRESS_LONG_UP)) ∧
    (FLEX_MS_TO_CNT b.short_press_start_tick < (b.scan_cnt + 1) % 65536 →
      (b.scan_cnt + 1) % 65536 ≤ FLEX_MS_TO_CNT b.long_hold_start_tick →
      (b.scan_cnt + 1) % 65536 ≤ FLEX_MS_TO_CNT b.long_press_start_tick →
      process_body b true =
        ({ b with status := 0, scan_cnt := (b.scan_cnt + 1) % 65536,
                  event := FLEX_BTN_PRESS_SHORT_UP },
         some FLEX_BTN_PRESS_SHORT_UP)) ∧
    (FLEX_MS_TO_CNT b.short_press_start_tick = 10 →
      FLEX_MS_TO_CNT b.long_press_start_tick = 50 →
      60 ≤ FLEX_MS_TO_CNT b.long_hold_start_tick →
      ((b.scan_cnt + 1) % 65536 = 30 →
        (process_body b true).2 = some FLEX_BTN_PRESS_SHORT_UP ∧
        (process_body b true).1.status = 0) ∧
      ((b.scan_cnt + 1) % 65536 = 60 →
        (process_body b true).2 = some FLEX_BTN_PRESS_LONG_UP ∧
        (process_body b true).1.status = 0)) := by
  refine ⟨pressed_release_early b hst, pressed_release_hold_up b hst,
    pressed_release_long_up b hst, pressed_release_short_up b hst, ?_⟩
  intro hS hL hH
  have hS2 : short_ticks b = 10 := hS
  have hL2 : long_ticks b = 50 := hL
  have hH2 : 60 ≤ hold_ticks b := hH
  constructor
  · intro hn
    have hn2 : next_cnt b = 30 := hn
    rw [pressed_release_short_up b hst (by omega) (by omega) (by omega)]
    exact ⟨rfl, rfl⟩
  · intro hn
    have hn2 : next_cnt b = 60 := hn
    rw [pressed_release_long_up b hst (by omega) (by omega) (by omega)]
    exact ⟨rfl, rfl⟩

theorem release_classification_witness :
    process_body (demo_pressed 29) true =
      ({ demo_pressed 30 with status := 0, event := FLEX_BTN_PRESS_SHORT_UP },
       some FLEX_BTN_PRESS_SHORT_UP) ∧
    (process_body (demo_pressed 59) true).2 = some FLEX_BTN_PRESS_LONG_UP ∧
    (process_body (demo_pressed 60) true).2 = some FLEX_BTN_PRESS_LONG_HOLD_UP ∧
    process_body (demo_pressed 9) true =
      ({ demo_pressed 0 with status := 2 }, none) :=
  ⟨(release_classification (demo_pressed 29) rfl).2.2.2.1
      (by decide) (by decide) (by decide),
   ((release_classification (demo_pressed 59) rfl).2.2.2.2
      (by decide) (by decide) (by decide)).2 (by decide) |>.1,
   by rw [(release_classification (demo_pressed 60) rfl).2.1 (by decide) (by decide)],
   (release_classification (demo_pressed 9) rfl).1 (by decide)⟩

/-! ## The classifier over several scans -/

theorem body_run_append (b : flex_button_t) (l1 l2 : List Bool) :
    body_run b (l1 ++ l2) =
      ((body_run (body_run b l1).1 l2).1,
       (body_run b l1).2 ++ (body_run (body_run b l1).1 l2).2) := by
  induction l1 generalizing b with
  | nil => simp [body_run]
  | cons t ts ih => simp [body_run, ih]

theorem body_run_one (b : flex_button_t) (t : Bool) :
    body_run b [t] = ((process_body b t).1, [(process_body b t).2]) := by
  simp [body_run]

/-- Held scans in PRESSED that fire nothing: `m` scans without a toggle, the
counter not wrapping, every count reached being below the thresholds or in a
bucket whose event is already in the event member. -/
theorem held_quiet_run (m : Nat) : ∀ (b : flex_button_t), b.status = 1 →
    b.scan_cnt + m < 65536 →
    (∀ n, b.scan_cnt < n → n ≤ b.scan_cnt + m →
      (hold_ticks b < n → b.event = FLEX_BTN_PRESS_LONG_HOLD) ∧
      (n ≤ hold_ticks b → long_ticks b < n → b.event = FLEX_BTN_PRESS_LONG_START) ∧
      (n ≤ hold_ticks b → n ≤ long_ticks b → short_ticks b < n →
        b.event = FLEX_BTN_PRESS_SHORT_START)) →
    body_run b (List.replicate m false) =
      ({ b with scan_cnt := b.scan_cnt + m }, List.replicate m none) := by
  induction m with
  | zero => intro b _ _ _; simp [body_run]
  | succ m ih =>
    intro b hst hw hq
    have hn : next_cnt b = b.scan_cnt + 1 := Nat.mod_eq_of_lt (by omega)
    have h1 := hq (b.scan_cnt + 1) (by omega) (by omega)
    have hstep := pressed_held_quiet b hst (by rw [hn]; exact h1.1)
      (by rw [hn]; exact h1.2.1) (by rw [hn]; exact h1.2.2)
    rw [hn] at hstep
    have ih2 := ih { b with scan_cnt := b.scan_cnt + 1 } hst (by simp; omega)
      (fun n h1 h2 => hq n (by simp at h1; omega) (by simp at h2; omega))
    simp only [List.replicate_succ, body_run, hstep, ih2]
    simp [Nat.add_assoc, Nat.add_comm 1 m]

/-- Scans without a toggle in RELEASE_WINDOW, before the window expires. -/
theorem window_quiet_run (m : Nat) : ∀ (b : flex_button_t), b.status = 2 →
    b.scan_cnt + m < 65536 → b.scan_cnt + m ≤ window_ticks b →
    body_run b (List.replicate m false) =
      ({ b with scan_cnt := b.scan_cnt + m }, List.replicate m none) := by
  induction m with
  | zero => intro b _ _ _; simp [body_run]
  | succ m ih =>
    intro b hst hw hR
    have hn : next_cnt b = b.scan_cnt + 1 := Nat.mod_eq_of_lt (by omega)
    have hstep := window_quiet b hst (by rw [hn]; omega)
    rw [hn] at hstep
    have ih2 := ih { b with scan_cnt := b.scan_cnt + 1 } hst (by simp; omega)
      (by show b.scan_cnt + 1 + m ≤ window_ticks b; omega)
    simp only [List.replicate_succ, body_run, hstep, ih2]
    simp [Nat.add_assoc, Nat.add_comm 1 m]

/-- Scans without a toggle in IDLE fire nothing and stay in IDLE. -/
theorem idle_quiet_run (m : Nat) : ∀ (b : flex_button_t), b.status = 0 →
    (body_run b (List.replicate m false)).2 = List.replicate m none ∧
    (body_run b (List.replicate m false)).1.status = 0 := by
  induction m with
  | zero => intro b hst; simp [body_run, hst]
  | succ m ih =>
    intro b hst
    have ih2 := ih { b with event := FLEX_BTN_PRESS_NONE } hst
    simp only [List.replicate_succ, body_run, idle_quiet b hst]
    exact ⟨by rw [ih2.1], ih2.2⟩

theorem held_state_quiet (b : flex_button_t) (j e m : Nat) (hw : j + m < 65536)
    (hq : ∀ n, j < n → n ≤ j + m →
      (hold_ticks b < n → e = FLEX_BTN_PRESS_LONG_HOLD) ∧
      (n ≤ hold_ticks b → long_ticks b < n → e = FLEX_BTN_PRESS_LONG_START) ∧
      (n ≤ hold_ticks b → n ≤ long_ticks b → short_ticks b < n →
        e = FLEX_BTN_PRESS_SHORT_START)) :
    body_run (held_state b j e) (List.replicate m false) =
      (held_state b (j + m) e, List.replicate m none) :=
  held_quiet_run m (held_state b j e) rfl hw hq

/-- A press from IDLE held for `j` scans, `j` not above the short threshold,
which is not above the other two. -/
theorem press_held_below (b : flex_button_t) (j : Nat) (hst : b.status = 0)
    (hj : j ≤ short_ticks b) (hSL : short_ticks b ≤ long_ticks b)
    (hSH : short_ticks b ≤ hold_ticks b) (hw : j < 65536) :
    body_run b (true :: List.replicate j false) =
      (held_state b j b.event, none :: List.replicate j none) := by
  have h := held_state_quiet b 0 b.event j (by omega)
    (fun n _ h2 => ⟨fun h => by omega, fun _ h => by omega, fun _ _ h => by omega⟩)
  have h0 : ({ b with scan_cnt := 0, click_cnt := 0, status := 1 } : flex_button_t)
      = held_state b 0 b.event := rfl
  simp only [body_run, idle_toggle b hst, h0, h, Nat.zero_add]

/-- A press from IDLE held for `j` scans, `j` in the short bucket. -/
theorem press_held_short (b : flex_button_t) (j : Nat) (hst : b.status = 0)
    (he : b.event ≠ FLEX_BTN_PRESS_SHORT_START)
    (hj : short_ticks b < j) (hjL : j ≤ long_ticks b)
    (hLH : long_ticks b ≤ hold_ticks b) (hw : j < 65536) :
    body_run b (true :: List.replicate j false) =
      (held_state b j FLEX_BTN_PRESS_SHORT_START,
       none :: (List.replicate (short_ticks b) none ++
         some FLEX_BTN_PRESS_SHORT_START ::
           List.replicate (j - short_ticks b - 1) none)) := by
  have hsplit : true :: List.replicate j false =
      (true :: List.replicate (short_ticks b) false) ++
        (false :: List.replicate (j - short_ticks b - 1) false) := by
    have : j = short_ticks b + ((j - short_ticks b - 1) + 1) := by omega
    conv_lhs => rw [this, List.replicate_add]
    simp [List.replicate_succ]
  have hn : next_cnt (held_state b (short_ticks b) b.event) = short_ticks b + 1 :=
    Nat.mod_eq_of_lt (by show short_ticks b + 1 < 65536; omega)
  have hfire := pressed_held_short_start (held_state b (short_ticks b) b.event) rfl
    (by rw [hn]; show short_ticks b < short_ticks b + 1; omega)
    (by rw [hn]; show short_ticks b + 1 ≤ long_ticks b; omega)
    (by rw [hn]; show short_ticks b + 1 ≤ hold_ticks b; omega) he
  rw [hn] at hfire
  have hq := held_state_quiet b (short_ticks b + 1) FLEX_BTN_PRESS_SHORT_START
    (j - short_ticks b - 1) (by omega)
    (fun n _ h2 => ⟨fun h => by omega, fun _ h => by omega, fun _ _ _ => rfl⟩)
  have hfire2 : process_body (held_state b (short_ticks b) b.event) false =
      (held_state b (short_ticks b + 1) FLEX_BTN_PRESS_SHORT_START,
       some FLEX_BTN_PRESS_SHORT_START) := hfire
  have hj2 : short_ticks b + 1 + (j - short_ticks b - 1) = j := by omega
  rw [hsplit, body_run_append,
    press_held_below b (short_ticks b) hst (le_refl _) (by omega) (by omega) (by omega)]
  simp only [body_run, hfire2, hq, hj2, List.cons_append]

theorem replicate_split (j a : Nat) (h : a < j) :
    List.replicate j false =
      List.replicate a false ++ (false :: List.replicate (j - a - 1) false) := by
  have : j = a + ((j - a - 1) + 1) := by omega
  conv_lhs => rw [this, List.replicate_add]
  simp [List.replicate_succ]

/-- A press from IDLE held for `j` scans, `j` in the long bucket. -/
theorem press_held_long (b : flex_button_t) (j : Nat) (hst : b.status = 0)
    (he : b.event ≠ FLEX_BTN_PRESS_SHORT_START)
    (hSL : short_ticks b < long_ticks b)
    (hj : long_ticks b < j) (hjH : j ≤ hold_ticks b) (hw : j < 65536) :
    body_run b (true :: List.replicate j false) =
      (held_state b j FLEX_BTN_PRESS_LONG_START, held_trace_long b j) := by
  have hsplit : true :: List.replicate j false =
      (true :: List.replicate (long_ticks b) false) ++
        (false :: List.replicate (j - long_ticks b - 1) false) := by
    rw [replicate_split j (long_ticks b) hj]; rfl
  have hn : next_cnt (held_state b (long_ticks b) FLEX_BTN_PRESS_SHORT_START)
      = long_ticks b + 1 :=
    Nat.mod_eq_of_lt (by show long_ticks b + 1 < 65536; omega)
  have hfire := pressed_held_long_start
    (held_state b (long_ticks b) FLEX_BTN_PRESS_SHORT_START) rfl
    (by rw [hn]; show long_ticks b < long_ticks b + 1; omega)
    (by rw [hn]; show long_ticks b + 1 ≤ hold_ticks b; omega)
    (by show FLEX_BTN_PRESS_SHORT_START ≠ FLEX_BTN_PRESS_LONG_START; decide)
  rw [hn] at hfire
  have hfire2 : process_body (held_state b (long_ticks b) FLEX_BTN_PRESS_SHORT_START) false =
      (held_state b (long_ticks b + 1) FLEX_BTN_PRESS_LONG_START,
       some FLEX_BTN_PRESS_LONG_START) := hfire
  have hq := held_state_quiet b (long_ticks b + 1) FLEX_BTN_PRESS_LONG_START
    (j - long_ticks b - 1) (by omega)
    (fun n _ h2 => ⟨fun h => by omega, fun _ _ => rfl, fun _ h _ => by omega⟩)
  have hj2 : long_ticks b + 1 + (j - long_ticks b - 1) = j := by omega
  rw [hsplit, body_run_append,
    press_held_short b (long_ticks b) hst he hSL (le_refl _) (by omega) (by omega)]
  simp only [body_run, hfire2, hq, hj2, held_trace_long, held_trace_short]

/-- A press from IDLE held for `j` scans, `j` beyond the long-hold threshold,
the counter not wrapping. -/
theorem press_held_hold (b : flex_button_t) (j : Nat) (hst : b.status = 0)
    (he : b.event ≠ FLEX_BTN_PRESS_SHORT_START)
    (hSL : short_ticks b < long_ticks b) (hLH : long_ticks b < hold_ticks b)
    (hj : hold_ticks b < j) (hw : j < 65536) :
    body_run b (true :: List.replicate j false) =
      (held_state b j FLEX_BTN_PRESS_LONG_HOLD, held_trace_hold b j) := by
  have hsplit : true :: List.replicate j false =
      (true :: List.replicate (hold_ticks b) false) ++
        (false :: List.replicate (j - hold_ticks b - 1) false) := by
    rw [replicate_split j (hold_ticks b) hj]; rfl
  have hn : next_cnt (held_state b (hold_ticks b) FLEX_BTN_PRESS_LONG_START)
      = hold_ticks b + 1 :=
    Nat.mod_eq_of_lt (by show hold_ticks b + 1 < 65536; omega)
  have hfire := pressed_held_long_hold
    (held_state b (hold_ticks b) FLEX_BTN_PRESS_LONG_START) rfl
    (by rw [hn]; show hold_ticks b < hold_ticks b + 1; omega)
    (by show FLEX_BTN_PRESS_LONG_START ≠ FLEX_BTN_PRESS_LONG_HOLD; decide)
  rw [hn] at hfire
  have hfire2 : process_body (held_state b (hold_ticks b) FLEX_BTN_PRESS_LONG_START) false =
      (held_state b (hold_ticks b + 1) FLEX_BTN_PRESS_LONG_HOLD,
       some FLEX_BTN_PRESS_LONG_HOLD) := hfire
  have hq := held_state_quiet b (hold_ticks b + 1) FLEX_BTN_PRESS_LONG_HOLD
    (j - hold_ticks b - 1) (by omega)
    (fun n h1 _ => ⟨fun _ => rfl, fun h _ => by omega, fun h _ _ => by omega⟩)
  have hj2 : hold_ticks b + 1 + (j - hold_ticks b - 1) = j := by omega
  rw [hsplit, body_run_append,
    press_held_long b (hold_ticks b) hst he hSL hLH (le_refl _) (by omega)]
  simp only [body_run, hfire2, hq, hj2, held_trace_hold]

/-! ## States reached from registration -/

theorem process_body_config (b : flex_button_t) (t : Bool) :
    config (process_body b t).1 = config b := by
  unfold process_body count_scan process_switch SET_EVENT_AND_RUN_CB config
  repeat' split
  all_goals simp_all

theorem process_body_ticks (b : flex_button_t) (t : Bool) :
    short_ticks (process_body b t).1 = short_ticks b ∧
    long_ticks (process_body b t).1 = long_ticks b ∧
    hold_ticks (process_body b t).1 = hold_ticks b ∧
    window_ticks (process_body b t).1 = window_ticks b := by
  have h := process_body_config b t
  simp only [config, Prod.mk.injEq] at h
  simp only [short_ticks, long_ticks, hold_ticks, window_ticks, h, and_self]

theorem start_fresh_step (b : flex_button_t) (t : Bool)
    (hL : long_ticks b < 65535) (hinv : start_fresh b) :
    start_fresh (process_body b t).1 := by
  unfold start_fresh at hinv ⊢
  unfold process_body count_scan process_switch SET_EVENT_AND_RUN_CB
  simp only [short_ticks, long_ticks, hold_ticks, FLEX_BTN_PRESS_NONE,
    FLEX_BTN_PRESS_SHORT_START, FLEX_BTN_PRESS_SHORT_UP, FLEX_BTN_PRESS_LONG_START,
    FLEX_BTN_PRESS_LONG_UP, FLEX_BTN_PRESS_LONG_HOLD, FLEX_BTN_PRESS_LONG_HOLD_UP,
    FLEX_BTN_PRESS_CLICK, FLEX_BTN_PRESS_LEGENDARY] at *
  repeat' split
  all_goals simp_all
  all_goals omega

theorem body_run_ticks (l : List Bool) : ∀ (b : flex_button_t),
    short_ticks (body_run b l).1 = short_ticks b ∧
    long_ticks (body_run b l).1 = long_ticks b ∧
    hold_ticks (body_run b l).1 = hold_ticks b ∧
    window_ticks (body_run b l).1 = window_ticks b := by
  induction l with
  | nil => intro b; simp [body_run]
  | cons t ts ih =>
    intro b
    have h1 := process_body_ticks b t
    have h2 := ih (process_body b t).1
    simp only [body_run]
    exact ⟨h2.1.trans h1.1, h2.2.1.trans h1.2.1, h2.2.2.1.trans h1.2.2.1,
      h2.2.2.2.trans h1.2.2.2⟩

theorem start_fresh_run (l : List Bool) : ∀ (b : flex_button_t),
    long_ticks b < 65535 → start_fresh b → start_fresh (body_run b l).1 := by
  induction l with
  | nil => intro b _ h; simpa [body_run] using h
  | cons t ts ih =>
    intro b hL h
    simp only [body_run]
    exact ih _ (by rw [(process_body_ticks b t).2.1]; exact hL)
      (start_fresh_step b t hL h)

theorem FLEX_MS_TO_CNT_le (ms : Nat) (h : ms < 65536) : FLEX_MS_TO_CNT ms ≤ 3276 := by
  unfold FLEX_MS_TO_CNT
  have : 1000 / FLEX_BTN_SCAN_HZ = 20 := by decide
  rw [this]
  omega

/-- In a state reached from registration by any scans, a descriptor in IDLE
does not hold SHORT_START in its event member. -/
theorem idle_event_fresh (b0 : flex_button_t) (hist : List Bool)
    (hrange : long_ticks b0 < 65535)
    (hidle : (body_run (registered b0) hist).1.status = 0) :
    (body_run (registered b0) hist).1.event ≠ FLEX_BTN_PRESS_SHORT_START := by
  have hL : long_ticks (registered b0) < 65535 := hrange
  have h0 : start_fresh (registered b0) := by
    intro h
    have h2 : FLEX_BTN_PRESS_NONE = FLEX_BTN_PRESS_SHORT_START := h
    exact absurd h2 (by decide)
  have h := start_fresh_run hist (registered b0) hL h0
  intro he
  have := (h he).1
  omega

theorem reduceOption_replicate_none (n : Nat) :
    (List.replicate n (none : Option Nat)).reduceOption = [] := by
  induction n with
  | zero => rfl
  | succ n ih => simp [List.replicate_succ, List.reduceOption_cons_of_none, ih]

theorem held_trace_short_events (b : flex_button_t) (j : Nat) :
    (held_trace_short b j).reduceOption = [FLEX_BTN_PRESS_SHORT_START] := by
  simp [held_trace_short, List.reduceOption_cons_of_none, List.reduceOption_append,
    List.reduceOption_cons_of_some, reduceOption_replicate_none]

theorem held_trace_long_events (b : flex_button_t) (j : Nat) :
    (held_trace_long b j).reduceOption =
      [FLEX_BTN_PRESS_SHORT_START, FLEX_BTN_PRESS_LONG_START] := by
  simp [held_trace_long, held_trace_short_events, List.reduceOption_append,
    List.reduceOption_cons_of_some, reduceOption_replicate_none]

theorem held_trace_hold_events (b : flex_button_t) (j : Nat) :
    (held_trace_hold b j).reduceOption =
      [FLEX_BTN_PRESS_SHORT_START, FLEX_BTN_PRESS_LONG_START, FLEX_BTN_PRESS_LONG_HOLD] := by
  simp [held_trace_hold, held_trace_long_events, List.reduceOption_append,
    List.reduceOption_cons_of_some, reduceOption_replicate_none]

/-- A press from IDLE released in the short bucket after at least one held
scan in that bucket. -/
theorem short_press_run (b : flex_button_t) (t : Nat) (hst : b.status = 0)
    (he : b.event ≠ FLEX_BTN_PRESS_SHORT_START)
    (ht : short_ticks b + 1 < t) (htL : t ≤ long_ticks b)
    (hLH : long_ticks b ≤ hold_ticks b) (hw : t < 65536) :
    body_run b (press_release t) =
      ({ held_state b t FLEX_BTN_PRESS_SHORT_UP with status := 0 },
       held_trace_short b (t - 1) ++ [some FLEX_BTN_PRESS_SHORT_UP]) := by
  have hn : next_cnt (held_state b (t - 1) FLEX_BTN_PRESS_SHORT_START) = t := by
    show (t - 1 + 1) % 65536 = t
    rw [Nat.sub_add_cancel (by omega)]
    exact Nat.mod_eq_of_lt hw
  have hrel := pressed_release_short_up (held_state b (t - 1) FLEX_BTN_PRESS_SHORT_START) rfl
    (by rw [hn]; show short_ticks b < t; omega)
    (by rw [hn]; show t ≤ hold_ticks b; omega)
    (by rw [hn]; show t ≤ long_ticks b; omega)
  rw [hn] at hrel
  unfold press_release
  rw [body_run_append,
    press_held_short b (t - 1) hst he (by omega) (by omega) hLH (by omega), body_run_one,
    hrel]
  rfl

/-- A press from IDLE released on the first scan of the short bucket. -/
theorem short_press_edge_run (b : flex_button_t) (hst : b.status = 0)
    (hSL : short_ticks b < long_ticks b)
    (hLH : long_ticks b ≤ hold_ticks b) (hw : short_ticks b + 1 < 65536) :
    body_run b (press_release (short_ticks b + 1)) =
      ({ held_state b (short_ticks b + 1) FLEX_BTN_PRESS_SHORT_UP with status := 0 },
       (none :: List.replicate (short_ticks b) none) ++ [some FLEX_BTN_PRESS_SHORT_UP]) := by
  have hn : next_cnt (held_state b (short_ticks b) b.event) = short_ticks b + 1 :=
    Nat.mod_eq_of_lt (by show short_ticks b + 1 < 65536; omega)
  have hrel := pressed_release_short_up (held_state b (short_ticks b) b.event) rfl
    (by rw [hn]; show short_ticks b < short_ticks b + 1; omega)
    (by rw [hn]; show short_ticks b + 1 ≤ hold_ticks b; omega)
    (by rw [hn]; show short_ticks b + 1 ≤ long_ticks b; omega)
  rw [hn] at hrel
  unfold press_release
  rw [Nat.add_sub_cancel, body_run_append,
    press_held_below b (short_ticks b) hst (le_refl _) (by omega) (by omega) (by omega),
    body_run_one, hrel]
  rfl

/-! ## Short press -/

/-- C8 (amended): a button in IDLE, in any state reached from registration,
with thresholds `S < L ≤ H` in scans, is pressed and released `t` scans later
with no other toggle, `S < t ≤ L`.  If `S + 1 < t`, exactly two events are
fired: SHORT_START on scan `S + 1` after the press edge, while held, and
SHORT_UP on the release scan.  If `t = S + 1`, the release scan is the first
one in the short bucket: SHORT_UP is the only event and no SHORT_START is
fired.  In both cases the button ends in IDLE. -/
theorem short_press_events (b0 : flex_button_t) (hist : List Bool) (t : Nat)
    (hrange : b0.long_press_start_tick < 65536)
    (hSL : short_ticks b0 < long_ticks b0) (hLH : long_ticks b0 ≤ hold_ticks b0)
    (hidle : (body_run (registered b0) hist).1.status = 0)
    (ht : short_ticks b0 < t) (htL : t ≤ long_ticks b0) :
    (short_ticks b0 + 1 < t →
      (body_run (body_run (registered b0) hist).1 (press_release t)).2 =
        none :: (List.replicate (short_ticks b0) none ++
          some FLEX_BTN_PRESS_SHORT_START ::
            (List.replicate (t - short_ticks b0 - 2) none ++
              [some FLEX_BTN_PRESS_SHORT_UP])) ∧
      (body_run (body_run (registered b0) hist).1 (press_release t)).2.reduceOption =
        [FLEX_BTN_PRESS_SHORT_START, FLEX_BTN_PRESS_SHORT_UP]) ∧
    (t = short_ticks b0 + 1 →
      (body_run (body_run (registered b0) hist).1 (press_release t)).2 =
        none :: (List.replicate (short_ticks b0) none ++ [some FLEX_BTN_PRESS_SHORT_UP]) ∧
      (body_run (body_run (registered b0) hist).1 (press_release t)).2.reduceOption =
        [FLEX_BTN_PRESS_SHORT_UP]) ∧
    (body_run (body_run (registered b0) hist).1 (press_release t)).1.status = 0 := by
  have hLle : long_ticks b0 ≤ 3276 := FLEX_MS_TO_CNT_le _ hrange
  have hev := idle_event_fresh b0 hist (by omega) hidle
  have htk := body_run_ticks hist (registered b0)
  have hS : short_ticks (body_run (registered b0) hist).1 = short_ticks b0 := htk.1
  have hL : long_ticks (body_run (registered b0) hist).1 = long_ticks b0 := htk.2.1
  have hH : hold_ticks (body_run (registered b0) hist).1 = hold_ticks b0 := htk.2.2.1
  generalize (body_run (registered b0) hist).1 = c at hidle hev hS hL hH ⊢
  have hA : short_ticks b0 + 1 < t → body_run c (press_release t) =
      ({ held_state c t FLEX_BTN_PRESS_SHORT_UP with status := 0 },
       held_trace_short c (t - 1) ++ [some FLEX_BTN_PRESS_SHORT_UP]) :=
    fun h => short_press_run c t hidle hev (by rw [hS]; exact h) (by rw [hL]; exact htL)
      (by rw [hL, hH]; exact hLH) (by omega)
  have hB : t = short_ticks b0 + 1 → body_run c (press_release t) =
      ({ held_state c (short_ticks c + 1) FLEX_BTN_PRESS_SHORT_UP with status := 0 },
       (none :: List.replicate (short_ticks c) none) ++ [some FLEX_BTN_PRESS_SHORT_UP]) :=
    fun h => by
      rw [h, ← hS]
      exact short_press_edge_run c hidle (by rw [hS, hL]; exact hSL)
        (by rw [hL, hH]; exact hLH) (by rw [hS]; omega)
  refine ⟨fun h => ?_, fun h => ?_, ?_⟩
  · rw [hA h]
    constructor
    · have e : t - 1 - short_ticks b0 - 1 = t - short_ticks b0 - 2 := by omega
      simp only [held_trace_short, hS, e, List.cons_append, List.append_assoc]
    · rw [List.reduceOption_append, held_trace_short_events]
      rfl
  · rw [hB h]
    constructor
    · simp only [hS, List.cons_append]
    · simp [List.reduceOption_append, List.reduceOption_cons_of_none,
        reduceOption_replicate_none, List.reduceOption_cons_of_some]
  · rcases Nat.lt_or_ge (short_ticks b0 + 1) t with h | h
    · rw [hA h]
    · rw [hB (by omega)]

theorem short_press_events_witness :
    (body_run (registered demo_button) (press_release 30)).2 =
      none :: (List.replicate 10 none ++ some FLEX_BTN_PRESS_SHORT_START ::
        (List.replicate 18 none ++ [some FLEX_BTN_PRESS_SHORT_UP])) ∧
    (body_run (registered demo_button) (press_release 30)).2.reduceOption =
      [FLEX_BTN_PRESS_SHORT_START, FLEX_BTN_PRESS_SHORT_UP] :=
  (short_press_events demo_button [] 30 (by decide) (by decide) (by decide)
    (by decide) (by decide) (by decide)).1 (by decide)

/-- C8 as stated fails on the first scan of the short bucket: with `S = 10`,
`L = 50`, `H = 60`, a press from the registered state released `t = 11` scans
after the press edge (`S < t ≤ L`) fires SHORT_UP and no SHORT_START at
all. -/
theorem short_press_no_start :
    short_ticks demo_button = 10 ∧ long_ticks demo_button = 50 ∧
    hold_ticks demo_button = 60 ∧ (registered demo_button).status = 0 ∧
    (body_run (registered demo_button) (press_release 11)).2.count
      (some FLEX_BTN_PRESS_SHORT_START) = 0 ∧
    (body_run (registered demo_button) (press_release 11)).2.reduceOption =
      [FLEX_BTN_PRESS_SHORT_UP] := by
  decide

/-! ## Long hold -/

/-- A press from IDLE released beyond the long-hold threshold after at least
one held scan beyond it, the counter not wrapping. -/
theorem hold_press_run (b : flex_button_t) (t : Nat) (hst : b.status = 0)
    (he : b.event ≠ FLEX_BTN_PRESS_SHORT_START)
    (hSL : short_ticks b < long_ticks b) (hLH : long_ticks b < hold_ticks b)
    (ht : hold_ticks b + 1 < t) (hw : t < 65536) :
    body_run b (press_release t) =
      ({ held_state b t FLEX_BTN_PRESS_LONG_HOLD_UP with status := 0 },
       held_trace_hold b (t - 1) ++ [some FLEX_BTN_PRESS_LONG_HOLD_UP]) := by
  have hn : next_cnt (held_state b (t - 1) FLEX_BTN_PRESS_LONG_HOLD) = t := by
    show (t - 1 + 1) % 65536 = t
    rw [Nat.sub_add_cancel (by omega)]
    exact Nat.mod_eq_of_lt hw
  have hrel := pressed_release_hold_up (held_state b (t - 1) FLEX_BTN_PRESS_LONG_HOLD) rfl
    (by rw [hn]; show short_ticks b < t; omega)
    (by rw [hn]; show hold_ticks b < t; omega)
  rw [hn] at hrel
  unfold press_release
  rw [body_run_append,
    press_held_hold b (t - 1) hst he hSL hLH (by omega) (by omega), body_run_one, hrel]
  rfl

/-- A press from IDLE released on the first scan beyond the long-hold
threshold. -/
theorem hold_press_edge_run (b : flex_button_t) (hst : b.status = 0)
    (he : b.event ≠ FLEX_BTN_PRESS_SHORT_START)
    (hSL : short_ticks b < long_ticks b) (hLH : long_ticks b < hold_ticks b)
    (hw : hold_ticks b + 1 < 65536) :
    body_run b (press_release (hold_ticks b + 1)) =
      ({ held_state b (hold_ticks b + 1) FLEX_BTN_PRESS_LONG_HOLD_UP with status := 0 },
       held_trace_long b (hold_ticks b) ++ [some FLEX_BTN_PRESS_LONG_HOLD_UP]) := by
  have hn : next_cnt (held_state b (hold_ticks b) FLEX_BTN_PRESS_LONG_START)
      = hold_ticks b + 1 :=
    Nat.mod_eq_of_lt (by show hold_ticks b + 1 < 65536; omega)
  have hrel := pressed_release_hold_up
    (held_state b (hold_ticks b) FLEX_BTN_PRESS_LONG_START) rfl
    (by rw [hn]; show short_ticks b < hold_ticks b + 1; omega)
    (by rw [hn]; show hold_ticks b < hold_ticks b + 1; omega)
  rw [hn] at hrel
  unfold press_release
  rw [Nat.add_sub_cancel, body_run_append,
    press_held_long b (hold_ticks b) hst he hSL hLH (le_refl _) (by omega),
    body_run_one, hrel]
  rfl

/-- A press from IDLE released 65536 scans after the press edge: the 16-bit
scan count is back at 0 on the release scan, which is taken for an early
release. -/
theorem wrapped_press_run (b : flex_button_t) (hst : b.status = 0)
    (he : b.event ≠ FLEX_BTN_PRESS_SHORT_START)
    (hSL : short_ticks b < long_ticks b) (hLH : long_ticks b < hold_ticks b)
    (hH : hold_ticks b < 65535) :
    body_run b (press_release 65536) =
      ({ held_state b 0 FLEX_BTN_PRESS_LONG_HOLD with status := 2 },
       held_trace_hold b 65535 ++ [none]) := by
  have hn : next_cnt (held_state b 65535 FLEX_BTN_PRESS_LONG_HOLD) = 0 := by
    show (65535 + 1) % 65536 = 0
    norm_num
  have hrel := pressed_release_early (held_state b 65535 FLEX_BTN_PRESS_LONG_HOLD) rfl
    (by rw [hn]; exact Nat.zero_le _)
  unfold press_release
  rw [body_run_append,
    press_held_hold b (65536 - 1) hst he hSL hLH (by omega) (by omega), body_run_one, hrel]
  rfl

/-- C10 (amended): a button in IDLE, in any state reached from registration,
with thresholds `S < L < H` in scans, is pressed and released `t` scans later
with no other toggle, `H < t < 65536` (the 16-bit scan count does not wrap).
If `H + 1 < t`, exactly four events are fired, in this order: SHORT_START on
scan `S + 1` after the press edge, LONG_START on scan `L + 1`, LONG_HOLD on
scan `H + 1`, all while held, and LONG_HOLD_UP on the release scan.  If
`t = H + 1`, the release scan is the first one beyond the long-hold threshold:
SHORT_START, LONG_START and LONG_HOLD_UP are fired and LONG_HOLD is not.  In
both cases the button ends in IDLE. -/
theorem long_hold_events (b0 : flex_button_t) (hist : List Bool) (t : Nat)
    (hSL : short_ticks b0 < long_ticks b0) (hLH : long_ticks b0 < hold_ticks b0)
    (hidle : (body_run (registered b0) hist).1.status = 0)
    (ht : hold_ticks b0 < t) (hw : t < 65536) :
    (hold_ticks b0 + 1 < t →
      (body_run (body_run (registered b0) hist).1 (press_release t)).2 =
        none :: (List.replicate (short_ticks b0) none ++
          some FLEX_BTN_PRESS_SHORT_START ::
            (List.replicate (long_ticks b0 - short_ticks b0 - 1) none ++
              some FLEX_BTN_PRESS_LONG_START ::
                (List.replicate (hold_ticks b0 - long_ticks b0 - 1) none ++
                  some FLEX_BTN_PRESS_LONG_HOLD ::
                    (List.replicate (t - hold_ticks b0 - 2) none ++
                      [some FLEX_BTN_PRESS_LONG_HOLD_UP])))) ∧
      (body_run (body_run (registered b0) hist).1 (press_release t)).2.reduceOption =
        [FLEX_BTN_PRESS_SHORT_START, FLEX_BTN_PRESS_LONG_START,
         FLEX_BTN_PRESS_LONG_HOLD, FLEX_BTN_PRESS_LONG_HOLD_UP]) ∧
    (t = hold_ticks b0 + 1 →
      (body_run (body_run (registered b0) hist).1 (press_release t)).2 =
        none :: (List.replicate (short_ticks b0) none ++
          some FLEX_BTN_PRESS_SHORT_START ::
            (List.replicate (long_ticks b0 - short_ticks b0 - 1) none ++
              some FLEX_BTN_PRESS_LONG_START ::
                (List.replicate (hold_ticks b0 - long_ticks b0 - 1) none ++
                  [some FLEX_BTN_PRESS_LONG_HOLD_UP]))) ∧
      (body_run (body_run (registered b0) hist).1 (press_release t)).2.reduceOption =
        [FLEX_BTN_PRESS_SHORT_START, FLEX_BTN_PRESS_LONG_START,
         FLEX_BTN_PRESS_LONG_HOLD_UP]) ∧
    (body_run (body_run (registered b0) hist).1 (press_release t)).1.status = 0 := by
  have hev := idle_event_fresh b0 hist (by omega) hidle
  have htk := body_run_ticks hist (registered b0)
  have hS : short_ticks (body_run (registered b0) hist).1 = short_ticks b0 := htk.1
  have hL : long_ticks (body_run (registered b0) hist).1 = long_ticks b0 := htk.2.1
  have hH : hold_ticks (body_run (registered b0) hist).1 = hold_ticks b0 := htk.2.2.1
  generalize (body_run (registered b0) hist).1 = c at hidle hev hS hL hH ⊢
  have hA : hold_ticks b0 + 1 < t → body_run c (press_release t) =
      ({ held_state c t FLEX_BTN_PRESS_LONG_HOLD_UP with status := 0 },
       held_trace_hold c (t - 1) ++ [some FLEX_BTN_PRESS_LONG_HOLD_UP]) :=
    fun h => hold_press_run c t hidle hev (by rw [hS, hL]; exact hSL)
      (by rw [hL, hH]; exact hLH) (by rw [hH]; exact h) hw
  have hB : t = hold_ticks b0 + 1 → body_run c (press_release t) =
      ({ held_state c (hold_ticks c + 1) FLEX_BTN_PRESS_LONG_HOLD_UP with status := 0 },
       held_trace_long c (hold_ticks c) ++ [some FLEX_BTN_PRESS_LONG_HOLD_UP]) :=
    fun h => by
      rw [h, ← hH]
      exact hold_press_edge_run c hidle hev (by rw [hS, hL]; exact hSL)
        (by rw [hL, hH]; exact hLH) (by rw [hH]; omega)
  refine ⟨fun h => ?_, fun h => ?_, ?_⟩
  · rw [hA h]
    constructor
    · have e : t - 1 - hold_ticks b0 - 1 = t - hold_ticks b0 - 2 := by omega
      simp only [held_trace_hold, held_trace_long, held_trace_short, hS, hL, hH, e,
        List.cons_append, List.append_assoc]
    · rw [List.reduceOption_append, held_trace_hold_events]
      rfl
  · rw [hB h]
    constructor
    · simp only [held_trace_long, held_trace_short, hS, hL, hH,
        List.cons_append, List.append_assoc]
    · rw [List.reduceOption_append, held_trace_long_events]
      rfl
  · rcases Nat.lt_or_ge (hold_ticks b0 + 1) t with h | h
    · rw [hA h]
    · rw [hB (by omega)]

theorem long_hold_events_witness :
    (body_run (registered demo_button) (press_release 70)).2 =
      none :: (List.replicate 10 none ++ some FLEX_BTN_PRESS_SHORT_START ::
        (List.replicate 39 none ++ some FLEX_BTN_PRESS_LONG_START ::
          (List.replicate 9 none ++ some FLEX_BTN_PRESS_LONG_HOLD ::
            (List.replicate 8 none ++ [some FLEX_BTN_PRESS_LONG_HOLD_UP])))) ∧
    (body_run (registered demo_button) (press_release 70)).2.reduceOption =
      [FLEX_BTN_PRESS_SHORT_START, FLEX_BTN_PRESS_LONG_START,
       FLEX_BTN_PRESS_LONG_HOLD, FLEX_BTN_PRESS_LONG_HOLD_UP] :=
  (long_hold_events demo_button [] 70 (by decide) (by decide) (by decide)
    (by decide) (by decide)).1 (by decide)

/-- C10 as stated fails at both ends of `t > H`, here with `S = 10`, `L = 50`,
`H = 60` from the registered state.  Released `t = 61` scans after the press
edge, the press fires SHORT_START, LONG_START, LONG_HOLD_UP and no LONG_HOLD.
Released `t = 65536` scans after the press edge, the 16-bit scan count has
wrapped to 0 on the release scan: no LONG_HOLD_UP is fired and the button is
in RELEASE_WINDOW. -/
theorem long_hold_not_all_t :
    short_ticks demo_button = 10 ∧ long_ticks demo_button = 50 ∧
    hold_ticks demo_button = 60 ∧ (registered demo_button).status = 0 ∧
    (body_run (registered demo_button) (press_release 61)).2.reduceOption =
      [FLEX_BTN_PRESS_SHORT_START, FLEX_BTN_PRESS_LONG_START,
       FLEX_BTN_PRESS_LONG_HOLD_UP] ∧
    (body_run (registered demo_button) (press_release 65536)).2.reduceOption =
      [FLEX_BTN_PRESS_SHORT_START, FLEX_BTN_PRESS_LONG_START,
       FLEX_BTN_PRESS_LONG_HOLD] ∧
    (body_run (registered demo_button) (press_release 65536)).1.status = 2 := by
  have hw := wrapped_press_run (registered demo_button) rfl (by decide) (by decide)
    (by decide) (by decide)
  refine ⟨by decide, by decide, by decide, by decide, by decide, ?_, ?_⟩
  · rw [hw]
    show (held_trace_hold (registered demo_button) 65535 ++ [none]).reduceOption = _
    rw [List.reduceOption_append, held_trace_hold_events]
    rfl
  · rw [hw]

/-! ## Multi-click -/

/-- A press that began with click count `c`, released no later than the short
threshold: nothing is fired and the descriptor is in RELEASE_WINDOW. -/
theorem early_release_run (b : flex_button_t) (c d : Nat)
    (hd1 : 1 ≤ d) (hdS : d ≤ short_ticks b)
    (hSL : short_ticks b ≤ long_ticks b) (hSH : short_ticks b ≤ hold_ticks b)
    (hw : d < 65536) :
    body_run (clicking_state b c 0) (List.replicate (d - 1) false ++ [true]) =
      (click_state b c, List.replicate (d - 1) none ++ [none]) := by
  have hq := held_quiet_run (d - 1) (clicking_state b c 0) rfl
    (by show 0 + (d - 1) < 65536; omega)
    (by
      intro n _ h2
      have h3 : n ≤ 0 + (d - 1) := h2
      have e1 : hold_ticks (clicking_state b c 0) = hold_ticks b := rfl
      have e2 : long_ticks (clicking_state b c 0) = long_ticks b := rfl
      have e3 : short_ticks (clicking_state b c 0) = short_ticks b := rfl
      rw [e1, e2, e3]
      exact ⟨fun h => by omega, fun _ h => by omega, fun _ _ h => by omega⟩)
  have hq2 : body_run (clicking_state b c 0) (List.replicate (d - 1) false) =
      (clicking_state b c (d - 1), List.replicate (d - 1) none) := by
    rw [hq]
    simp [clicking_state]
  have hn : next_cnt (clicking_state b c (d - 1)) = d := by
    show (d - 1 + 1) % 65536 = d
    rw [Nat.sub_add_cancel hd1]
    exact Nat.mod_eq_of_lt hw
  have hrel := pressed_release_early (clicking_state b c (d - 1)) rfl
    (by rw [hn]; exact hdS)
  rw [body_run_append, hq2, body_run_one, hrel]
  rfl

/-- The first press of a click sequence, from IDLE. -/
theorem first_click_run (b : flex_button_t) (d : Nat) (hst : b.status = 0)
    (hd1 : 1 ≤ d) (hdS : d ≤ short_ticks b)
    (hSL : short_ticks b ≤ long_ticks b) (hSH : short_ticks b ≤ hold_ticks b)
    (hw : d < 65536) :
    body_run b (press_release d) =
      (click_state b 0, List.replicate (press_release d).length none) := by
  have h := early_release_run b 0 d hd1 hdS hSL hSH hw
  have h0 : process_body b true = (clicking_state b 0 0, none) := idle_toggle b hst
  have hrun : body_run b (true :: (List.replicate (d - 1) false ++ [true])) =
      (click_state b 0, none :: (List.replicate (d - 1) none ++ [none])) := by
    simp only [body_run, h0, h]
  have hlen : (press_release d).length = (d - 1) + 1 + 1 := by
    simp [press_release]
  rw [hlen, List.replicate_succ, List.replicate_succ']
  exact hrun

/-- A later press of a click sequence, from RELEASE_WINDOW inside the
window: the click count goes up by one (modulo 2^16) and nothing is fired. -/
theorem next_click_run (b : flex_button_t) (c g d : Nat)
    (hg1 : 1 ≤ g) (hgR : g ≤ window_ticks b) (hd1 : 1 ≤ d) (hdS : d ≤ short_ticks b)
    (hSL : short_ticks b ≤ long_ticks b) (hSH : short_ticks b ≤ hold_ticks b)
    (hwg : g < 65536) (hwd : d < 65536) :
    body_run (click_state b c) (List.replicate (g - 1) false ++ press_release d) =
      (click_state b ((c + 1) % 65536),
       List.replicate (List.replicate (g - 1) false ++ press_release d).length none) := by
  have hq := window_quiet_run (g - 1) (click_state b c) rfl
    (by show 0 + (g - 1) < 65536; omega)
    (by show 0 + (g - 1) ≤ window_ticks b; omega)
  have hn : next_cnt ({ click_state b c with scan_cnt := (click_state b c).scan_cnt + (g - 1) })
      = g := by
    show (0 + (g - 1) + 1) % 65536 = g
    rw [Nat.zero_add, Nat.sub_add_cancel hg1]
    exact Nat.mod_eq_of_lt hwg
  have htog := window_toggle
    { click_state b c with scan_cnt := (click_state b c).scan_cnt + (g - 1) } rfl
    (by rw [hn]; exact hgR)
  have htog2 : process_body
      { click_state b c with scan_cnt := (click_state b c).scan_cnt + (g - 1) } true
      = (clicking_state b ((c + 1) % 65536) 0, none) := htog
  have h := early_release_run b ((c + 1) % 65536) d hd1 hdS hSL hSH hwd
  have hpress : body_run
      { click_state b c with scan_cnt := (click_state b c).scan_cnt + (g - 1) }
      (true :: (List.replicate (d - 1) false ++ [true])) =
      (click_state b ((c + 1) % 65536), none :: (List.replicate (d - 1) none ++ [none])) := by
    simp only [body_run, htog2, h]
  have hlen : (List.replicate (g - 1) false ++ press_release d).length
      = (g - 1) + ((d - 1) + 1 + 1) := by
    simp [press_release]
  have hl : List.replicate ((g - 1) + ((d - 1) + 1 + 1)) (none : Option Nat) =
      List.replicate (g - 1) none ++ (none :: (List.replicate (d - 1) none ++ [none])) := by
    rw [List.replicate_add, List.replicate_succ, List.replicate_succ']
  have hp2 : press_release d = true :: (List.replicate (d - 1) false ++ [true]) := rfl
  rw [hlen, hl, body_run_append, hq, hp2, hpress]

/-- The later presses of a click sequence, each inside the window of the
previous release and each released no later than the short threshold: nothing
is fired and the click count goes up by their number, modulo 2^16. -/
theorem click_train_run (b : flex_button_t)
    (hSL : short_ticks b ≤ long_ticks b) (hSH : short_ticks b ≤ hold_ticks b)
    (hS : short_ticks b < 65536) (hR : window_ticks b < 65536)
    (rest : List (Nat × Nat)) : ∀ c, c < 65536 →
    (∀ gd ∈ rest, 1 ≤ gd.1 ∧ gd.1 ≤ window_ticks b ∧ 1 ≤ gd.2 ∧ gd.2 ≤ short_ticks b) →
    body_run (click_state b c) (click_train rest) =
      (click_state b ((c + rest.length) % 65536),
       List.replicate (click_train rest).length none) := by
  induction rest with
  | nil =>
    intro c hc _
    simp [click_train, body_run, Nat.mod_eq_of_lt hc]
  | cons gd rest ih =>
    intro c hc hall
    have hgd := hall gd (by simp)
    have h1 := next_click_run b c gd.1 gd.2 hgd.1 hgd.2.1 hgd.2.2.1 hgd.2.2.2 hSL hSH
      (by omega) (by omega)
    have h2 := ih ((c + 1) % 65536) (Nat.mod_lt _ (by norm_num))
      (fun x hx => hall x (by simp [hx]))
    have hc2 : ((c + 1) % 65536 + rest.length) % 65536
        = (c + (gd :: rest).length) % 65536 := by
      simp only [List.length_cons]
      omega
    simp only [click_train]
    rw [body_run_append, h1, h2, hc2]
    simp only [List.length_append, List.length_replicate, List.replicate_add,
      List.append_assoc]

/-- The window after the last release of a click sequence with click count
`c`: `m` scans without a toggle, `m` more than the window.  The scan on which
the window expires fires `CLICK + c` when `c ≤ 7` and nothing otherwise; no
other scan fires anything, and the descriptor ends in IDLE. -/
theorem window_expiry_run (b : flex_button_t) (c m : Nat)
    (hR : window_ticks b < 65535) (hm : window_ticks b < m) :
    (body_run (click_state b c) (List.replicate m false)).2 =
      List.replicate (window_ticks b) none ++
        (if c ≤ 7 then some (FLEX_BTN_PRESS_CLICK + c) else none) ::
          List.replicate (m - window_ticks b - 1) none ∧
    (body_run (click_state b c) (List.replicate m false)).1.status = 0 := by
  have hq := window_quiet_run (window_ticks b) (click_state b c) rfl
    (by show 0 + window_ticks b < 65536; omega)
    (by show 0 + window_ticks b ≤ window_ticks b; omega)
  have hn : next_cnt
      { click_state b c with scan_cnt := (click_state b c).scan_cnt + window_ticks b }
      = window_ticks b + 1 := by
    show (0 + window_ticks b + 1) % 65536 = window_ticks b + 1
    rw [Nat.zero_add]
    exact Nat.mod_eq_of_lt (by omega)
  rw [replicate_split m (window_ticks b) hm, body_run_append, hq]
  by_cases hc : c ≤ 7
  · have hx := window_expire_click
      { click_state b c with scan_cnt := (click_state b c).scan_cnt + window_ticks b }
      false rfl (by rw [hn]; show window_ticks b < window_ticks b + 1; omega) hc
    have hi := idle_quiet_run (m - window_ticks b - 1) _
      (show (process_body { click_state b c with
        scan_cnt := (click_state b c).scan_cnt + window_ticks b } false).1.status = 0 by
        rw [hx])
    simp only [body_run, hi.1, hi.2, hc, if_true, and_true]
    rw [hx]
    rfl
  · have hx := window_expire_silent
      { click_state b c with scan_cnt := (click_state b c).scan_cnt + window_ticks b }
      false rfl (by rw [hn]; show window_ticks b < window_ticks b + 1; omega)
      (show 7 < c by omega)
    have hi := idle_quiet_run (m - window_ticks b - 1) _
      (show (process_body { click_state b c with
        scan_cnt := (click_state b c).scan_cnt + window_ticks b } false).1.status = 0 by
        rw [hx])
    simp only [body_run, hi.1, hi.2, hc, if_false, and_true]
    rw [hx]

/-- The events fired per scan by a click sequence of `k = rest.length + 1`
presses from IDLE: only the scan on which the final window expires can fire,
and it fires `CLICK + c` when the click count `c = (k - 1) mod 2^16` is at
most 7. -/
theorem click_sequence_run (b : flex_button_t) (d0 : Nat) (rest : List (Nat × Nat))
    (m : Nat) (hst : b.status = 0)
    (hS : short_ticks b < 65536) (hR : window_ticks b < 65535)
    (hSL : short_ticks b ≤ long_ticks b) (hSH : short_ticks b ≤ hold_ticks b)
    (hd1 : 1 ≤ d0) (hdS : d0 ≤ short_ticks b)
    (hall : ∀ gd ∈ rest,
      1 ≤ gd.1 ∧ gd.1 ≤ window_ticks b ∧ 1 ≤ gd.2 ∧ gd.2 ≤ short_ticks b)
    (hm : window_ticks b < m) :
    (body_run b (click_sequence d0 rest m)).2 =
      List.replicate ((press_release d0 ++ click_train rest).length + window_ticks b) none ++
        (if rest.length % 65536 ≤ 7 then
           some (FLEX_BTN_PRESS_CLICK + rest.length % 65536) else none) ::
          List.replicate (m - window_ticks b - 1) none ∧
    (body_run b (click_sequence d0 rest m)).1.status = 0 := by
  have h1 := first_click_run b d0 hst hd1 hdS hSL hSH (by omega)
  have h2 := click_train_run b hSL hSH hS (by omega) rest 0 (by norm_num) hall
  have h3 := window_expiry_run b (rest.length % 65536) m hR hm
  rw [Nat.zero_add] at h2
  unfold click_sequence
  rw [body_run_append, body_run_append, h1, h2]
  refine ⟨?_, h3.2⟩
  simp only [h3.1, List.length_append, List.replicate_add, List.append_assoc]

theorem expiry_trace_events (n k : Nat) (x : Option Nat) :
    (List.replicate n none ++ x :: List.replicate k none).reduceOption = x.toList := by
  rw [List.reduceOption_append, reduceOption_replicate_none]
  cases x with
  | none => simp [List.reduceOption_cons_of_none, reduceOption_replicate_none]
  | some e => simp [List.reduceOption_cons_of_some, reduceOption_replicate_none]

/-- C9 (amended): a button in IDLE whose short threshold is not above the long
and long-hold thresholds (`S ≤ L`, `S ≤ H`) receives `k = rest.length + 1`
presses, `k ≤ 65536`, each released at least 1 and at most `S` scans after its
press edge, each later press edge at least 1 and at most `R` scans after the
previous release edge, and then `m > R` scans without a toggle.  Every scan
but the one on which the window expires fires nothing; that scan fires
`CLICK + (k - 1)` when `k ≤ 8` and nothing when `k > 8`.  The button ends in
IDLE. -/
theorem multi_click_events (b : flex_button_t) (d0 : Nat) (rest : List (Nat × Nat))
    (m : Nat) (hst : b.status = 0)
    (hrS : b.short_press_start_tick < 65536) (hrR : b.release_max_cnt < 65536)
    (hSL : short_ticks b ≤ long_ticks b) (hSH : short_ticks b ≤ hold_ticks b)
    (hd1 : 1 ≤ d0) (hdS : d0 ≤ short_ticks b)
    (hall : ∀ gd ∈ rest,
      1 ≤ gd.1 ∧ gd.1 ≤ window_ticks b ∧ 1 ≤ gd.2 ∧ gd.2 ≤ short_ticks b)
    (hk : rest.length + 1 ≤ 65536)
    (hm : window_ticks b < m) :
    (body_run b (click_sequence d0 rest m)).2 =
      List.replicate ((press_release d0 ++ click_train rest).length + window_ticks b) none ++
        (if rest.length + 1 ≤ 8 then some (FLEX_BTN_PRESS_CLICK + rest.length) else none) ::
          List.replicate (m - window_ticks b - 1) none ∧
    (rest.length + 1 ≤ 8 →
      (body_run b (click_sequence d0 rest m)).2.reduceOption =
        [FLEX_BTN_PRESS_CLICK + rest.length]) ∧
    (8 < rest.length + 1 →
      (body_run b (click_sequence d0 rest m)).2.reduceOption = []) ∧
    (body_run b (click_sequence d0 rest m)).1.status = 0 := by
  have hS : short_ticks b ≤ 3276 := FLEX_MS_TO_CNT_le _ hrS
  have hR : window_ticks b ≤ 3276 := FLEX_MS_TO_CNT_le _ hrR
  have h := click_sequence_run b d0 rest m hst (by omega) (by omega) hSL hSH hd1 hdS hall hm
  have hmod : rest.length % 65536 = rest.length := Nat.mod_eq_of_lt (by omega)
  have hiff : (rest.length ≤ 7) = (rest.length + 1 ≤ 8) := by
    apply propext
    constructor <;> intro h <;> omega
  have htr : (body_run b (click_sequence d0 rest m)).2 =
      List.replicate ((press_release d0 ++ click_train rest).length + window_ticks b) none ++
        (if rest.length + 1 ≤ 8 then some (FLEX_BTN_PRESS_CLICK + rest.length) else none) ::
          List.replicate (m - window_ticks b - 1) none := by
    rw [h.1, hmod]
    simp only [hiff]
  refine ⟨htr, ?_, ?_, h.2⟩
  · intro hk8
    rw [htr, expiry_trace_events]
    simp [hk8]
  · intro hk8
    have hc : ¬ rest.length + 1 ≤ 8 := by omega
    rw [htr, expiry_trace_events]
    simp [hc]

theorem multi_click_events_witness :
    (body_run (registered demo_button) (click_sequence 3 [(5, 2), (20, 10)] 21)).2.reduceOption
      = [FLEX_BTN_PRESS_TRIPLE_CLICK] ∧
    (body_run (registered demo_button) (click_sequence 3 [(5, 2), (20, 10)] 21)).1.status = 0 :=
  have h := multi_click_events (registered demo_button) 3 [(5, 2), (20, 10)] 21 rfl
    (by decide) (by decide) (by decide) (by decide) (by decide) (by decide) (by decide)
    (by decide) (by decide)
  ⟨h.2.1 (by decide), h.2.2.2⟩

/-- C9 as stated fails in two ways.  With thresholds out of order (`L = 0`
below `S = 10`), a single click held for 2 scans fires LONG_START while held
and then CLICK: two events, not one.  With ordered thresholds, 65537 clicks
wrap the 16-bit click count to 0 and the run fires CLICK, although
`k > 8`. -/
theorem multi_click_not_every :
    demo_unordered.status = 0 ∧ short_ticks demo_unordered = 10 ∧
    long_ticks demo_unordered = 0 ∧ window_ticks demo_unordered = 20 ∧
    (body_run demo_unordered (click_sequence 2 [] 21)).2.reduceOption =
      [FLEX_BTN_PRESS_LONG_START, FLEX_BTN_PRESS_CLICK] ∧
    (List.replicate 65536 ((1 : Nat), (1 : Nat))).length + 1 = 65537 ∧
    (body_run (registered demo_button)
      (click_sequence 1 (List.replicate 65536 (1, 1)) 21)).2.reduceOption =
      [FLEX_BTN_PRESS_CLICK] := by
  have h := click_sequence_run (registered demo_button) 1 (List.replicate 65536 (1, 1)) 21
    rfl (by decide) (by decide) (by decide) (by decide) (by decide) (by decide)
    (fun gd hgd => by rw [List.eq_of_mem_replicate hgd]; decide) (by decide)
  refine ⟨by decide, by decide, by decide, by decide, by decide, ?_, ?_⟩
  · rw [List.length_replicate]
  · rw [h.1, expiry_trace_events, List.length_replicate]
    rfl

/-! ## `flex_button_process` runs the loop body on every descriptor -/

theorem process_loop_frame (tg : Nat) : ∀ (l : List Nat) (i : Nat)
    (mem : Nat → flex_button_t) (p : Nat), p ∉ l →
    (process_loop tg l i mem).1 p = mem p := by
  intro l
  induction l with
  | nil => intro i mem p _; rfl
  | cons t next ih =>
    intro i mem p hp
    have hpt : p ≠ t := fun e => hp (by simp [e])
    have hpn : p ∉ next := fun e => hp (by simp [e])
    simp only [process_loop]
    rw [ih _ _ p hpn, Function.update_noteq hpt]

/-- In a list of distinct nodes, the descriptor at traversal index `k` after
the loop is the loop body applied to it with `BTN_TOGGLE` at its index. -/
theorem process_loop_at (tg : Nat) : ∀ (l : List Nat) (i : Nat)
    (mem : Nat → flex_button_t), l.Nodup → i + l.length ≤ 256 →
    ∀ k p, l[k]? = some p →
      (process_loop tg l i mem).1 p = (process_body (mem p) (BTN_TOGGLE tg (i + k))).1 := by
  intro l
  induction l with
  | nil => intro i mem _ _ k p h; simp at h
  | cons t next ih =>
    intro i mem hnd hlen k p hk
    have hnd2 := List.nodup_cons.1 hnd
    have hlen2 : i + 1 + next.length ≤ 256 := by simp at hlen; omega
    simp only [process_loop]
    cases k with
    | zero =>
      simp at hk
      subst hk
      rw [process_loop_frame tg next _ _ t hnd2.1, Function.update_same]
      rfl
    | succ k =>
      simp at hk
      have hpn : p ∈ next := List.getElem?_mem hk
      have hpt : p ≠ t := fun e => hnd2.1 (e ▸ hpn)
      have hpos : 0 < next.length := List.length_pos_of_mem hpn
      have hmod : (i + 1) % 256 = i + 1 := Nat.mod_eq_of_lt (by omega)
      rw [hmod, ih (i + 1) _ hnd2.2 hlen2 k p hk, Function.update_noteq hpt]
      have : i + 1 + k = i + (k + 1) := by omega
      rw [this]

/-- One `flex_button_process` over a registry of distinct descriptors: the
descriptor at traversal index `k` is stepped by `process_body` with bit `k` of
`btn_toggle`, and descriptors outside the registry are untouched. -/
theorem flex_button_process_at (s : State) (hnd : s.btn_head.Nodup)
    (hlen : s.btn_head.length ≤ 256) :
    (∀ k p, s.btn_head[k]? = some p →
      (flex_button_process s).1.mem p
        = (process_body (s.mem p) (BTN_TOGGLE s.btn_toggle k)).1) ∧
    (∀ p, p ∉ s.btn_head → (flex_button_process s).1.mem p = s.mem p) := by
  constructor
  · intro k p hk
    have h := process_loop_at s.btn_toggle s.btn_head 0 s.mem hnd (by omega) k p hk
    rw [Nat.zero_add] at h
    exact h
  · intro p hp
    exact process_loop_frame s.btn_toggle s.btn_head 0 s.mem p hp

/-! ## A whole scan, end to end -/

/-- The whole scan path on a one-button registry (`S = 10`, `L = 50`): the
reader returns 1 for 30 scans and then 0; SHORT_START is fired on scan 12 (11
scans after the press edge) and SHORT_UP on scan 31, both for the button at
address 1, whose callback is `NULL`. -/
theorem scan_short_press_example :
    (scan_run (demo_registry 1)
      (List.replicate 30 raw_all_high ++ [raw_all_low])).2 =
      List.replicate 11 [] ++
        [{ button := 1, event := FLEX_BTN_PRESS_SHORT_START, cb_run := false }] ::
          (List.replicate 18 [] ++
            [[{ button := 1, event := FLEX_BTN_PRESS_SHORT_UP, cb_run := false }]]) := by
  decide

/-! ## Isolation for levels 0 and 1 -/

theorem BTN_TOGGLE_testBit (tg k : Nat) (hk : k < 32) :
    BTN_TOGGLE tg k = tg.testBit k := by
  have hpow : 2 ^ k < 2 ^ 32 := Nat.pow_lt_pow_right (by norm_num) hk
  have hs : shl32 1 k = 2 ^ k := by
    unfold shl32
    rw [Nat.one_mul]
    exact Nat.mod_eq_of_lt hpow
  unfold BTN_TOGGLE
  rw [hs]
  cases hb : tg.testBit k with
  | true =>
    have h1 : (tg &&& 2 ^ k).testBit k = true := by
      rw [Nat.testBit_and, hb, Nat.testBit_two_pow]; simp
    have h2 : tg &&& 2 ^ k ≠ 0 := by
      intro h0
      rw [h0] at h1
      simp at h1
    simp [h2]
  | false =>
    have h1 : tg &&& 2 ^ k = 0 := by
      apply Nat.eq_of_testBit_eq
      intro j
      rw [Nat.testBit_and, Nat.testBit_two_pow]
      by_cases hj : k = j
      · subst hj; simp [hb]
      · simp [hj]
    simp [h1]

theorem read_loop_bits (mem : Nat → flex_button_t) (raw : Nat → Nat) :
    ∀ (l : List Nat) (i0 cur : Nat), i0 + l.length ≤ 32 →
      (∀ p ∈ l, (mem p).pressed_logic_level < 2) →
      (∀ p ∈ l, raw p = 0 ∨ raw p = 1) →
      ∀ j, (read_loop mem raw l i0 cur).testBit j =
        (cur.testBit j || (decide (i0 ≤ j) && sampled_bit mem raw l (j - i0))) := by
  intro l
  induction l with
  | nil => intro i0 cur _ _ _ j; simp [read_loop, sampled_bit]
  | cons t next ih =>
    intro i0 cur hlen hlv hraw j
    by_cases hrt : (mem t).usr_button_read = 0
    · simp [read_loop, sampled_bit, hrt]
    · have hi0 : i0 < 32 := by simp at hlen; omega
      have hmod : (i0 + 1) % 256 = i0 + 1 := Nat.mod_eq_of_lt (by omega)
      have hlt := hlv t (by simp)
      have hrawt := hraw t (by simp)
      have hbit : ∀ j, (if (mem t).pressed_logic_level ≠ 0 then shl32 (raw t % 256) i0
            else shl32 (lnot (raw t % 256)) i0).testBit j
            = (pressed mem raw t && decide (i0 = j)) := by
        intro j
        rcases hrawt with h0 | h1
        · by_cases hl : (mem t).pressed_logic_level = 0
          · simp [hl, h0, lnot, pressed, shl32_bit _ _ hi0]
          · have : (mem t).pressed_logic_level = 1 := by omega
            simp [this, h0, pressed, shl32_bit _ _ hi0]
        · by_cases hl : (mem t).pressed_logic_level = 0
          · simp [hl, h1, lnot, pressed, shl32_bit _ _ hi0]
          · have : (mem t).pressed_logic_level = 1 := by omega
            simp [this, h1, pressed, shl32_bit _ _ hi0]
      have ih2 := ih (i0 + 1) (cur ||| (if (mem t).pressed_logic_level ≠ 0 then
          shl32 (raw t % 256) i0 else shl32 (lnot (raw t % 256)) i0))
        (by simp at hlen; omega)
        (fun p hp => hlv p (by simp [hp])) (fun p hp => hraw p (by simp [hp])) j
      simp only [read_loop, hrt, if_false, hmod]
      rw [ih2, Nat.testBit_or, hbit]
      rcases Nat.lt_trichotomy j i0 with hj | hj | hj
      · have h1 : ¬ i0 + 1 ≤ j := by omega
        have h2 : ¬ i0 ≤ j := by omega
        have h3 : ¬ i0 = j := by omega
        simp [h1, h2, h3]
      · subst hj
        simp [sampled_bit, hrt]
      · have h1 : i0 + 1 ≤ j := by omega
        have h2 : i0 ≤ j := by omega
        have h3 : ¬ i0 = j := by omega
        have h4 : j - i0 = (j - (i0 + 1)) + 1 := by omega
        simp [h1, h2, h3, h4, sampled_bit, hrt]

/-- The sampled bit at index `k` depends on the raw levels only through the
level of the descriptor at index `k`. -/
theorem sampled_bit_congr (mem1 mem2 : Nat → flex_button_t) (raw1 raw2 : Nat → Nat) :
    ∀ (l : List Nat) (k : Nat),
      (∀ q ∈ l, config (mem1 q) = config (mem2 q)) →
      (∀ p, l[k]? = some p → raw1 p = raw2 p) →
      sampled_bit mem1 raw1 l k = sampled_bit mem2 raw2 l k := by
  intro l
  induction l with
  | nil => intro k _ _; rfl
  | cons t next ih =>
    intro k hcfg hraw
    have hct := hcfg t (by simp)
    simp only [config, Prod.mk.injEq] at hct
    have hrd : (mem1 t).usr_button_read = (mem2 t).usr_button_read := hct.2.2.2.2.2.2.2.1
    have hlv : (mem1 t).pressed_logic_level = (mem2 t).pressed_logic_level := hct.1
    cases k with
    | zero =>
      have hr := hraw t (by simp)
      simp [sampled_bit, hrd, pressed, hlv, hr]
    | succ k =>
      have ih2 := ih k (fun q hq => hcfg q (by simp [hq]))
        (fun p hp => hraw p (by simpa using hp))
      simp [sampled_bit, hrd, ih2]

theorem process_loop_config (tg : Nat) : ∀ (l : List Nat) (i : Nat)
    (mem : Nat → flex_button_t) (q : Nat),
    config ((process_loop tg l i mem).1 q) = config (mem q) := by
  intro l
  induction l with
  | nil => intro i mem q; rfl
  | cons t next ih =>
    intro i mem q
    simp only [process_loop]
    rw [ih]
    by_cases hq : q = t
    · subst hq
      rw [Function.update_same, process_body_config]
    · rw [Function.update_noteq hq]

theorem fired_of_filter (t p cb : Nat) (o : Option Nat) :
    (fired_of t cb o).filter (fun f => decide (f.button = p)) =
      if t = p then fired_of t cb o else [] := by
  cases o with
  | none => simp [fired_of]
  | some e =>
    by_cases h : t = p
    · simp [fired_of, h]
    · simp [fired_of, h]

theorem process_loop_fired_none (tg : Nat) : ∀ (l : List Nat) (i : Nat)
    (mem : Nat → flex_button_t) (p : Nat), p ∉ l →
    (process_loop tg l i mem).2.filter (fun f => decide (f.button = p)) = [] := by
  intro l
  induction l with
  | nil => intro i mem p _; rfl
  | cons t next ih =>
    intro i mem p hp
    have hpt : ¬ t = p := fun e => hp (by simp [e])
    have hpn : p ∉ next := fun e => hp (by simp [e])
    simp only [process_loop, List.filter_append, fired_of_filter, hpt, if_false,
      ih _ _ p hpn, List.append_nil]

/-- In a list of distinct nodes, the events fired by the loop for the
descriptor at traversal index `k` are those of the loop body applied to it
with `BTN_TOGGLE` at its index. -/
theorem process_loop_fired (tg : Nat) : ∀ (l : List Nat) (i : Nat)
    (mem : Nat → flex_button_t), l.Nodup → i + l.length ≤ 256 →
    ∀ k p, l[k]? = some p →
      (process_loop tg l i mem).2.filter (fun f => decide (f.button = p)) =
        fired_of p (mem p).cb (process_body (mem p) (BTN_TOGGLE tg (i + k))).2 := by
  intro l
  induction l with
  | nil => intro i mem _ _ k p h; simp at h
  | cons t next ih =>
    intro i mem hnd hlen k p hk
    have hnd2 := List.nodup_cons.1 hnd
    have hlen2 : i + 1 + next.length ≤ 256 := by simp at hlen; omega
    simp only [process_loop, List.filter_append, fired_of_filter]
    cases k with
    | zero =>
      simp at hk
      subst hk
      rw [process_loop_fired_none tg next _ _ t hnd2.1]
      simp
    | succ k =>
      simp at hk
      have hpn : p ∈ next := List.getElem?_mem hk
      have hpt : ¬ t = p := fun e => hnd2.1 (e ▸ hpn)
      have hpt2 : p ≠ t := fun e => hpt e.symm
      have hpos : 0 < next.length := List.length_pos_of_mem hpn
      have hmod : (i + 1) % 256 = i + 1 := Nat.mod_eq_of_lt (by omega)
      rw [hmod, ih (i + 1) _ hnd2.2 hlen2 k p hk, Function.update_noteq hpt2]
      have : i + 1 + k = i + (k + 1) := by omega
      simp [hpt, this]

/-- One scan of two states that hold the same registry and agree on the
descriptor at traversal index `k` and on bit `k` of the retained snapshot:
when the raw levels are 0 or 1 and agree for that descriptor, the two scans
leave it in the same state, fire the same events for it and retain the same
bit `k`. -/
theorem scan_step_isolation (s1 s2 : State) (k p : Nat) (r1 r2 : Nat → Nat)
    (hhead : s1.btn_head = s2.btn_head) (hnd : s1.btn_head.Nodup)
    (hlen : s1.btn_head.length ≤ 32) (hk : s1.btn_head[k]? = some p)
    (hcfg : ∀ q ∈ s1.btn_head, config (s1.mem q) = config (s2.mem q))
    (hlv : ∀ q ∈ s1.btn_head, (s1.mem q).pressed_logic_level < 2)
    (hmem : s1.mem p = s2.mem p)
    (hpre : s1.btn_data_pre.testBit k = s2.btn_data_pre.testBit k)
    (hrp : r1 p = r2 p)
    (hr1 : ∀ q ∈ s1.btn_head, r1 q = 0 ∨ r1 q = 1)
    (hr2 : ∀ q ∈ s1.btn_head, r2 q = 0 ∨ r2 q = 1) :
    (flex_button_scan s1 r1).1.mem p = (flex_button_scan s2 r2).1.mem p ∧
    (flex_button_scan s1 r1).2.filter (fun f => decide (f.button = p)) =
      (flex_button_scan s2 r2).2.filter (fun f => decide (f.button = p)) ∧
    (flex_button_scan s1 r1).1.btn_data_pre.testBit k =
      (flex_button_scan s2 r2).1.btn_data_pre.testBit k := by
  have hk32 : k < 32 := by
    have := (List.getElem?_eq_some.1 hk).1
    omega
  have hk2 : s2.btn_head[k]? = some p := hhead ▸ hk
  have hlv2 : ∀ q ∈ s2.btn_head, (s2.mem q).pressed_logic_level < 2 := by
    intro q hq
    have hq1 : q ∈ s1.btn_head := hhead ▸ hq
    have hc := hcfg q hq1
    simp only [config, Prod.mk.injEq] at hc
    rw [← hc.1]
    exact hlv q hq1
  have hb1 := read_loop_bits s1.mem r1 s1.btn_head 0 0 (by omega) hlv hr1 k
  have hb2 := read_loop_bits s2.mem r2 s2.btn_head 0 0 (by rw [← hhead]; omega) hlv2
    (fun q hq => hr2 q (hhead ▸ hq)) k
  have hsb : sampled_bit s1.mem r1 s1.btn_head k = sampled_bit s2.mem r2 s2.btn_head k := by
    rw [← hhead]
    exact sampled_bit_congr s1.mem s2.mem r1 r2 s1.btn_head k hcfg
      (fun q hq => by
        have : q = p := by rw [hk] at hq; exact (Option.some.inj hq).symm
        rw [this]; exact hrp)
  have hcur : (read_loop s1.mem r1 s1.btn_head 0 0).testBit k =
      (read_loop s2.mem r2 s2.btn_head 0 0).testBit k := by
    rw [hb1, hb2, Nat.sub_zero, hsb]
  have htog : BTN_TOGGLE (flex_button_read s1 r1).btn_toggle k =
      BTN_TOGGLE (flex_button_read s2 r2).btn_toggle k := by
    rw [BTN_TOGGLE_testBit _ _ hk32, BTN_TOGGLE_testBit _ _ hk32]
    show (read_loop s1.mem r1 s1.btn_head 0 0 ^^^ s1.btn_data_pre).testBit k =
      (read_loop s2.mem r2 s2.btn_head 0 0 ^^^ s2.btn_data_pre).testBit k
    rw [Nat.testBit_xor, Nat.testBit_xor, hcur, hpre]
  have hat1 := process_loop_at (flex_button_read s1 r1).btn_toggle s1.btn_head 0 s1.mem
    hnd (by omega) k p hk
  have hat2 := process_loop_at (flex_button_read s2 r2).btn_toggle s2.btn_head 0 s2.mem
    (hhead ▸ hnd) (by rw [← hhead]; omega) k p hk2
  have hf1 := process_loop_fired (flex_button_read s1 r1).btn_toggle s1.btn_head 0 s1.mem
    hnd (by omega) k p hk
  have hf2 := process_loop_fired (flex_button_read s2 r2).btn_toggle s2.btn_head 0 s2.mem
    (hhead ▸ hnd) (by rw [← hhead]; omega) k p hk2
  rw [Nat.zero_add] at hat1 hat2 hf1 hf2
  refine ⟨?_, ?_, hcur⟩
  · show (process_loop (flex_button_read s1 r1).btn_toggle s1.btn_head 0 s1.mem).1 p =
      (process_loop (flex_button_read s2 r2).btn_toggle s2.btn_head 0 s2.mem).1 p
    rw [hat1, hat2, htog, hmem]
  · show (process_loop (flex_button_read s1 r1).btn_toggle s1.btn_head 0 s1.mem).2.filter _ =
      (process_loop (flex_button_read s2 r2).btn_toggle s2.btn_head 0 s2.mem).2.filter _
    rw [hf1, hf2, htog, hmem]

theorem scan_keeps_registry (s : State) (r : Nat → Nat) :
    (flex_button_scan s r).1.btn_head = s.btn_head ∧
    ∀ q, config ((flex_button_scan s r).1.mem q) = config (s.mem q) :=
  ⟨rfl, fun q => process_loop_config _ s.btn_head 0 s.mem q⟩

/-- Two runs of `flex_button_scan` with raw levels 0 and 1
start from states holding the same registry of at most 32 distinct descriptors
with the same configuration, in which the descriptor `p` at traversal index
`k` and bit `k` of the retained snapshot agree.  The list `raws` gives, scan by
scan, the raw levels of the first and of the second run.  If they agree for
`p` at every scan, then after the runs `p` has the same members in both and,
scan by scan, the same events were fired for it.  (Applied to every prefix of
`raws`, this is agreement at every scan.) -/
theorem scan_isolation_levels (k p : Nat)
    (raws : List ((Nat → Nat) × (Nat → Nat))) : ∀ (s1 s2 : State),
    s1.btn_head = s2.btn_head → s1.btn_head.Nodup → s1.btn_head.length ≤ 32 →
    s1.btn_head[k]? = some p →
    (∀ q ∈ s1.btn_head, config (s1.mem q) = config (s2.mem q)) →
    (∀ q ∈ s1.btn_head, (s1.mem q).pressed_logic_level < 2) →
    s1.mem p = s2.mem p →
    s1.btn_data_pre.testBit k = s2.btn_data_pre.testBit k →
    (∀ r ∈ raws, r.1 p = r.2 p ∧
      ∀ q ∈ s1.btn_head, (r.1 q = 0 ∨ r.1 q = 1) ∧ (r.2 q = 0 ∨ r.2 q = 1)) →
    (scan_run s1 (raws.map Prod.fst)).1.mem p = (scan_run s2 (raws.map Prod.snd)).1.mem p ∧
    (scan_run s1 (raws.map Prod.fst)).2.map (List.filter (fun f => decide (f.button = p))) =
      (scan_run s2 (raws.map Prod.snd)).2.map
        (List.filter (fun f => decide (f.button = p))) := by
  induction raws with
  | nil =>
    intro s1 s2 _ _ _ _ _ _ hmem _ _
    exact ⟨hmem, rfl⟩
  | cons r raws ih =>
    intro s1 s2 hhead hnd hlen hk hcfg hlv hmem hpre hraw
    have hr := hraw r (by simp)
    have hstep := scan_step_isolation s1 s2 k p r.1 r.2 hhead hnd hlen hk hcfg hlv hmem
      hpre hr.1 (fun q hq => (hr.2 q hq).1) (fun q hq => (hr.2 q hq).2)
    have hk1 := scan_keeps_registry s1 r.1
    have hk2 := scan_keeps_registry s2 r.2
    have hrec := ih (flex_button_scan s1 r.1).1 (flex_button_scan s2 r.2).1
      (by rw [hk1.1, hk2.1]; exact hhead)
      (by rw [hk1.1]; exact hnd)
      (by rw [hk1.1]; exact hlen)
      (by rw [hk1.1]; exact hk)
      (by
        intro q hq
        rw [hk1.1] at hq
        rw [hk1.2 q, hk2.2 q]
        exact hcfg q hq)
      (by
        intro q hq
        rw [hk1.1] at hq
        have hc := hk1.2 q
        simp only [config, Prod.mk.injEq] at hc
        rw [hc.1]
        exact hlv q hq)
      hstep.1 hstep.2.2
      (by
        intro r2 hr2
        rw [hk1.1]
        exact hraw r2 (by simp [hr2]))
    simp only [List.map_cons, scan_run]
    exact ⟨hrec.1, by rw [hstep.2.1, hrec.2]⟩

/-- C6 (amended): isolation when every raw level is 0 or 1.  In a registry of
at most 32 distinct descriptors (a linked list holds a node once; the 1-bit
`pressed_logic_level` is 0 or 1), let `p` be the descriptor at traversal index
`k`, and let `raws` give, scan by scan, the raw levels of two runs of
`flex_button_scan` from the same state, every level being 0 or 1.  If the two
runs agree on the raw level of `p` at every scan, then after every number `n`
of scans the descriptor `p` has the same members in both runs (status, event,
scan_cnt, click_cnt and all others), and scan by scan the same events are fired
for `p`, whatever the levels of the other buttons are. -/
theorem scan_isolation (s : State) (k p : Nat)
    (raws : List ((Nat → Nat) × (Nat → Nat)))
    (hnd : s.btn_head.Nodup) (hlen : s.btn_head.length ≤ 32)
    (hk : s.btn_head[k]? = some p)
    (hlv : ∀ q ∈ s.btn_head, (s.mem q).pressed_logic_level < 2)
    (hraw : ∀ r ∈ raws, r.1 p = r.2 p ∧
      ∀ q ∈ s.btn_head, (r.1 q = 0 ∨ r.1 q = 1) ∧ (r.2 q = 0 ∨ r.2 q = 1)) :
    (∀ n, (scan_run s ((raws.take n).map Prod.fst)).1.mem p =
      (scan_run s ((raws.take n).map Prod.snd)).1.mem p) ∧
    (scan_run s (raws.map Prod.fst)).2.map (List.filter (fun f => decide (f.button = p))) =
      (scan_run s (raws.map Prod.snd)).2.map
        (List.filter (fun f => decide (f.button = p))) := by
  constructor
  · intro n
    exact (scan_isolation_levels k p (raws.take n) s s rfl hnd hlen hk (fun _ _ => rfl) hlv
      rfl rfl (fun r hr => hraw r (List.mem_of_mem_take hr))).1
  · exact (scan_isolation_levels k p raws s s rfl hnd hlen hk (fun _ _ => rfl) hlv
      rfl rfl hraw).2

theorem scan_isolation_witness :
    ((scan_run (demo_registry 2) [raw_all_low, raw_all_low, raw_all_low]).1.mem 1 =
      (scan_run (demo_registry 2) [raw_high_at_2, raw_all_low, raw_high_at_2]).1.mem 1) ∧
    (scan_run (demo_registry 2) [raw_high_at_2, raw_all_low, raw_high_at_2]).1.btn_data_pre = 1 ∧
    ((scan_run (demo_registry 2) [raw_high_at_2, raw_all_low, raw_high_at_2]).1.mem 2).status = 1 :=
  ⟨(scan_isolation (demo_registry 2) 1 1
      [(raw_all_low, raw_high_at_2), (raw_all_low, raw_all_low), (raw_all_low, raw_high_at_2)]
      (by decide) (by decide) (by decide) (by decide) (by decide)).1 3,
   by decide, by decide⟩

/-! ## The IDLE and RELEASE_WINDOW steps -/

/-- C17: on a scan, a descriptor whose status is not 0 (IDLE) is handed to the
`switch` with `scan_cnt` already incremented modulo 2^16; a descriptor in IDLE
that does not toggle keeps `scan_cnt`; in IDLE a toggle sets `scan_cnt = 0`,
`click_cnt = 0`, `status = 1` (PRESSED) and fires nothing, and no toggle sets
the event member to `FLEX_BTN_PRESS_NONE`, changes nothing else and fires
nothing (so no callback runs). -/
theorem tick_counting_and_idle (b : flex_button_t) (toggled : Bool) :
    (0 < b.status →
      process_body b toggled =
        process_switch { b with scan_cnt := (b.scan_cnt + 1) % 65536 } toggled) ∧
    (b.status = 0 → toggled = false →
      (process_body b toggled).1.scan_cnt = b.scan_cnt) ∧
    (b.status = 0 →
      process_body b true =
        ({ b with scan_cnt := 0, click_cnt := 0, status := 1 }, none)) ∧
    (b.status = 0 →
      process_body b false = ({ b with event := FLEX_BTN_PRESS_NONE }, none)) := by
  refine ⟨fun h => body_counted b toggled h, ?_, idle_toggle b, idle_quiet b⟩
  intro hst ht
  rw [ht, idle_quiet b hst]

theorem tick_counting_and_idle_witness :
    process_body (demo_pressed 65535) false =
      process_switch { demo_pressed 65535 with scan_cnt := 0 } false ∧
    (process_body (registered demo_button) false).1.scan_cnt = 0 ∧
    process_body (registered demo_button) true =
      ({ registered demo_button with status := 1 }, none) ∧
    process_body { registered demo_button with event := FLEX_BTN_PRESS_SHORT_UP } false =
      (registered demo_button, none) :=
  ⟨(tick_counting_and_idle (demo_pressed 65535) false).1 (by decide),
   (tick_counting_and_idle (registered demo_button) false).2.1 rfl rfl,
   (tick_counting_and_idle (registered demo_button) true).2.2.1 rfl,
   (tick_counting_and_idle
     { registered demo_button with event := FLEX_BTN_PRESS_SHORT_UP } false).2.2.2 rfl⟩

theorem pressed_held_step (b : flex_button_t) (hst : b.status = 1) :
    (process_body b false).1.status = 1 ∧
    (process_body b false).1.scan_cnt = next_cnt b ∧
    (process_body b false).1.click_cnt = b.click_cnt ∧
    ((process_body b false).2 = none ∨
     (process_body b false).2 = some FLEX_BTN_PRESS_SHORT_START ∨
     (process_body b false).2 = some FLEX_BTN_PRESS_LONG_START ∨
     (process_body b false).2 = some FLEX_BTN_PRESS_LONG_HOLD) := by
  rw [body_counted b false (by omega)]
  unfold process_switch SET_EVENT_AND_RUN_CB
  simp only [hst, Bool.false_eq_true, if_false]
  split_ifs <;>
    simp [hst, FLEX_BTN_PRESS_SHORT_START, FLEX_BTN_PRESS_LONG_START, FLEX_BTN_PRESS_LONG_HOLD]

/-- A release edge in PRESSED with the incremented count above the short
threshold fires one of the three UP events and leads to IDLE. -/
theorem pressed_release_late (b : flex_button_t) (hst : b.status = 1)
    (h : short_ticks b < next_cnt b) :
    ∃ e, is_up_event e = true ∧ (process_body b true).2 = some e ∧
      (process_body b true).1.status = 0 ∧ (process_body b true).1.event = e := by
  by_cases h2 : hold_ticks b < next_cnt b
  · exact ⟨FLEX_BTN_PRESS_LONG_HOLD_UP, by decide,
      by rw [pressed_release_hold_up b hst h h2], by rw [pressed_release_hold_up b hst h h2],
      by rw [pressed_release_hold_up b hst h h2]⟩
  · by_cases h3 : long_ticks b < next_cnt b
    · have h2n : next_cnt b ≤ hold_ticks b := by omega
      exact ⟨FLEX_BTN_PRESS_LONG_UP, by decide,
        by rw [pressed_release_long_up b hst h h2n h3],
        by rw [pressed_release_long_up b hst h h2n h3],
        by rw [pressed_release_long_up b hst h h2n h3]⟩
    · have h2n : next_cnt b ≤ hold_ticks b := by omega
      have h3n : next_cnt b ≤ long_ticks b := by omega
      exact ⟨FLEX_BTN_PRESS_SHORT_UP, by decide,
        by rw [pressed_release_short_up b hst h h2n h3n],
        by rw [pressed_release_short_up b hst h h2n h3n],
        by rw [pressed_release_short_up b hst h h2n h3n]⟩

/-- Held scans in PRESSED, whatever the thresholds: the descriptor stays in
PRESSED, the scan count goes up by one per scan, and every event fired is
SHORT_START, LONG_START or LONG_HOLD. -/
theorem held_run_events (m : Nat) : ∀ (b : flex_button_t), b.status = 1 →
    b.scan_cnt + m < 65536 →
    (body_run b (List.replicate m false)).1.status = 1 ∧
    (body_run b (List.replicate m false)).1.scan_cnt = b.scan_cnt + m ∧
    (body_run b (List.replicate m false)).1.click_cnt = b.click_cnt ∧
    ∀ o ∈ (body_run b (List.replicate m false)).2,
      o = none ∨ o = some FLEX_BTN_PRESS_SHORT_START ∨
      o = some FLEX_BTN_PRESS_LONG_START ∨ o = some FLEX_BTN_PRESS_LONG_HOLD := by
  induction m with
  | zero =>
    intro b hst _
    simp [body_run, hst]
  | succ m ih =>
    intro b hst hw
    have hs := pressed_held_step b hst
    have hn : next_cnt b = b.scan_cnt + 1 := Nat.mod_eq_of_lt (by omega)
    have ih2 := ih (process_body b false).1 hs.1 (by rw [hs.2.1, hn]; omega)
    simp only [List.replicate_succ, body_run]
    refine ⟨ih2.1, ?_, ?_, ?_⟩
    · rw [ih2.2.1, hs.2.1, hn]; omega
    · rw [ih2.2.2.1, hs.2.2.1]
    · intro o ho
      rcases List.mem_cons.1 ho with h | h
      · rw [h]; exact hs.2.2.2
      · exact ih2.2.2.2 o h

theorem body_run_length (l : List Bool) : ∀ (b : flex_button_t),
    (body_run b l).2.length = l.length := by
  induction l with
  | nil => intro b; rfl
  | cons t ts ih => intro b; simp [body_run, ih]

theorem up_not_click (e : Nat) (h : is_up_event e = true) : is_click_event e = false := by
  simp only [is_up_event, Bool.or_eq_true, decide_eq_true_eq] at h
  rcases h with (h | h) | h <;> rw [h] <;> decide

/-- A press that begins inside the release window and is held beyond the short
threshold (no wrap of the 16-bit scan count): the release scan fires one of
the three UP events, no scan of the press fires a click event, and the
descriptor is back in IDLE, where further scans without a toggle fire
nothing. -/
theorem repeat_press_run (b : flex_button_t) (t m : Nat) (hst : b.status = 2)
    (hgap : next_cnt b ≤ window_ticks b) (ht : short_ticks b < t) (hw : t < 65536) :
    (∀ o ∈ (body_run b (press_release t ++ List.replicate m false)).2,
      ∀ e, o = some e → is_click_event e = false) ∧
    (∃ e, is_up_event e = true ∧
      (body_run b (press_release t ++ List.replicate m false)).2[t]? = some (some e)) ∧
    (body_run b (press_release t ++ List.replicate m false)).1.status = 0 := by
  have htog : process_body b true =
      (clicking_state b ((b.click_cnt + 1) % 65536) 0, none) := window_toggle b hst hgap
  obtain ⟨r, hr⟩ : ∃ r, r = body_run (clicking_state b ((b.click_cnt + 1) % 65536) 0)
      (List.replicate (t - 1) false) := ⟨_, rfl⟩
  have hheld := held_run_events (t - 1) (clicking_state b ((b.click_cnt + 1) % 65536) 0) rfl
    (by show 0 + (t - 1) < 65536; omega)
  have hticks := body_run_ticks (List.replicate (t - 1) false)
    (clicking_state b ((b.click_cnt + 1) % 65536) 0)
  have hlen := body_run_length (List.replicate (t - 1) false)
    (clicking_state b ((b.click_cnt + 1) % 65536) 0)
  rw [← hr] at hheld hticks hlen
  have hS : short_ticks r.1 = short_ticks b := hticks.1
  have hcnt : r.1.scan_cnt = 0 + (t - 1) := hheld.2.1
  have hn : next_cnt r.1 = t := by
    show (r.1.scan_cnt + 1) % 65536 = t
    rw [hcnt]
    have : (0 + (t - 1) + 1) = t := by omega
    rw [this]
    exact Nat.mod_eq_of_lt hw
  obtain ⟨e, he1, he2, he3, _⟩ := pressed_release_late r.1 hheld.1 (by rw [hn, hS]; exact ht)
  have hidle := idle_quiet_run m (process_body r.1 true).1 he3
  have hfirst : body_run b (true :: List.replicate (t - 1) false) = (r.1, none :: r.2) := by
    simp only [body_run, htog]
    rw [← hr]
  have hrun : body_run b (press_release t ++ List.replicate m false) =
      ((body_run (process_body r.1 true).1 (List.replicate m false)).1,
       (none :: r.2) ++ [some e] ++ List.replicate m none) := by
    unfold press_release
    rw [body_run_append, body_run_append, hfirst, body_run_one, he2, hidle.1]
  have hl : (none :: r.2).length = t := by
    rw [List.length_cons, hlen, List.length_replicate]
    omega
  rw [hrun]
  refine ⟨?_, ⟨e, he1, ?_⟩, hidle.2⟩
  · intro o ho e2 heq
    simp only [List.mem_append, List.mem_cons, List.mem_singleton] at ho
    rcases ho with (((h | h) | h) | h)
    · rw [h] at heq; exact absurd heq (by simp)
    · rcases hheld.2.2.2 o h with h2 | h2 | h2 | h2 <;> rw [h2] at heq
      · exact absurd heq (by simp)
      · rw [← Option.some.inj heq]; decide
      · rw [← Option.some.inj heq]; decide
      · rw [← Option.some.inj heq]; decide
    · rcases h with h | h
      · rw [h] at heq
        rw [← Option.some.inj heq]
        exact up_not_click e he1
      · exact absurd h (List.not_mem_nil o)
    · rw [List.eq_of_mem_replicate h] at heq
      exact absurd heq (by simp)
  · rw [List.getElem?_append_left (by rw [List.length_append, hl]; simp),
      List.getElem?_append_right (by rw [hl]), hl]
    simp

/-- A press that begins inside the release window and is released 65536 scans
after its press edge: the 16-bit scan count is back at 0 on the release scan,
which is taken for an early release and fires nothing; the window then expires
and fires the click event of the incremented click count. -/
theorem repeat_press_wrap_run (b : flex_button_t) (t m : Nat) (hst : b.status = 2)
    (hgap : next_cnt b ≤ window_ticks b) (ht : t = 65536)
    (hR : window_ticks b < 65535) (hm : window_ticks b < m) (hc : b.click_cnt < 7) :
    (body_run b (press_release t ++ List.replicate m false)).2[t]? = some none ∧
    (body_run b (press_release t ++ List.replicate m false)).2[t + 1 + window_ticks b]? =
      some (some (FLEX_BTN_PRESS_CLICK + (b.click_cnt + 1))) := by
  have hcm : (b.click_cnt + 1) % 65536 = b.click_cnt + 1 := Nat.mod_eq_of_lt (by omega)
  have htog : process_body b true = (clicking_state b (b.click_cnt + 1) 0, none) := by
    rw [window_toggle b hst hgap, hcm]
    rfl
  obtain ⟨r, hr⟩ : ∃ r, r = body_run (clicking_state b (b.click_cnt + 1) 0)
      (List.replicate (t - 1) false) := ⟨_, rfl⟩
  have hheld := held_run_events (t - 1) (clicking_state b (b.click_cnt + 1) 0) rfl
    (by show 0 + (t - 1) < 65536; omega)
  have hticks := body_run_ticks (List.replicate (t - 1) false)
    (clicking_state b (b.click_cnt + 1) 0)
  have hlen := body_run_length (List.replicate (t - 1) false)
    (clicking_state b (b.click_cnt + 1) 0)
  rw [← hr] at hheld hticks hlen
  have hW : window_ticks r.1 = window_ticks b := hticks.2.2.2
  have hcnt : r.1.scan_cnt = 0 + (t - 1) := hheld.2.1
  have hclk : r.1.click_cnt = b.click_cnt + 1 := hheld.2.2.1
  have hn : next_cnt r.1 = 0 := by
    show (r.1.scan_cnt + 1) % 65536 = 0
    rw [hcnt]
    omega
  have hrel := pressed_release_early r.1 hheld.1 (by rw [hn]; exact Nat.zero_le _)
  have hcs : ({ r.1 with status := 2, scan_cnt := 0 } : flex_button_t) =
      click_state r.1 (b.click_cnt + 1) := by
    rw [← hclk]
    rfl
  rw [hcs] at hrel
  have hexp := window_expiry_run r.1 (b.click_cnt + 1) m (by rw [hW]; exact hR)
    (by rw [hW]; exact hm)
  rw [hW, if_pos (by omega : b.click_cnt + 1 ≤ 7)] at hexp
  have hfirst : body_run b (true :: List.replicate (t - 1) false) = (r.1, none :: r.2) := by
    simp only [body_run, htog]
    rw [← hr]
  have hrun : (body_run b (press_release t ++ List.replicate m false)).2 =
      (none :: r.2) ++ [none] ++
        (List.replicate (window_ticks b) none ++
          some (FLEX_BTN_PRESS_CLICK + (b.click_cnt + 1)) ::
            List.replicate (m - window_ticks b - 1) none) := by
    unfold press_release
    rw [body_run_append, body_run_append, hfirst, body_run_one, hrel, hexp.1]
  have hl : (none :: r.2).length = t := by
    rw [List.length_cons, hlen, List.length_replicate]
    omega
  have hl2 : ((none :: r.2) ++ [none]).length = t + 1 := by
    rw [List.length_append, hl]
    rfl
  rw [hrun]
  constructor
  · rw [List.getElem?_append_left (by rw [hl2]; omega),
      List.getElem?_append_right (by rw [hl]), hl, Nat.sub_self]
    rfl
  · rw [List.getElem?_append_right (by rw [hl2]; omega), hl2,
      List.getElem?_append_right (by rw [List.length_replicate]; omega),
      List.length_replicate]
    have : t + 1 + window_ticks b - (t + 1) - window_ticks b = 0 := by omega
    rw [this]
    exact List.getElem?_cons_zero

/-- C18 as stated fails where a 16-bit member wraps, here with a short
threshold of 10 scans and a release window of 20 scans.  In RELEASE_WINDOW with
`click_cnt = 65535`, a toggle inside the window leaves `click_cnt = 0`, not one
more.  A press that begins inside the window with `click_cnt = 1` and is
released 65536 scans after its press edge, far beyond the short threshold: the
scan count is 0 on the release scan, which fires none of the UP events, and 21
scans later the window expires and fires TRIPLE_CLICK. -/
theorem repeat_press_wrapped :
    (demo_window 19 65535).status = 2 ∧
    next_cnt (demo_window 19 65535) ≤ window_ticks (demo_window 19 65535) ∧
    (process_body (demo_window 19 65535) true).1.click_cnt = 0 ∧
    (demo_window 4 1).status = 2 ∧ (demo_window 4 1).click_cnt = 1 ∧
    next_cnt (demo_window 4 1) ≤ window_ticks (demo_window 4 1) ∧
    short_ticks (demo_window 4 1) = 10 ∧ window_ticks (demo_window 4 1) = 20 ∧
    (body_run (demo_window 4 1) (press_release 65536 ++ List.replicate 21 false)).2[65536]?
      = some none ∧
    (body_run (demo_window 4 1) (press_release 65536 ++ List.replicate 21 false)).2[65557]?
      = some (some FLEX_BTN_PRESS_TRIPLE_CLICK) := by
  have h := repeat_press_wrap_run (demo_window 4 1) 65536 21 rfl (by decide) rfl
    (by decide) (by decide) (by decide)
  have hi : 65536 + 1 + window_ticks (demo_window 4 1) = 65557 := by decide
  rw [hi] at h
  exact ⟨rfl, by decide, by decide, rfl, rfl, by decide, by decide, by decide, h.1, h.2⟩

/-- C18 (amended): a descriptor in RELEASE_WINDOW, `n` being the incremented
16-bit scan count and `R` the release window in scans.  If `n > R` the state
becomes IDLE whether or not the button toggled, firing `CLICK + click_cnt` when
`click_cnt ≤ 7` and nothing otherwise.  Else, if the button toggled, `click_cnt`
is incremented as a 16-bit value, which is one more when `click_cnt < 65535`,
`scan_cnt = 0`, the state becomes PRESSED and nothing is fired.  Else only
`scan_cnt` changes.  Consequently a press that begins inside the window and is
released `t` scans after its press edge, with `S < t < 65536` for the short
threshold `S` in scans, is classified on its release scan as SHORT_UP, LONG_UP
or LONG_HOLD_UP, leaves the descriptor in IDLE, and no scan of that sequence
fires a click event, however many idle scans follow. -/
theorem release_window_step (b : flex_button_t) (toggled : Bool) (hst : b.status = 2) :
    (window_ticks b < next_cnt b → b.click_cnt ≤ 7 →
      process_body b toggled =
        ({ b with status := 0, scan_cnt := next_cnt b,
                  event := FLEX_BTN_PRESS_CLICK + b.click_cnt },
         some (FLEX_BTN_PRESS_CLICK + b.click_cnt))) ∧
    (window_ticks b < next_cnt b → 7 < b.click_cnt →
      process_body b toggled = ({ b with status := 0, scan_cnt := next_cnt b }, none)) ∧
    (next_cnt b ≤ window_ticks b → toggled = true →
      process_body b toggled =
        ({ b with click_cnt := (b.click_cnt + 1) % 65536, scan_cnt := 0, status := 1 },
         none)) ∧
    (next_cnt b ≤ window_ticks b → toggled = true → b.click_cnt < 65535 →
      (process_body b toggled).1.click_cnt = b.click_cnt + 1) ∧
    (next_cnt b ≤ window_ticks b → toggled = false →
      process_body b toggled = ({ b with scan_cnt := next_cnt b }, none)) ∧
    (∀ t m, next_cnt b ≤ window_ticks b → short_ticks b < t → t < 65536 →
      (∀ o ∈ (body_run b (press_release t ++ List.replicate m false)).2,
        ∀ e, o = some e → is_click_event e = false) ∧
      (∃ e, is_up_event e = true ∧
        (body_run b (press_release t ++ List.replicate m false)).2[t]? = some (some e)) ∧
      (body_run b (press_release t ++ List.replicate m false)).1.status = 0) := by
  refine ⟨window_expire_click b toggled hst, window_expire_silent b toggled hst,
    ?_, ?_, ?_, ?_⟩
  · intro h ht
    rw [ht]
    exact window_toggle b hst h
  · intro h ht hc
    rw [ht, window_toggle b hst h]
    exact Nat.mod_eq_of_lt (by omega)
  · intro h ht
    rw [ht]
    exact window_quiet b hst h
  · intro t m hgap hS hw
    exact repeat_press_run b t m hst hgap hS hw

theorem release_window_step_witness :
    process_body (demo_window 20 2) true =
      ({ demo_window 21 2 with status := 0, event := FLEX_BTN_PRESS_TRIPLE_CLICK },
       some FLEX_BTN_PRESS_TRIPLE_CLICK) ∧
    process_body (demo_window 20 8) false = ({ demo_window 21 8 with status := 0 }, none) ∧
    process_body (demo_window 19 2) true =
      ({ demo_window 0 3 with status := 1 }, none) ∧
    (process_body (demo_window 19 2) true).1.click_cnt = 2 + 1 ∧
    process_body (demo_window 19 2) false = (demo_window 20 2, none) ∧
    (body_run (demo_window 4 1) (press_release 30 ++ List.replicate 5 false)).2[30]?
      = some (some FLEX_BTN_PRESS_SHORT_UP) ∧
    (body_run (demo_window 4 1) (press_release 30 ++ List.replicate 5 false)).1.status = 0 :=
  ⟨(release_window_step (demo_window 20 2) true rfl).1 (by decide) (by decide),
   (release_window_step (demo_window 20 8) false rfl).2.1 (by decide) (by decide),
   (release_window_step (demo_window 19 2) true rfl).2.2.1 (by decide) rfl,
   (release_window_step (demo_window 19 2) true rfl).2.2.2.1 (by decide) rfl (by decide),
   (release_window_step (demo_window 19 2) false rfl).2.2.2.2.1 (by decide) rfl,
   by decide,
   ((release_window_step (demo_window 4 1) true rfl).2.2.2.2.2 30 5
     (by decide) (by decide) (by decide)).2.2⟩

/-! ## Invariants over sequences of calls -/

theorem process_body_status (b : flex_button_t) (t : Bool) (h : b.status ≤ 2) :
    (process_body b t).1.status ≤ 2 := by
  unfold process_body count_scan process_switch SET_EVENT_AND_RUN_CB
  repeat' split
  all_goals simp_all

theorem process_body_no_down (b : flex_button_t) (t : Bool) :
    (process_body b t).2 ≠ some FLEX_BTN_PRESS_DOWN ∧
    ((process_body b t).1.event = FLEX_BTN_PRESS_DOWN → b.event = FLEX_BTN_PRESS_DOWN) := by
  unfold process_body count_scan process_switch SET_EVENT_AND_RUN_CB
  simp only [FLEX_BTN_PRESS_DOWN, FLEX_BTN_PRESS_NONE, FLEX_BTN_PRESS_SHORT_START,
    FLEX_BTN_PRESS_SHORT_UP, FLEX_BTN_PRESS_LONG_START, FLEX_BTN_PRESS_LONG_UP,
    FLEX_BTN_PRESS_LONG_HOLD, FLEX_BTN_PRESS_LONG_HOLD_UP, FLEX_BTN_PRESS_CLICK,
    FLEX_BTN_PRESS_LEGENDARY]
  repeat' split
  all_goals simp_all
  all_goals omega

/-- The loop of `flex_button_process` keeps, for every descriptor, a status of
at most 2 and an event member other than `FLEX_BTN_PRESS_DOWN`, and fires no
`FLEX_BTN_PRESS_DOWN`. -/
theorem process_loop_inv (tg : Nat) : ∀ (l : List Nat) (i : Nat)
    (mem : Nat → flex_button_t),
    (∀ q, (mem q).status ≤ 2 → ((process_loop tg l i mem).1 q).status ≤ 2) ∧
    (∀ q, (mem q).event ≠ FLEX_BTN_PRESS_DOWN →
      ((process_loop tg l i mem).1 q).event ≠ FLEX_BTN_PRESS_DOWN) ∧
    (∀ f ∈ (process_loop tg l i mem).2, f.event ≠ FLEX_BTN_PRESS_DOWN) := by
  intro l
  induction l with
  | nil =>
    intro i mem
    exact ⟨fun q h => h, fun q h => h, fun f hf => absurd hf (List.not_mem_nil f)⟩
  | cons t next ih =>
    intro i mem
    have ih2 := ih ((i + 1) % 256)
      (Function.update mem t (process_body (mem t) (BTN_TOGGLE tg i)).1)
    simp only [process_loop]
    refine ⟨?_, ?_, ?_⟩
    · intro q hq
      apply ih2.1
      by_cases hqt : q = t
      · subst hqt
        rw [Function.update_same]
        exact process_body_status _ _ hq
      · rw [Function.update_noteq hqt]
        exact hq
    · intro q hq
      apply ih2.2.1
      by_cases hqt : q = t
      · subst hqt
        rw [Function.update_same]
        exact fun h => hq ((process_body_no_down _ _).2 h)
      · rw [Function.update_noteq hqt]
        exact hq
    · intro f hf
      rcases List.mem_append.1 hf with h | h
      · cases hr : (process_body (mem t) (BTN_TOGGLE tg i)).2 with
        | none => rw [hr] at h; exact absurd h (List.not_mem_nil f)
        | some e =>
          rw [hr] at h
          simp only [fired_of, List.mem_singleton] at h
          rw [h]
          intro he
          exact (process_body_no_down (mem t) (BTN_TOGGLE tg i)).1 (by rw [hr]; exact congrArg some he)
      · exact ih2.2.2 f h

theorem register_registry_ok (s : State) (button : Nat) (h : registry_ok s) :
    registry_ok (flex_button_register s button).2 := by
  unfold flex_button_register
  by_cases hg : button = 0 ∨ s.button_cnt > MAX_BUTTON_CNT
  · simpa [hg] using h
  · cases hex : already_exist button s.btn_head with
    | true => simpa [hg, hex] using h
    | false =>
      simp only [hg, hex, if_false, Bool.false_eq_true]
      intro q hq
      by_cases hqb : q = button
      · subst hqb
        show (Function.update s.mem q _ q).status ≤ 2 ∧ (Function.update s.mem q _ q).event ≠ _
        rw [Function.update_same]
        exact ⟨by show 0 % 4 ≤ 2; decide,
          by show FLEX_BTN_PRESS_NONE % 32 ≠ FLEX_BTN_PRESS_DOWN; decide⟩
      · have hq2 : q ∈ s.btn_head := by
          rcases List.mem_cons.1 hq with h1 | h1
          · exact absurd h1 hqb
          · exact h1
        show (Function.update s.mem button _ q).status ≤ 2 ∧
          (Function.update s.mem button _ q).event ≠ _
        rw [Function.update_noteq hqb]
        exact h q hq2

theorem scan_registry_ok (s : State) (raw : Nat → Nat) (h : registry_ok s) :
    registry_ok (flex_button_scan s raw).1 ∧
    ∀ f ∈ (flex_button_scan s raw).2, f.event ≠ FLEX_BTN_PRESS_DOWN := by
  have hl := process_loop_inv (flex_button_read s raw).btn_toggle s.btn_head 0 s.mem
  constructor
  · intro q hq
    have hq2 : q ∈ s.btn_head := hq
    exact ⟨hl.1 q (h q hq2).1, hl.2.1 q (h q hq2).2⟩
  · exact hl.2.2

theorem call_run_registry_ok (calls : List Call) : ∀ (s : State), registry_ok s →
    registry_ok (call_run s calls).1 ∧
    ∀ f ∈ (call_run s calls).2, f.event ≠ FLEX_BTN_PRESS_DOWN := by
  induction calls with
  | nil =>
    intro s h
    exact ⟨h, fun f hf => absurd hf (List.not_mem_nil f)⟩
  | cons c cs ih =>
    intro s h
    have hstep : registry_ok (call_step s c).1 ∧
        ∀ f ∈ (call_step s c).2, f.event ≠ FLEX_BTN_PRESS_DOWN := by
      cases c with
      | register button =>
        exact ⟨register_registry_ok s button h, fun f hf => absurd hf (List.not_mem_nil f)⟩
      | scan raw => exact scan_registry_ok s raw h
    have hrec := ih (call_step s c).1 hstep.1
    simp only [call_run]
    refine ⟨hrec.1, ?_⟩
    intro f hf
    rcases List.mem_append.1 hf with h1 | h1
    · exact hstep.2 f h1
    · exact hrec.2 f h1

theorem init_registry_ok (mem : Nat → flex_button_t) : registry_ok (State.init mem) :=
  fun q hq => absurd hq (List.not_mem_nil q)

/-- C13: whatever registrations and scans are made from the empty registry, no
scan fires `FLEX_BTN_PRESS_DOWN` (with or without a callback) and no registered
descriptor ever holds it in its event member; and the step from IDLE to
PRESSED on a toggle fires nothing, so runs no callback, and leaves the event
member as it was. -/
theorem no_press_down (mem : Nat → flex_button_t) (calls : List Call)
    (b : flex_button_t) :
    (∀ f ∈ (call_run (State.init mem) calls).2, f.event ≠ FLEX_BTN_PRESS_DOWN) ∧
    (∀ q ∈ (call_run (State.init mem) calls).1.btn_head,
      flex_button_event_read (call_run (State.init mem) calls).1 q ≠ FLEX_BTN_PRESS_DOWN) ∧
    (b.status = 0 →
      (process_body b true).2 = none ∧
      (process_body b true).1.event = b.event ∧
      (process_body b true).1.status = 1) := by
  have h := call_run_registry_ok calls (State.init mem) (init_registry_ok mem)
  refine ⟨h.2, fun q hq => (h.1 q hq).2, ?_⟩
  intro hst
  rw [idle_toggle b hst]
  exact ⟨rfl, rfl, rfl⟩

theorem no_press_down_witness :
    (process_body { registered demo_button with event := FLEX_BTN_PRESS_SHORT_UP } true).2
      = none ∧
    (process_body { registered demo_button with event := FLEX_BTN_PRESS_SHORT_UP } true).1.event
      = FLEX_BTN_PRESS_SHORT_UP ∧
    (process_body { registered demo_button with event := FLEX_BTN_PRESS_SHORT_UP } true).1.status
      = 1 ∧
    (call_run (State.init demo_mem) demo_calls).1.btn_head = [2, 1] :=
  ⟨((no_press_down demo_mem demo_calls
      { registered demo_button with event := FLEX_BTN_PRESS_SHORT_UP }).2.2 rfl).1,
   ((no_press_down demo_mem demo_calls
      { registered demo_button with event := FLEX_BTN_PRESS_SHORT_UP }).2.2 rfl).2.1,
   ((no_press_down demo_mem demo_calls
      { registered demo_button with event := FLEX_BTN_PRESS_SHORT_UP }).2.2 rfl).2.2,
   by decide⟩

/-- C20: whatever registrations and scans are made from the empty registry and
whatever the memory holds before, the status of every registered descriptor is
0 (IDLE), 1 (PRESSED) or 2 (RELEASE_WINDOW), never 3, so the `switch` of the
next scan takes one of its three cases for it. -/
theorem status_in_range (mem : Nat → flex_button_t) (calls : List Call) :
    ∀ q ∈ (call_run (State.init mem) calls).1.btn_head,
      ((call_run (State.init mem) calls).1.mem q).status = 0 ∨
      ((call_run (State.init mem) calls).1.mem q).status = 1 ∨
      ((call_run (State.init mem) calls).1.mem q).status = 2 := by
  intro q hq
  have h := ((call_run_registry_ok calls (State.init mem) (init_registry_ok mem)).1 q hq).1
  omega

theorem status_in_range_witness :
    2 ∈ (call_run (State.init demo_mem) demo_calls).1.btn_head ∧
    (((call_run (State.init demo_mem) demo_calls).1.mem 2).status = 0 ∨
     ((call_run (State.init demo_mem) demo_calls).1.mem 2).status = 1 ∨
     ((call_run (State.init demo_mem) demo_calls).1.mem 2).status = 2) ∧
    ((call_run (State.init demo_mem) demo_calls).1.mem 2).status = 2 :=
  ⟨by decide, status_in_range demo_mem demo_calls 2 (by decide), by decide⟩

/-! ## `flex_button_event_read` -/

/-- What the loop body can leave in the event member: what was there, or
`FLEX_BTN_PRESS_NONE`, or the code it fired; the codes it fires are the six
START and UP codes and `CLICK + click_cnt` for a click count of at most 7, all
stored as they are. -/
theorem process_body_event (b : flex_button_t) (t : Bool) :
    (∀ e, (process_body b t).2 = some e →
      (process_body b t).1.event = e ∧
      (e = FLEX_BTN_PRESS_SHORT_START ∨ e = FLEX_BTN_PRESS_SHORT_UP ∨
       e = FLEX_BTN_PRESS_LONG_START ∨ e = FLEX_BTN_PRESS_LONG_UP ∨
       e = FLEX_BTN_PRESS_LONG_HOLD ∨ e = FLEX_BTN_PRESS_LONG_HOLD_UP ∨
       (e = FLEX_BTN_PRESS_CLICK + b.click_cnt ∧ b.click_cnt ≤ 7))) ∧
    ((process_body b t).2 = none →
      (process_body b t).1.event = b.event ∨
      (process_body b t).1.event = FLEX_BTN_PRESS_NONE) := by
  unfold process_body count_scan process_switch SET_EVENT_AND_RUN_CB
  simp only [FLEX_BTN_PRESS_NONE, FLEX_BTN_PRESS_SHORT_START,
    FLEX_BTN_PRESS_SHORT_UP, FLEX_BTN_PRESS_LONG_START, FLEX_BTN_PRESS_LONG_UP,
    FLEX_BTN_PRESS_LONG_HOLD, FLEX_BTN_PRESS_LONG_HOLD_UP, FLEX_BTN_PRESS_CLICK,
    FLEX_BTN_PRESS_LEGENDARY]
  repeat' split
  all_goals simp_all
  all_goals omega

/-- One `flex_button_scan` over a registry of distinct descriptors, seen from
the descriptor `p` at traversal index `k`: it is stepped by the loop body with
bit `k` of the toggle word computed by this scan, and the events fired for it
are those of that step. -/
theorem scan_at (s : State) (raw : Nat → Nat) (hnd : s.btn_head.Nodup)
    (hlen : s.btn_head.length ≤ 256) (k p : Nat) (hk : s.btn_head[k]? = some p) :
    (flex_button_scan s raw).1.mem p =
      (process_body (s.mem p) (BTN_TOGGLE (flex_button_read s raw).btn_toggle k)).1 ∧
    (flex_button_scan s raw).2.filter (fun f => decide (f.button = p)) =
      fired_of p (s.mem p).cb
        (process_body (s.mem p) (BTN_TOGGLE (flex_button_read s raw).btn_toggle k)).2 := by
  have h1 := process_loop_at (flex_button_read s raw).btn_toggle s.btn_head 0 s.mem hnd
    (by omega) k p hk
  have h2 := process_loop_fired (flex_button_read s raw).btn_toggle s.btn_head 0 s.mem hnd
    (by omega) k p hk
  rw [Nat.zero_add] at h1 h2
  exact ⟨h1, h2⟩

/-- The event a scan fired for the descriptor `p` is in its event member after
the scan. -/
theorem scan_fired_stored (s : State) (raw : Nat → Nat) (hnd : s.btn_head.Nodup)
    (hlen : s.btn_head.length ≤ 256) (k p : Nat) (hk : s.btn_head[k]? = some p)
    (f : Fired) (hf : f ∈ (flex_button_scan s raw).2) (hfp : f.button = p) :
    ((flex_button_scan s raw).1.mem p).event = f.event ∧
    (process_body (s.mem p) (BTN_TOGGLE (flex_button_read s raw).btn_toggle k)).2
      = some f.event := by
  have h := scan_at s raw hnd hlen k p hk
  have hmem : f ∈ (flex_button_scan s raw).2.filter (fun f => decide (f.button = p)) :=
    List.mem_filter.2 ⟨hf, by simp [hfp]⟩
  rw [h.2] at hmem
  cases hr : (process_body (s.mem p)
      (BTN_TOGGLE (flex_button_read s raw).btn_toggle k)).2 with
  | none => rw [hr] at hmem; exact absurd hmem (List.not_mem_nil f)
  | some e =>
    rw [hr] at hmem
    simp only [fired_of, List.mem_singleton] at hmem
    have he : f.event = e := by rw [hmem]
    rw [h.1, he]
    exact ⟨((process_body_event _ _).1 e hr).1, rfl⟩

/-- C15: `flex_button_event_read` returns the event member and the call leaves
the whole state as it was, so a second read returns the same value.  After a
successful registration it returns `FLEX_BTN_PRESS_NONE`; after a scan that
fired an event for the descriptor it returns that event.  Every code stored by
registration or by the classifier is at most `FLEX_BTN_PRESS_NONE = 16` and is
stored in the 5-bit member as it is: the member after a loop body is what it
was before, or `FLEX_BTN_PRESS_NONE`, or one of the six START and UP codes, or
`CLICK + click_cnt` with `click_cnt ≤ 7`. -/
theorem event_read_faithful (s : State) (p k : Nat) (raw : Nat → Nat)
    (b : flex_button_t) (t : Bool) :
    (event_read_call s p).2 = s ∧
    (event_read_call s p).1 = (s.mem p).event ∧
    (event_read_call (event_read_call s p).2 p).1 = (event_read_call s p).1 ∧
    (p ≠ 0 → ¬ s.button_cnt > MAX_BUTTON_CNT → p ∉ s.btn_head →
      flex_button_event_read (flex_button_register s p).2 p = FLEX_BTN_PRESS_NONE) ∧
    (s.btn_head.Nodup → s.btn_head.length ≤ 256 → s.btn_head[k]? = some p →
      ∀ f ∈ (flex_button_scan s raw).2, f.button = p →
        flex_button_event_read (flex_button_scan s raw).1 p = f.event) ∧
    (∀ evt, evt ≤ FLEX_BTN_PRESS_NONE → (SET_EVENT_AND_RUN_CB b evt).1.event = evt) ∧
    ((process_body b t).1.event = b.event ∨
     (process_body b t).1.event = FLEX_BTN_PRESS_NONE ∨
     (process_body b t).1.event = FLEX_BTN_PRESS_SHORT_START ∨
     (process_body b t).1.event = FLEX_BTN_PRESS_SHORT_UP ∨
     (process_body b t).1.event = FLEX_BTN_PRESS_LONG_START ∨
     (process_body b t).1.event = FLEX_BTN_PRESS_LONG_UP ∨
     (process_body b t).1.event = FLEX_BTN_PRESS_LONG_HOLD ∨
     (process_body b t).1.event = FLEX_BTN_PRESS_LONG_HOLD_UP ∨
     ((process_body b t).1.event = FLEX_BTN_PRESS_CLICK + b.click_cnt ∧
      b.click_cnt ≤ 7)) := by
  refine ⟨rfl, rfl, rfl, ?_, ?_, ?_, ?_⟩
  · intro h0 hc hf
    show ((flex_button_register s p).2.mem p).event = FLEX_BTN_PRESS_NONE
    rw [register_mem_registered s p h0 hc hf]
    rfl
  · intro hnd hlen hk f hf hfp
    exact (scan_fired_stored s raw hnd hlen k p hk f hf hfp).1
  · intro evt hevt
    show evt % 32 = evt
    have : evt ≤ 16 := hevt
    exact Nat.mod_eq_of_lt (by omega)
  · have h := process_body_event b t
    cases hr : (process_body b t).2 with
    | none =>
      rcases h.2 hr with h1 | h1
      · exact Or.inl h1
      · exact Or.inr (Or.inl h1)
    | some e =>
      obtain ⟨h1, h2⟩ := h.1 e hr
      rw [h1]
      rcases h2 with h2 | h2 | h2 | h2 | h2 | h2 | h2
      · exact Or.inr (Or.inr (Or.inl h2))
      · exact Or.inr (Or.inr (Or.inr (Or.inl h2)))
      · exact Or.inr (Or.inr (Or.inr (Or.inr (Or.inl h2))))
      · exact Or.inr (Or.inr (Or.inr (Or.inr (Or.inr (Or.inl h2)))))
      · exact Or.inr (Or.inr (Or.inr (Or.inr (Or.inr (Or.inr (Or.inl h2))))))
      · exact Or.inr (Or.inr (Or.inr (Or.inr (Or.inr (Or.inr (Or.inr (Or.inl h2)))))))
      · exact Or.inr (Or.inr (Or.inr (Or.inr (Or.inr (Or.inr (Or.inr (Or.inr h2)))))))

theorem event_read_faithful_witness :
    flex_button_event_read (flex_button_register (demo_registry 2) 7).2 7
      = FLEX_BTN_PRESS_NONE ∧
    flex_button_event_read
      (flex_button_scan
        (scan_run (demo_registry 1) (List.replicate 12 raw_all_high)).1 raw_all_low).1 1
      = FLEX_BTN_PRESS_SHORT_UP ∧
    (SET_EVENT_AND_RUN_CB demo_button FLEX_BTN_PRESS_NONE).1.event = FLEX_BTN_PRESS_NONE :=
  ⟨(event_read_faithful (demo_registry 2) 7 0 raw_all_low demo_button true).2.2.2.1
      (by decide) (by decide) (by decide),
   (event_read_faithful (scan_run (demo_registry 1) (List.replicate 12 raw_all_high)).1
      1 0 raw_all_low demo_button true).2.2.2.2.1 (by decide) (by decide) (by decide)
      { button := 1, event := FLEX_BTN_PRESS_SHORT_UP, cb_run := false }
      (by decide) rfl,
   (event_read_faithful (demo_registry 2) 7 0 raw_all_low demo_button true).2.2.2.2.2.1
      FLEX_BTN_PRESS_NONE (by decide)⟩

/-! ## Event codes and threshold units -/

theorem FLEX_MS_TO_CNT_eq (ms : Nat) : FLEX_MS_TO_CNT ms = ms / 20 := rfl

/-- C14 (amended): when the release window expires (incremented scan count
above the window, toggle or not), an event is fired exactly for a click count
`n ≤ 7`; the code is `CLICK + n`, one of CLICK, DOUBLE_CLICK, TRIPLE_CLICK,
QUADRA_CLICK, PENTA_CLICK, HEXA_CLICK, GODLIKE_CLICK and LEGENDARY, contiguous
and increasing with the click count, below `FLEX_BTN_PRESS_SHORT_START`.
`FLEX_BTN_PRESS_LEGENDARY` is the code of `n = 7` (eight clicks) and is
fired. -/
theorem click_event_codes (b : flex_button_t) (toggled : Bool) (hst : b.status = 2)
    (hexp : window_ticks b < next_cnt b) :
    (process_body b toggled).2 =
      (if b.click_cnt ≤ 7 then some (FLEX_BTN_PRESS_CLICK + b.click_cnt) else none) ∧
    (∀ e, (process_body b toggled).2 = some e →
      e = FLEX_BTN_PRESS_CLICK + b.click_cnt ∧ b.click_cnt ≤ 7 ∧
      e ∈ [FLEX_BTN_PRESS_CLICK, FLEX_BTN_PRESS_DOUBLE_CLICK, FLEX_BTN_PRESS_TRIPLE_CLICK,
           FLEX_BTN_PRESS_QUADRA_CLICK, FLEX_BTN_PRESS_PENTA_CLICK,
           FLEX_BTN_PRESS_HEXA_CLICK, FLEX_BTN_PRESS_GODLIKE_CLICK,
           FLEX_BTN_PRESS_LEGENDARY] ∧
      e < FLEX_BTN_PRESS_SHORT_START) ∧
    (b.click_cnt = 7 → (process_body b toggled).2 = some FLEX_BTN_PRESS_LEGENDARY) := by
  have hfire : (process_body b toggled).2 =
      (if b.click_cnt ≤ 7 then some (FLEX_BTN_PRESS_CLICK + b.click_cnt) else none) := by
    by_cases hc : b.click_cnt ≤ 7
    · rw [window_expire_click b toggled hst hexp hc]
      simp [hc]
    · rw [window_expire_silent b toggled hst hexp (by omega)]
      simp [hc]
  refine ⟨hfire, ?_, ?_⟩
  · intro e he
    rw [hfire] at he
    by_cases hc : b.click_cnt ≤ 7
    · simp only [hc, if_true, Option.some.injEq] at he
      refine ⟨he.symm, hc, ?_, ?_⟩
      · rw [← he]
        simp only [FLEX_BTN_PRESS_CLICK, FLEX_BTN_PRESS_DOUBLE_CLICK,
          FLEX_BTN_PRESS_TRIPLE_CLICK, FLEX_BTN_PRESS_QUADRA_CLICK,
          FLEX_BTN_PRESS_PENTA_CLICK, FLEX_BTN_PRESS_HEXA_CLICK,
          FLEX_BTN_PRESS_GODLIKE_CLICK, FLEX_BTN_PRESS_LEGENDARY, List.mem_cons,
          List.mem_singleton]
        omega
      · rw [← he]
        show 1 + b.click_cnt < 9
        omega
    · simp [hc] at he
  · intro h7
    rw [hfire, h7]
    rfl

theorem click_event_codes_witness :
    (process_body (demo_window 20 2) false).2 = some FLEX_BTN_PRESS_TRIPLE_CLICK ∧
    (process_body (demo_window 20 7) true).2 = some FLEX_BTN_PRESS_LEGENDARY ∧
    (process_body (demo_window 20 8) false).2 = none :=
  ⟨by rw [(click_event_codes (demo_window 20 2) false rfl (by decide)).1]; rfl,
   (click_event_codes (demo_window 20 7) true rfl (by decide)).2.2 rfl,
   by rw [(click_event_codes (demo_window 20 8) false rfl (by decide)).1]; rfl⟩

/-- C14 as stated fails for eight clicks: with click count 7 the expiry of the
window fires `CLICK + 7`, which is `FLEX_BTN_PRESS_LEGENDARY` itself, not a
code below it; eight short clicks from the registered state fire exactly that
event. -/
theorem legendary_is_fired :
    (demo_window 20 7).status = 2 ∧ (demo_window 20 7).click_cnt = 7 ∧
    window_ticks (demo_window 20 7) < next_cnt (demo_window 20 7) ∧
    (process_body (demo_window 20 7) false).2 = some FLEX_BTN_PRESS_LEGENDARY ∧
    FLEX_BTN_PRESS_CLICK + 7 = FLEX_BTN_PRESS_LEGENDARY ∧
    ¬ (FLEX_BTN_PRESS_CLICK + 7 < FLEX_BTN_PRESS_LEGENDARY) ∧
    (body_run (registered demo_button)
      (click_sequence 1 (List.replicate 7 (1, 1)) 21)).2.reduceOption =
      [FLEX_BTN_PRESS_LEGENDARY] := by
  decide

/-- C16 (amended): the threshold members are compared after the conversion
`FLEX_MS_TO_CNT`, that is, divided by 20 (milliseconds at 50 scans per
second).  For a descriptor in PRESSED with incremented scan count `n`: a held
scan leaves LONG_HOLD in the event member when `n > long_hold_start_tick / 20`,
else LONG_START when `n > long_press_start_tick / 20`, else SHORT_START when
`n > short_press_start_tick / 20`, else what was there; a release scan fires
nothing when `n ≤ short_press_start_tick / 20`, else LONG_HOLD_UP, LONG_UP or
SHORT_UP by the same comparisons.  For a descriptor in RELEASE_WINDOW the
window expires (state IDLE) exactly when `n > release_max_cnt / 20`. -/
theorem thresholds_are_converted (b : flex_button_t) (toggled : Bool) :
    (b.status = 1 →
      (process_body b false).1.event =
        (if (b.scan_cnt + 1) % 65536 > b.long_hold_start_tick / 20 then
           FLEX_BTN_PRESS_LONG_HOLD
         else if (b.scan_cnt + 1) % 65536 > b.long_press_start_tick / 20 then
           FLEX_BTN_PRESS_LONG_START
         else if (b.scan_cnt + 1) % 65536 > b.short_press_start_tick / 20 then
           FLEX_BTN_PRESS_SHORT_START
         else b.event) ∧
      (process_body b true).2 =
        (if (b.scan_cnt + 1) % 65536 ≤ b.short_press_start_tick / 20 then none
         else if (b.scan_cnt + 1) % 65536 > b.long_hold_start_tick / 20 then
           some FLEX_BTN_PRESS_LONG_HOLD_UP
         else if (b.scan_cnt + 1) % 65536 > b.long_press_start_tick / 20 then
           some FLEX_BTN_PRESS_LONG_UP
         else some FLEX_BTN_PRESS_SHORT_UP)) ∧
    (b.status = 2 →
      ((process_body b toggled).1.status = 0 ↔
        (b.scan_cnt + 1) % 65536 > b.release_max_cnt / 20)) := by
  constructor
  · intro hst
    constructor
    · rw [body_counted b false (by omega)]
      unfold process_switch SET_EVENT_AND_RUN_CB
      simp only [hst, Bool.false_eq_true, if_false, FLEX_MS_TO_CNT_eq, next_cnt]
      split_ifs <;>
        simp_all [FLEX_BTN_PRESS_SHORT_START, FLEX_BTN_PRESS_LONG_START,
          FLEX_BTN_PRESS_LONG_HOLD]
    · rw [body_counted b true (by omega)]
      unfold process_switch SET_EVENT_AND_RUN_CB
      simp only [hst, if_true, FLEX_MS_TO_CNT_eq, next_cnt]
      split_ifs <;>
        simp_all [FLEX_BTN_PRESS_SHORT_UP, FLEX_BTN_PRESS_LONG_UP,
          FLEX_BTN_PRESS_LONG_HOLD_UP]
  · intro hst
    rw [body_counted b toggled (by omega)]
    unfold process_switch SET_EVENT_AND_RUN_CB
    simp only [hst, FLEX_MS_TO_CNT_eq, next_cnt]
    split_ifs <;> simp_all

theorem thresholds_are_converted_witness :
    (process_body (demo_pressed 10) false).1.event = FLEX_BTN_PRESS_SHORT_START ∧
    (process_body (demo_pressed 29) true).2 = some FLEX_BTN_PRESS_SHORT_UP ∧
    (process_body (demo_window 20 0) false).1.status = 0 :=
  ⟨by rw [((thresholds_are_converted (demo_pressed 10) false).1 rfl).1]; rfl,
   by rw [((thresholds_are_converted (demo_pressed 29) false).1 rfl).2]; rfl,
   ((thresholds_are_converted (demo_window 20 0) false).2 rfl).2 (by decide)⟩

/-- C16 as stated fails: the members are not compared as scan counts.  With
`short_press_start_tick = 200` and incremented scan count 11, not above 200,
a held scan fires SHORT_START; with `release_max_cnt = 400` and incremented
scan count 21, not above 400, the window expires; and a descriptor whose
members hold the scan counts 10, 50 and 60 themselves fires SHORT_START on the
first held scan. -/
theorem thresholds_not_scan_counts :
    (demo_pressed 10).status = 1 ∧ (demo_pressed 10).short_press_start_tick = 200 ∧
    next_cnt (demo_pressed 10) = 11 ∧
    (process_body (demo_pressed 10) false).2 = some FLEX_BTN_PRESS_SHORT_START ∧
    (demo_window 20 0).status = 2 ∧ (demo_window 20 0).release_max_cnt = 400 ∧
    next_cnt (demo_window 20 0) = 21 ∧
    (process_body (demo_window 20 0) false).1.status = 0 ∧
    (process_body (demo_window 20 0) false).2 = some FLEX_BTN_PRESS_CLICK ∧
    demo_cycles.status = 1 ∧ demo_cycles.short_press_start_tick = 10 ∧
    next_cnt demo_cycles = 1 ∧
    (process_body demo_cycles false).2 = some FLEX_BTN_PRESS_SHORT_START := by
  decide

/-! ## Sampling positions -/

theorem register_linked_head (s : State) (button : Nat)
    (hnull : button ≠ 0) (hcnt : ¬ s.button_cnt > MAX_BUTTON_CNT)
    (hfresh : button ∉ s.btn_head) :
    (flex_button_register s button).2.btn_head = button :: s.btn_head ∧
    (flex_button_register s button).2.button_cnt = (s.button_cnt + 1) % 256 := by
  have hex : already_exist button s.btn_head = false := by
    cases hb : already_exist button s.btn_head with
    | false => rfl
    | true => exact absurd ((already_exist_iff _ _).1 hb) hfresh
  simp [flex_button_register, hnull, hcnt, hex]

/-- Registering distinct non-null fresh descriptors one after the other, at
most 33 in all, puts them in front of the registry in reverse order of
registration. -/
theorem register_all_head (ps : List Nat) : ∀ (s : State), ps.Nodup →
    (∀ p ∈ ps, p ≠ 0 ∧ p ∉ s.btn_head) → s.button_cnt + ps.length ≤ 33 →
    (register_all s ps).btn_head = ps.reverse ++ s.btn_head ∧
    (register_all s ps).button_cnt = s.button_cnt + ps.length := by
  induction ps with
  | nil => intro s _ _ _; simp [register_all]
  | cons p ps ih =>
    intro s hnd hall hlen
    have hnd2 := List.nodup_cons.1 hnd
    have hp := hall p (by simp)
    have hlen2 : s.button_cnt + (ps.length + 1) ≤ 33 := by simpa using hlen
    have hcnt : ¬ s.button_cnt > MAX_BUTTON_CNT := by
      show ¬ s.button_cnt > 32
      omega
    have hreg := register_linked_head s p hp.1 hcnt hp.2
    have hmod : (s.button_cnt + 1) % 256 = s.button_cnt + 1 := Nat.mod_eq_of_lt (by omega)
    have ih2 := ih (flex_button_register s p).2 hnd2.2
      (by
        intro q hq
        rw [hreg.1]
        refine ⟨(hall q (by simp [hq])).1, ?_⟩
        intro hmem
        rcases List.mem_cons.1 hmem with h | h
        · exact hnd2.1 (h ▸ hq)
        · exact (hall q (by simp [hq])).2 h)
      (by rw [hreg.2, hmod]; omega)
    simp only [register_all]
    rw [ih2.1, ih2.2, hreg.1, hreg.2, hmod]
    constructor
    · simp
    · simp only [List.length_cons]; omega

/-- C12 (amended): the sampling position of a registered descriptor is its
traversal index from the head.  A successful `flex_button_register` puts the
new descriptor at index 0 and moves every descriptor registered before from
its index `k` to `k + 1`; a scan and a rejected registration leave every index
as it was.  So the position is determined by insertion order: after
registering the distinct descriptors `ps` from the empty registry, the
registry is `ps` reversed, and a descriptor's index is the number of
descriptors registered after it. -/
theorem register_shifts_positions (s : State) (button : Nat) (raw : Nat → Nat)
    (mem : Nat → flex_button_t) (ps : List Nat) :
    (button ≠ 0 → ¬ s.button_cnt > MAX_BUTTON_CNT → button ∉ s.btn_head →
      (flex_button_register s button).2.btn_head[0]? = some button ∧
      ∀ k q, s.btn_head[k]? = some q →
        (flex_button_register s button).2.btn_head[k + 1]? = some q) ∧
    ((flex_button_register s button).1 = -1 →
      (flex_button_register s button).2.btn_head = s.btn_head) ∧
    (flex_button_scan s raw).1.btn_head = s.btn_head ∧
    (ps.Nodup → (∀ p ∈ ps, p ≠ 0) → ps.length ≤ 33 →
      (register_all (State.init mem) ps).btn_head = ps.reverse) := by
  refine ⟨?_, ?_, rfl, ?_⟩
  · intro h0 hc hf
    rw [(register_linked_head s button h0 hc hf).1]
    exact ⟨by simp, fun k q hk => by simpa using hk⟩
  · intro hret
    unfold flex_button_register at hret ⊢
    by_cases hg : button = 0 ∨ s.button_cnt > MAX_BUTTON_CNT
    · simp [hg]
    · cases hex : already_exist button s.btn_head with
      | true => simp [hg, hex]
      | false =>
        have hle : ¬ s.button_cnt > MAX_BUTTON_CNT := fun h => hg (Or.inr h)
        have hval := register_linked_value s.button_cnt hle
        have hret2 : to_int8 ((s.button_cnt + 1) % 256) = -1 := by
          simpa only [hg, hex, if_false, Bool.false_eq_true] using hret
        rw [hval] at hret2
        omega
  · intro hnd hall hlen
    have h := register_all_head ps (State.init mem) hnd
      (fun p hp => ⟨hall p hp, List.not_mem_nil p⟩)
      (by show 0 + ps.length ≤ 33; omega)
    rw [h.1]
    show ps.reverse ++ [] = ps.reverse
    simp

theorem register_shifts_positions_witness :
    (flex_button_register (demo_registry 2) 7).2.btn_head[0]? = some 7 ∧
    (flex_button_register (demo_registry 2) 7).2.btn_head[1]? = some 2 ∧
    (flex_button_register (demo_registry 2) 7).2.btn_head[2]? = some 1 ∧
    (register_all (State.init demo_mem) [4, 9, 6]).btn_head = [6, 9, 4] :=
  have h := (register_shifts_positions (demo_registry 2) 7 raw_all_low demo_mem
    [4, 9, 6]).1 (by decide) (by decide) (by decide)
  ⟨h.1, h.2 0 2 (by decide), h.2 1 1 (by decide),
   (register_shifts_positions (demo_registry 2) 7 raw_all_low demo_mem [4, 9, 6]).2.2.2
     (by decide) (by decide) (by decide)⟩

/-- C12 as stated fails: descriptor 1, registered first, is at traversal index
0; after the successful registration of descriptor 2 it is at index 1.  When
the registration comes between two scans during which descriptor 1 is held
down, the retained snapshot still has its bit at position 0: the next scan sees
a toggle at both positions, takes descriptor 2, whose reader returned 0, into
PRESSED and descriptor 1, still pressed, into RELEASE_WINDOW. -/
theorem position_not_stable :
    (demo_registry 1).btn_head.indexOf 1 = 0 ∧
    (flex_button_register (demo_registry 1) 2).1 = 2 ∧
    (flex_button_register (demo_registry 1) 2).2.btn_head.indexOf 1 = 1 ∧
    (call_run (State.init demo_mem) demo_late_register).1.btn_head = [2, 1] ∧
    (call_run (State.init demo_mem) demo_late_register).1.btn_toggle = 3 ∧
    ((call_run (State.init demo_mem) demo_late_register).1.mem 2).status = 1 ∧
    ((call_run (State.init demo_mem) demo_late_register).1.mem 1).status = 2 := by
  decide

/-! ## How long a terminal event stays readable -/

/-- A scan that fires a click event or an UP event for a descriptor leaves it
in IDLE. -/
theorem terminal_fire_idle (b : flex_button_t) (t : Bool) (e : Nat)
    (hfire : (process_body b t).2 = some e)
    (hterm : is_click_event e = true ∨ is_up_event e = true) :
    (process_body b t).1.status = 0 := by
  revert hfire
  simp only [is_click_event, is_up_event, Bool.and_eq_true, Bool.or_eq_true,
    decide_eq_true_eq] at hterm
  unfold process_body count_scan process_switch SET_EVENT_AND_RUN_CB
  simp only [FLEX_BTN_PRESS_NONE, FLEX_BTN_PRESS_SHORT_START,
    FLEX_BTN_PRESS_SHORT_UP, FLEX_BTN_PRESS_LONG_START, FLEX_BTN_PRESS_LONG_UP,
    FLEX_BTN_PRESS_LONG_HOLD, FLEX_BTN_PRESS_LONG_HOLD_UP, FLEX_BTN_PRESS_CLICK,
    FLEX_BTN_PRESS_LEGENDARY] at hterm ⊢
  repeat' split
  all_goals simp_all
  all_goals omega

/-- C19 (amended): a scan fires a click event or SHORT_UP / LONG_UP /
LONG_HOLD_UP for the descriptor `p` at traversal index `k` of a registry of
distinct descriptors.  After that scan `flex_button_event_read` returns the
event and `p` is in IDLE.  After the next scan it returns
`FLEX_BTN_PRESS_NONE` if bit `k` did not toggle in that scan; if bit `k`
toggled, the step from IDLE to PRESSED leaves the event member alone and
`flex_button_event_read` still returns the event. -/
theorem terminal_event_readable (s : State) (raw1 raw2 : Nat → Nat) (k p : Nat)
    (f : Fired) (hnd : s.btn_head.Nodup) (hlen : s.btn_head.length ≤ 256)
    (hk : s.btn_head[k]? = some p)
    (hf : f ∈ (flex_button_scan s raw1).2) (hfp : f.button = p)
    (hterm : is_click_event f.event = true ∨ is_up_event f.event = true) :
    flex_button_event_read (flex_button_scan s raw1).1 p = f.event ∧
    ((flex_button_scan s raw1).1.mem p).status = 0 ∧
    f.event ≠ FLEX_BTN_PRESS_NONE ∧
    (BTN_TOGGLE (flex_button_read (flex_button_scan s raw1).1 raw2).btn_toggle k = false →
      flex_button_event_read (flex_button_scan (flex_button_scan s raw1).1 raw2).1 p
        = FLEX_BTN_PRESS_NONE) ∧
    (BTN_TOGGLE (flex_button_read (flex_button_scan s raw1).1 raw2).btn_toggle k = true →
      flex_button_event_read (flex_button_scan (flex_button_scan s raw1).1 raw2).1 p
        = f.event ∧
      ((flex_button_scan (flex_button_scan s raw1).1 raw2).1.mem p).status = 1) := by
  have h1 := scan_fired_stored s raw1 hnd hlen k p hk f hf hfp
  have hat := scan_at s raw1 hnd hlen k p hk
  have hidle : ((flex_button_scan s raw1).1.mem p).status = 0 := by
    rw [hat.1]
    exact terminal_fire_idle _ _ f.event h1.2 hterm
  have hat2 := scan_at (flex_button_scan s raw1).1 raw2 hnd hlen k p hk
  have hne : f.event ≠ FLEX_BTN_PRESS_NONE := by
    simp only [is_click_event, is_up_event, Bool.and_eq_true, Bool.or_eq_true,
      decide_eq_true_eq, FLEX_BTN_PRESS_CLICK, FLEX_BTN_PRESS_LEGENDARY,
      FLEX_BTN_PRESS_SHORT_UP, FLEX_BTN_PRESS_LONG_UP, FLEX_BTN_PRESS_LONG_HOLD_UP] at hterm
    show f.event ≠ 16
    omega
  refine ⟨h1.1, hidle, hne, ?_, ?_⟩
  · intro htog
    show ((flex_button_scan (flex_button_scan s raw1).1 raw2).1.mem p).event = _
    rw [hat2.1, htog, idle_quiet _ hidle]
  · intro htog
    constructor
    · show ((flex_button_scan (flex_button_scan s raw1).1 raw2).1.mem p).event = _
      rw [hat2.1, htog, idle_toggle _ hidle]
      exact h1.1
    · rw [hat2.1, htog, idle_toggle _ hidle]

theorem terminal_event_readable_witness :
    flex_button_event_read
      (flex_button_scan (scan_run (demo_registry 1) (List.replicate 12 raw_all_high)).1
        raw_all_low).1 1
      = FLEX_BTN_PRESS_SHORT_UP ∧
    flex_button_event_read
      (flex_button_scan
        (flex_button_scan (scan_run (demo_registry 1) (List.replicate 12 raw_all_high)).1
          raw_all_low).1 raw_all_low).1 1
      = FLEX_BTN_PRESS_NONE ∧
    flex_button_event_read
      (flex_button_scan
        (flex_button_scan (scan_run (demo_registry 1) (List.replicate 12 raw_all_high)).1
          raw_all_low).1 raw_all_high).1 1
      = FLEX_BTN_PRESS_SHORT_UP :=
  have h := terminal_event_readable
    (scan_run (demo_registry 1) (List.replicate 12 raw_all_high)).1
    raw_all_low raw_all_low 0 1
    { button := 1, event := FLEX_BTN_PRESS_SHORT_UP, cb_run := false }
    (by decide) (by decide) (by decide) (by decide) rfl (by decide)
  have h2 := terminal_event_readable
    (scan_run (demo_registry 1) (List.replicate 12 raw_all_high)).1
    raw_all_low raw_all_high 0 1
    { button := 1, event := FLEX_BTN_PRESS_SHORT_UP, cb_run := false }
    (by decide) (by decide) (by decide) (by decide) rfl (by decide)
  ⟨h.1, h.2.2.2.1 (by decide), (h2.2.2.2.2 (by decide)).1⟩

/-- C19 as stated fails when the button is pressed again on the scan after the
terminal event: a press of 12 scans is released (scan 13 fires SHORT_UP), and
the reader returns 1 again from scan 14 on.  `flex_button_event_read` returns
SHORT_UP after scan 13, after scan 14 and after every scan up to scan 24; only
scan 25 replaces it, by SHORT_START. -/
theorem terminal_event_stays :
    (scan_run (demo_registry 1)
      (List.replicate 12 raw_all_high ++ [raw_all_low])).2.getLast?
      = some [{ button := 1, event := FLEX_BTN_PRESS_SHORT_UP, cb_run := false }] ∧
    flex_button_event_read
      (scan_run (demo_registry 1) (List.replicate 12 raw_all_high ++ [raw_all_low])).1 1
      = FLEX_BTN_PRESS_SHORT_UP ∧
    flex_button_event_read
      (scan_run (demo_registry 1)
        (List.replicate 12 raw_all_high ++ [raw_all_low] ++ [raw_all_high])).1 1
      = FLEX_BTN_PRESS_SHORT_UP ∧
    flex_button_event_read
      (scan_run (demo_registry 1)
        (List.replicate 12 raw_all_high ++ [raw_all_low] ++
          List.replicate 11 raw_all_high)).1 1
      = FLEX_BTN_PRESS_SHORT_UP ∧
    flex_button_event_read
      (scan_run (demo_registry 1)
        (List.replicate 12 raw_all_high ++ [raw_all_low] ++
          List.replicate 12 raw_all_high)).1 1
      = FLEX_BTN_PRESS_SHORT_START := by
  decide

/-! ## IDLE and the retained level -/

/-- C11 (the code when a press edge falls on the scan on which the release
window expires): one button, registered, all statics zero.  It is clicked
once, and pressed again on scan 23, when the incremented scan count 21 exceeds
the window of 20 scans.  The expiry branch is taken without looking at the
toggle: CLICK is fired and the descriptor is in IDLE while its bit in the
retained snapshot is set.  From then on the edges are taken the wrong way
round: the release on scan 24 puts the descriptor in PRESSED over a clear bit,
and eleven scans later SHORT_START is fired although the reader has returned 0
since scan 24. -/
theorem idle_with_bit_set :
    (demo_registry 1).btn_head = [1] ∧ ((demo_registry 1).mem 1).status = 0 ∧
    (demo_registry 1).btn_data_pre = 0 ∧
    (scan_run (demo_registry 1) press_at_expiry).2.getLast?
      = some [{ button := 1, event := FLEX_BTN_PRESS_CLICK, cb_run := false }] ∧
    ((scan_run (demo_registry 1) press_at_expiry).1.mem 1).status = 0 ∧
    (scan_run (demo_registry 1) press_at_expiry).1.btn_data_pre.testBit 0 = true ∧
    ((scan_run (demo_registry 1) (press_at_expiry ++ [raw_all_low])).1.mem 1).status = 1 ∧
    (scan_run (demo_registry 1) (press_at_expiry ++ [raw_all_low])).1.btn_data_pre = 0 ∧
    (scan_run (demo_registry 1)
      (press_at_expiry ++ List.replicate 12 raw_all_low)).2.getLast?
      = some [{ button := 1, event := FLEX_BTN_PRESS_SHORT_START, cb_run := false }] ∧
    (scan_run (demo_registry 1)
      (press_at_expiry ++ List.replicate 12 raw_all_low)).1.btn_data_pre = 0 := by
  decide

end FlexibleButton
